import Mathlib

/-!
# Spinel NCP protocol engine (`src/ncp/ncp_base.cpp`, `src/ncp/ncp.cpp`)

A shallow embedding of the host-control-protocol bridge: the property
dispatcher (`HandleReceive`, `HandleCommand`, the GET/SET/INSERT/REMOVE
handlers), the outbound scheduler (`SendPropteryUpdate`, `HandleSendDone`) and
the stack event bridge (`HandleReceivedDatagram`, `HandleActiveScanResult`,
`RunUpdateAddressesTask`).

* Machine integers are natural numbers, reduced modulo `2^w` where the C code
  narrows them.
* The object state of `NcpBase`/`Ncp` is an explicit record that every member
  function transforms.
* The network stack is a parameter (`StackApi`): one field per accessor the
  engine calls.  Every call is also appended to the event log of the state, so
  that "no accessor is invoked" is a statement about that log.
* What the engine hands to the transport (`Ncp::Send`) and every
  `Message::Free` is appended to the same log.
* The random-number source of the CC2538 platform
  (`examples/platforms/cc2538/random.c`) is embedded over a record of the
  registers it reads and of the radio driver it calls; each of its polling
  loops takes fuel.
-/

namespace Thread

/-! ## Error and status catalogs -/

/-- The error taxonomy of the stack (`ThreadError`). The enumerators named in
`ncp_base.cpp` are constructors of their own; every other enumerator of the
header is `kThreadError_Other`. -/
inductive ThreadError
  | kThreadError_None
  | kThreadError_Failed
  | kThreadError_Drop
  | kThreadError_NoBufs
  | kThreadError_Busy
  | kThreadError_Parse
  | kThreadError_InvalidArgs
  | kThreadError_NotImplemented
  | kThreadError_InvalidState
  | kThreadError_Other (code : Nat)
deriving DecidableEq

open ThreadError

/-- The device roles returned by `otGetDeviceRole` (`openthread.h`). -/
inductive otDeviceRole
  | kDeviceRoleDisabled
  | kDeviceRoleDetached
  | kDeviceRoleChild
  | kDeviceRoleRouter
  | kDeviceRoleLeader
deriving DecidableEq

open otDeviceRole

/-- Modelled from the spec: the status catalog of the Spinel protocol
(`spinel.h` is not among the sources); "fixed small-integer catalogs shared
with the host". -/
def SPINEL_STATUS_OK : Nat := 0
/-- Modelled from the spec: status catalog, generic failure. -/
def SPINEL_STATUS_FAILURE : Nat := 1
/-- Modelled from the spec: status catalog, unimplemented. -/
def SPINEL_STATUS_UNIMPLEMENTED : Nat := 2
/-- Modelled from the spec: status catalog, invalid argument. -/
def SPINEL_STATUS_INVALID_ARGUMENT : Nat := 3
/-- Modelled from the spec: status catalog, invalid state. -/
def SPINEL_STATUS_INVALID_STATE : Nat := 4
/-- Modelled from the spec: status catalog, invalid command. -/
def SPINEL_STATUS_INVALID_COMMAND : Nat := 5
/-- Modelled from the spec: status catalog, invalid interface. -/
def SPINEL_STATUS_INVALID_INTERFACE : Nat := 6
/-- Modelled from the spec: status catalog, internal error. -/
def SPINEL_STATUS_INTERNAL_ERROR : Nat := 7
/-- Modelled from the spec: status catalog, parse error. -/
def SPINEL_STATUS_PARSE_ERROR : Nat := 9
/-- Modelled from the spec: status catalog, out of memory. -/
def SPINEL_STATUS_NOMEM : Nat := 11
/-- Modelled from the spec: status catalog, busy. -/
def SPINEL_STATUS_BUSY : Nat := 12
/-- Modelled from the spec: status catalog, property not found. -/
def SPINEL_STATUS_PROPERTY_NOT_FOUND : Nat := 13
/-- Modelled from the spec: status catalog, dropped. -/
def SPINEL_STATUS_DROPPED : Nat := 14
/-- Modelled from the spec: status catalog, software reset. -/
def SPINEL_STATUS_RESET_SOFTWARE : Nat := 114

/-- Modelled from the spec: command catalog (`GET` is 2 in the spec's basic
GET scenario; the others are its neighbours in the Spinel catalog). -/
def SPINEL_CMD_NOOP : Nat := 0
/-- Modelled from the spec: command catalog. -/
def SPINEL_CMD_RESET : Nat := 1
/-- Modelled from the spec: command catalog. -/
def SPINEL_CMD_PROP_VALUE_GET : Nat := 2
/-- Modelled from the spec: command catalog. -/
def SPINEL_CMD_PROP_VALUE_SET : Nat := 3
/-- Modelled from the spec: command catalog. -/
def SPINEL_CMD_PROP_VALUE_INSERT : Nat := 4
/-- Modelled from the spec: command catalog. -/
def SPINEL_CMD_PROP_VALUE_REMOVE : Nat := 5
/-- Modelled from the spec: command catalog. -/
def SPINEL_CMD_PROP_VALUE_IS : Nat := 6
/-- Modelled from the spec: command catalog. -/
def SPINEL_CMD_PROP_VALUE_INSERTED : Nat := 7

/-- Modelled from the spec: property-key catalog (`spinel.h` is not among the
sources). Only the distinctness of the keys matters below. -/
def SPINEL_PROP_LAST_STATUS : Nat := 0
/-- Modelled from the spec: property-key catalog. -/
def SPINEL_PROP_PROTOCOL_VERSION : Nat := 1
/-- Modelled from the spec: property-key catalog. -/
def SPINEL_PROP_CAPABILITIES : Nat := 2
/-- Modelled from the spec: property-key catalog. -/
def SPINEL_PROP_NCP_VERSION : Nat := 3
/-- Modelled from the spec: property-key catalog. -/
def SPINEL_PROP_INTERFACE_COUNT : Nat := 4
/-- Modelled from the spec: property-key catalog. -/
def SPINEL_PROP_POWER_STATE : Nat := 5
/-- Modelled from the spec: property-key catalog. -/
def SPINEL_PROP_HWADDR : Nat := 6
/-- Modelled from the spec: property-key catalog. -/
def SPINEL_PROP_PHY_CHAN : Nat := 33
/-- Modelled from the spec: property-key catalog. -/
def SPINEL_PROP_PHY_FREQ : Nat := 35
/-- Modelled from the spec: property-key catalog. -/
def SPINEL_PROP_PHY_TX_POWER : Nat := 37
/-- Modelled from the spec: property-key catalog. -/
def SPINEL_PROP_PHY_RSSI : Nat := 38
/-- Modelled from the spec: property-key catalog. -/
def SPINEL_PROP_MAC_SCAN_STATE : Nat := 48
/-- Modelled from the spec: property-key catalog. -/
def SPINEL_PROP_MAC_SCAN_MASK : Nat := 49
/-- Modelled from the spec: property-key catalog. -/
def SPINEL_PROP_MAC_SCAN_BEACON : Nat := 51
/-- Modelled from the spec: property-key catalog. -/
def SPINEL_PROP_MAC_15_4_LADDR : Nat := 52
/-- Modelled from the spec: property-key catalog. -/
def SPINEL_PROP_MAC_15_4_SADDR : Nat := 53
/-- Modelled from the spec: property-key catalog. -/
def SPINEL_PROP_MAC_15_4_PANID : Nat := 54
/-- Modelled from the spec: property-key catalog. -/
def SPINEL_PROP_NET_STATE : Nat := 66
/-- Modelled from the spec: property-key catalog. -/
def SPINEL_PROP_NET_ROLE : Nat := 67
/-- Modelled from the spec: property-key catalog. -/
def SPINEL_PROP_NET_NETWORK_NAME : Nat := 68
/-- Modelled from the spec: property-key catalog. -/
def SPINEL_PROP_NET_XPANID : Nat := 69
/-- Modelled from the spec: property-key catalog. -/
def SPINEL_PROP_NET_MASTER_KEY : Nat := 70
/-- Modelled from the spec: property-key catalog. -/
def SPINEL_PROP_NET_KEY_SEQUENCE : Nat := 71
/-- Modelled from the spec: property-key catalog. -/
def SPINEL_PROP_NET_PARTITION_ID : Nat := 72
/-- Modelled from the spec: property-key catalog. -/
def SPINEL_PROP_THREAD_LEADER : Nat := 80
/-- Modelled from the spec: property-key catalog. -/
def SPINEL_PROP_IPV6_ML_PREFIX : Nat := 98
/-- Modelled from the spec: property-key catalog. -/
def SPINEL_PROP_IPV6_ADDRESS_TABLE : Nat := 99
/-- Modelled from the spec: property-key catalog. -/
def SPINEL_PROP_IPV6_ROUTE_TABLE : Nat := 100
/-- Modelled from the spec: property-key catalog. -/
def SPINEL_PROP_STREAM_DEBUG : Nat := 112
/-- Modelled from the spec: property-key catalog. -/
def SPINEL_PROP_STREAM_RAW : Nat := 113
/-- Modelled from the spec: property-key catalog. -/
def SPINEL_PROP_STREAM_NET : Nat := 114
/-- Modelled from the spec: property-key catalog. -/
def SPINEL_PROP_STREAM_NET_INSECURE : Nat := 115

/-- Modelled from the spec: value catalog of the network-state property. -/
def SPINEL_NET_STATE_OFFLINE : Nat := 0
/-- Modelled from the spec: value catalog of the network-state property. -/
def SPINEL_NET_STATE_DETACHED : Nat := 1
/-- Modelled from the spec: value catalog of the network-state property. -/
def SPINEL_NET_STATE_ATTACHING : Nat := 2
/-- Modelled from the spec: value catalog of the network-state property. -/
def SPINEL_NET_STATE_ATTACHED : Nat := 3
/-- Modelled from the spec: value catalog of the role property. -/
def SPINEL_NET_ROLE_NONE : Nat := 0
/-- Modelled from the spec: value catalog of the role property. -/
def SPINEL_NET_ROLE_CHILD : Nat := 1
/-- Modelled from the spec: value catalog of the role property. -/
def SPINEL_NET_ROLE_ROUTER : Nat := 2
/-- Modelled from the spec: value catalog of the role property. -/
def SPINEL_NET_ROLE_LEADER : Nat := 3
/-- Modelled from the spec: value catalog of the scan-state property. -/
def SPINEL_SCAN_STATE_IDLE : Nat := 0
/-- Modelled from the spec: value catalog of the scan-state property. -/
def SPINEL_SCAN_STATE_BEACON : Nat := 1
/-- Modelled from the spec: value catalog of the scan-state property. -/
def SPINEL_SCAN_STATE_ENERGY : Nat := 2
/-- Modelled from the spec: value catalog of the power-state property. -/
def SPINEL_POWER_STATE_ONLINE : Nat := 4
/-- Modelled from the spec: protocol identification constants. -/
def SPINEL_PROTOCOL_TYPE_THREAD : Nat := 3
/-- Modelled from the spec: protocol identification constants. -/
def SPINEL_PROTOCOL_VERSION_THREAD_MAJOR : Nat := 0
/-- Modelled from the spec: protocol identification constants. -/
def SPINEL_PROTOCOL_VERSION_THREAD_MINOR : Nat := 0
/-- Modelled from the spec: capability catalog. -/
def SPINEL_CAP_ROLE_ROUTER : Nat := 48
/-- Modelled from the spec: beacon flag layout. -/
def SPINEL_BEACON_THREAD_FLAG_VERSION_SHIFT : Nat := 4
/-- Modelled from the spec: beacon flag layout. -/
def SPINEL_BEACON_THREAD_FLAG_JOINABLE : Nat := 1
/-- Modelled from the spec: beacon flag layout. -/
def SPINEL_BEACON_THREAD_FLAG_NATIVE : Nat := 8
/-- Modelled from the spec: lowest IEEE 802.15.4 channel (`platform/radio.h`
is not among the sources). -/
def kPhyMinChannel : Nat := 11

/-- Modelled from the spec: "bit7 = valid-flag (must be 1 for the frame to be
processed)". -/
def SPINEL_HEADER_FLAG : Nat := 0x80
/-- Modelled from the spec: interface identifier 0 in header position. -/
def SPINEL_HEADER_IID_0 : Nat := 0
/-- Modelled from the spec: "bits 6–4 = interface id (only 0 accepted)". -/
def SPINEL_HEADER_GET_IID (header : Nat) : Nat := (header >>> 4) &&& 7
/-- Modelled from the spec: "bits 3–0 = transaction id (0 =
no-reply-expected)". -/
def SPINEL_HEADER_GET_TID (header : Nat) : Nat := header &&& 15

/-- The total error→status map, `ThreadErrorToSpinelStatus`. -/
def ThreadErrorToSpinelStatus (error : ThreadError) : Nat :=
  match error with
  | kThreadError_None => SPINEL_STATUS_OK
  | kThreadError_Failed => SPINEL_STATUS_FAILURE
  | kThreadError_Drop => SPINEL_STATUS_DROPPED
  | kThreadError_NoBufs => SPINEL_STATUS_NOMEM
  | kThreadError_Busy => SPINEL_STATUS_BUSY
  | kThreadError_Parse => SPINEL_STATUS_PARSE_ERROR
  | kThreadError_InvalidArgs => SPINEL_STATUS_INVALID_ARGUMENT
  | kThreadError_NotImplemented => SPINEL_STATUS_UNIMPLEMENTED
  | kThreadError_InvalidState => SPINEL_STATUS_INVALID_STATE
  | kThreadError_Other _ => SPINEL_STATUS_FAILURE

/-! ## Wire codec

`spinel_datatype_pack` / `spinel_datatype_unpack` are not among the sources.
They are modelled from the spec (§4.1, §6): a format string of type letters,
little-endian fixed-width integers, a packed unsigned integer with seven bits
per byte and the most significant bit as continuation flag, octet blobs and
structures with an explicit length unless they close the format, and
null-terminated text. -/

/-- One argument of the variadic pack call, or one value written by unpack. -/
inductive spinel_arg
  | uint (v : Nat)
  | int (v : Int)
  | bytes (b : List Nat)
  | utf8 (s : List Nat)
deriving DecidableEq

/-- Result of a pack call: the C return value (`-1` on failure) and the
octets written to the destination. -/
structure spinel_packed where
  len : Int
  bytes : List Nat
deriving DecidableEq

/-- Result of an unpack call: the C return value (`-1` on failure) and the
values stored through the output pointers before the call returned. -/
structure spinel_unpacked where
  len : Int
  values : List spinel_arg
deriving DecidableEq

/-- Modelled from the spec: the packed-varint encoder, "7-bit-per-byte
continuation scheme (MSB=continue)", least significant group first. The fuel
is the number of octets still allowed. -/
def spinel_packed_uint_encode_aux : Nat → Nat → List Nat
  | 0, _ => []
  | fuel + 1, v =>
    if v < 128 then [v] else (v % 128 + 128) :: spinel_packed_uint_encode_aux fuel (v / 128)

/-- Modelled from the spec: packed-varint encoding of a 32-bit `unsigned int`
(at most five octets). -/
def spinel_packed_uint_encode (v : Nat) : List Nat :=
  spinel_packed_uint_encode_aux 5 (v % 2 ^ 32)

/-- Modelled from the spec: the packed-varint decoder; "decoding must reject
sequences exceeding a maximum byte count". Returns the value and the number
of octets consumed. -/
def spinel_packed_uint_decode_aux : Nat → Nat → List Nat → Option (Nat × Nat)
  | 0, _, _ => none
  | _ + 1, _, [] => none
  | fuel + 1, shift, b :: rest =>
    if b % 256 < 128 then some ((b % 128) * 2 ^ shift, 1)
    else
      match spinel_packed_uint_decode_aux fuel (shift + 7) rest with
      | some (v, n) => some ((b % 128) * 2 ^ shift + v, n + 1)
      | none => none

/-- Modelled from the spec: packed-varint decoding into a 32-bit
`unsigned int`; at most five octets are accepted. -/
def spinel_packed_uint_decode (data : List Nat) : Option (Nat × Nat) :=
  match spinel_packed_uint_decode_aux 5 0 data with
  | some (v, n) => some (v % 2 ^ 32, n)
  | none => none

/-- Little-endian octets of a 16-bit value. -/
def uint16_le (v : Nat) : List Nat := [v % 256, (v / 256) % 256]

/-- Little-endian octets of a 32-bit value. -/
def uint32_le (v : Nat) : List Nat :=
  [v % 256, (v / 256) % 256, (v / 65536) % 256, (v / 16777216) % 256]

/-- Exactly `n` octets read from a pointer to a fixed-size field. -/
def fixed_octets (n : Nat) (b : List Nat) : List Nat :=
  (b ++ List.replicate n 0).take n

/-- A blob or structure that closes its format (or its enclosing structure)
is written without a length. -/
def format_ends (fmt : List Char) : Bool :=
  match fmt with
  | [] => true
  | c :: _ => c == ')'

/-- Modelled from the spec: the pack interpreter. `out` collects the octets of
the innermost open structure, `stack` the octets written before each open
structure (`T` opens one, its `(` is skipped, `)` closes it). -/
def spinel_datatype_pack_aux :
    List Char → List spinel_arg → List Nat → List (List Nat) → Option (List Nat)
  | [], _, out, stack =>
    match stack with
    | [] => some out
    | _ :: _ => none
  | c :: fmt, args, out, stack =>
    if c = '.' then spinel_datatype_pack_aux fmt args out stack
    else if c = 'T' then
      match fmt with
      | '(' :: _ => spinel_datatype_pack_aux fmt args [] (out :: stack)
      | _ => none
    else if c = '(' then spinel_datatype_pack_aux fmt args out stack
    else if c = ')' then
      match stack with
      | before :: stack =>
        if format_ends fmt then spinel_datatype_pack_aux fmt args (before ++ out) stack
        else spinel_datatype_pack_aux fmt args (before ++ uint16_le out.length ++ out) stack
      | [] => none
    else
      match args with
      | spinel_arg.uint v :: args =>
        if c = 'C' then spinel_datatype_pack_aux fmt args (out ++ [v % 256]) stack
        else if c = 'S' then spinel_datatype_pack_aux fmt args (out ++ uint16_le v) stack
        else if c = 'L' then spinel_datatype_pack_aux fmt args (out ++ uint32_le v) stack
        else if c = 'i' then
          spinel_datatype_pack_aux fmt args (out ++ spinel_packed_uint_encode v) stack
        else none
      | spinel_arg.int v :: args =>
        if c = 'c' then spinel_datatype_pack_aux fmt args (out ++ [(v % 256).toNat]) stack
        else none
      | spinel_arg.bytes b :: args =>
        if c = '6' then spinel_datatype_pack_aux fmt args (out ++ fixed_octets 16 b) stack
        else if c = 'E' then spinel_datatype_pack_aux fmt args (out ++ fixed_octets 8 b) stack
        else if c = 'D' then
          if format_ends fmt then spinel_datatype_pack_aux fmt args (out ++ b) stack
          else spinel_datatype_pack_aux fmt args (out ++ uint16_le b.length ++ b) stack
        else none
      | spinel_arg.utf8 t :: args =>
        if c = 'U' then spinel_datatype_pack_aux fmt args (out ++ t ++ [0]) stack
        else none
      | [] => none

/-- Modelled from the spec: `pack(format, values) -> buffer`; "fails with an
EncodingOverflow if the destination capacity is insufficient". `cap` is the
capacity of the destination. The overflow is reported the way the call sites
in `ncp_base.cpp` test for it (`header_len + value_len <= sizeof(buf)` and
`value_len > sizeof(buf) - header_len`): the returned length is the length the
value needs, which then exceeds the capacity; a malformed format or argument
list returns `-1`. What the destination holds after an overflow is read by no
caller and is left empty here. -/
def spinel_datatype_pack (cap : Nat) (fmt : String) (args : List spinel_arg) :
    spinel_packed :=
  match spinel_datatype_pack_aux fmt.toList args [] [] with
  | some out => if out.length ≤ cap then ⟨out.length, out⟩ else ⟨out.length, []⟩
  | none => ⟨-1, []⟩

/-- Little-endian value of a list of octets. -/
def le_value : List Nat → Nat
  | [] => 0
  | b :: rest => b % 256 + 256 * le_value rest

/-- The rest of a format after the structure that its leading `(` opens;
`depth` counts the parentheses that are open. -/
def struct_tail : Nat → List Char → List Char
  | _, [] => []
  | depth, c :: fmt =>
    if c = '(' then struct_tail (depth + 1) fmt
    else if c = ')' then (if depth ≤ 1 then fmt else struct_tail (depth - 1) fmt)
    else struct_tail depth fmt

/-- Modelled from the spec: the unpack interpreter for the formats of the
engine (`C`, `c`, `S`, `L`, `i`, `6`, `E`, `U`, `D` and structures `T(...)`).
`used` counts the octets consumed so far, `vals` the values already stored
through the output pointers, and `stack` holds, for each open structure, the
octets that follow it and the count of octets consumed once it is closed. -/
def spinel_datatype_unpack_aux :
    List Char → List Nat → Nat → List spinel_arg → List (List Nat × Nat) → spinel_unpacked
  | [], _, used, vals, stack =>
    match stack with
    | [] => ⟨used, vals⟩
    | _ :: _ => ⟨-1, vals⟩
  | c :: fmt, data, used, vals, stack =>
    if c = '.' then spinel_datatype_unpack_aux fmt data used vals stack
    else if c = 'T' then
      match fmt with
      | '(' :: _ =>
        if format_ends (struct_tail 0 fmt) then
          spinel_datatype_unpack_aux fmt data used vals (([], used + data.length) :: stack)
        else if 2 ≤ data.length ∧ le_value (data.take 2) ≤ (data.drop 2).length then
          spinel_datatype_unpack_aux fmt ((data.drop 2).take (le_value (data.take 2)))
            (used + 2) vals
            ((data.drop (2 + le_value (data.take 2)), used + 2 + le_value (data.take 2)) :: stack)
        else ⟨-1, vals⟩
      | _ => ⟨-1, vals⟩
    else if c = '(' then spinel_datatype_unpack_aux fmt data used vals stack
    else if c = ')' then
      match stack with
      | (after, used_after) :: stack => spinel_datatype_unpack_aux fmt after used_after vals stack
      | [] => ⟨-1, vals⟩
    else if c = 'C' then
      match data with
      | b :: rest =>
        spinel_datatype_unpack_aux fmt rest (used + 1) (vals ++ [spinel_arg.uint (b % 256)]) stack
      | [] => ⟨-1, vals⟩
    else if c = 'c' then
      match data with
      | b :: rest =>
        spinel_datatype_unpack_aux fmt rest (used + 1)
          (vals ++ [spinel_arg.int (if b % 256 < 128 then (b % 256 : Nat) else (b % 256 : Nat) - 256)])
          stack
      | [] => ⟨-1, vals⟩
    else if c = 'S' then
      if 2 ≤ data.length then
        spinel_datatype_unpack_aux fmt (data.drop 2) (used + 2)
          (vals ++ [spinel_arg.uint (le_value (data.take 2))]) stack
      else ⟨-1, vals⟩
    else if c = 'L' then
      if 4 ≤ data.length then
        spinel_datatype_unpack_aux fmt (data.drop 4) (used + 4)
          (vals ++ [spinel_arg.uint (le_value (data.take 4))]) stack
      else ⟨-1, vals⟩
    else if c = 'i' then
      match spinel_packed_uint_decode data with
      | some (v, n) =>
        spinel_datatype_unpack_aux fmt (data.drop n) (used + n) (vals ++ [spinel_arg.uint v]) stack
      | none => ⟨-1, vals⟩
    else if c = '6' then
      if 16 ≤ data.length then
        spinel_datatype_unpack_aux fmt (data.drop 16) (used + 16)
          (vals ++ [spinel_arg.bytes (data.take 16)]) stack
      else ⟨-1, vals⟩
    else if c = 'E' then
      if 8 ≤ data.length then
        spinel_datatype_unpack_aux fmt (data.drop 8) (used + 8)
          (vals ++ [spinel_arg.bytes (data.take 8)]) stack
      else ⟨-1, vals⟩
    else if c = 'U' then
      if (data.takeWhile (fun b => b % 256 != 0)).length < data.length then
        spinel_datatype_unpack_aux fmt
          (data.drop ((data.takeWhile (fun b => b % 256 != 0)).length + 1))
          (used + (data.takeWhile (fun b => b % 256 != 0)).length + 1)
          (vals ++ [spinel_arg.utf8 (data.takeWhile (fun b => b % 256 != 0))]) stack
      else ⟨-1, vals⟩
    else if c = 'D' then
      if format_ends fmt then
        spinel_datatype_unpack_aux fmt [] (used + data.length) (vals ++ [spinel_arg.bytes data])
          stack
      else if 2 ≤ data.length ∧ le_value (data.take 2) ≤ (data.drop 2).length then
        spinel_datatype_unpack_aux fmt (data.drop (2 + le_value (data.take 2)))
          (used + 2 + le_value (data.take 2))
          (vals ++ [spinel_arg.bytes ((data.drop 2).take (le_value (data.take 2)))]) stack
      else ⟨-1, vals⟩
    else ⟨-1, vals⟩

/-- Modelled from the spec: `unpack(buffer, format) -> (values,
bytesConsumed)`; "fails with a ParseError if the buffer is shorter than the
format requires or a variable-length field's declared length exceeds the
remaining buffer". -/
def spinel_datatype_unpack (data : List Nat) (fmt : String) : spinel_unpacked :=
  spinel_datatype_unpack_aux fmt.toList data 0 [] []

/-- Format letters of the codec, as the source names them. -/
def SPINEL_DATATYPE_VOID_S : String := "."
/-- Format letter: unsigned 8-bit integer. -/
def SPINEL_DATATYPE_UINT8_S : String := "C"
/-- Format letter: signed 8-bit integer. -/
def SPINEL_DATATYPE_INT8_S : String := "c"
/-- Format letter: unsigned 16-bit integer. -/
def SPINEL_DATATYPE_UINT16_S : String := "S"
/-- Format letter: unsigned 32-bit integer. -/
def SPINEL_DATATYPE_UINT32_S : String := "L"
/-- Format letter: packed unsigned integer. -/
def SPINEL_DATATYPE_UINT_PACKED_S : String := "i"
/-- Format letter: 16-byte network address. -/
def SPINEL_DATATYPE_IPv6ADDR_S : String := "6"
/-- Format letter: 8-byte extended address. -/
def SPINEL_DATATYPE_EUI64_S : String := "E"
/-- Format letter: octet blob. -/
def SPINEL_DATATYPE_DATA_S : String := "D"
/-- Format letter: null-terminated text. -/
def SPINEL_DATATYPE_UTF8_S : String := "U"

/-- The `unsigned int` stored by unpack at output position `n`; the variable
keeps its initial value `init` when unpack did not reach that position. -/
def spinel_unpacked.uintAt (r : spinel_unpacked) (n : Nat) (init : Nat) : Nat :=
  match r.values.get? n with
  | some (spinel_arg.uint v) => v
  | _ => init

/-- The octets stored by unpack at output position `n` (pointer and length);
`none` is the null pointer the variable was initialised with. -/
def spinel_unpacked.bytesAt (r : spinel_unpacked) (n : Nat) : Option (List Nat) :=
  match r.values.get? n with
  | some (spinel_arg.bytes b) => some b
  | some (spinel_arg.utf8 b) => some b
  | _ => none

/-! ## Engine state -/

/-- A message buffer of the stack (`Message`): an identity and its payload. -/
structure Message where
  id : Nat
  data : List Nat
deriving DecidableEq

/-- One entry of the unicast address list (`otNetifAddress`). -/
structure otNetifAddress where
  mAddress : List Nat
  mPrefixLength : Nat
  mPreferredLifetime : Nat
  mValidLifetime : Nat
deriving DecidableEq

/-- One discovered beacon (`otActiveScanResult`). -/
structure otActiveScanResult where
  mNetworkName : List Nat
  mExtPanId : List Nat
  mExtAddress : List Nat
  mPanId : Nat
  mChannel : Nat
  mRssi : Int
  mVersion : Nat
  mIsJoinable : Bool
  mIsNative : Bool
deriving DecidableEq

/-- The accessors of the stack that the engine calls. -/
inductive StackCall
  | otGetNetworkName | otGetPanId | otGetChannel | otGetExtendedAddress
  | GetShortAddress | otGetExtendedPanId | otGetMasterKey | otGetKeySequenceCounter
  | otPlatRadioGetNoiseFloor | otGetPartitionId | otGetDeviceRole | GetLeaderAddress
  | GetMeshLocalPrefix | otGetUnicastAddresses | otActiveScanInProgress
  | SetMeshLocalPrefix | otDisable | otEnable | otBecomeDetached | otBecomeRouter
  | otBecomeLeader | otBecomeChild | otActiveScan | NewMessage | Append
  | GetInterfaceId | HandleDatagram | otSetNetworkName | otSetChannel | otSetPanId
  | otSetExtendedPanId | otSetMasterKey | otSetKeySequenceCounter
deriving DecidableEq

/-- What the engine does to its collaborators, in program order. -/
inductive Event
  | Send (frame : List Nat)
  | SendMessage (frame : List Nat) (message : Message)
  | Free (message : Message)
  | Stack (call : StackCall)
deriving DecidableEq

/-- The narrow accessor interface of the network stack, over a stack state
`σ`. The stack itself is an external collaborator; the engine is verified for
every implementation of this interface. -/
structure StackApi (σ : Type) where
  otGetNetworkName : σ → List Nat
  otGetPanId : σ → Nat
  otGetChannel : σ → Nat
  otGetExtendedAddress : σ → List Nat
  GetShortAddress : σ → Nat
  otGetExtendedPanId : σ → List Nat
  otGetMasterKey : σ → List Nat
  otGetKeySequenceCounter : σ → Nat
  otPlatRadioGetNoiseFloor : σ → Int
  otGetPartitionId : σ → Nat
  otGetDeviceRole : σ → otDeviceRole
  GetLeaderAddress : σ → ThreadError × List Nat
  GetMeshLocalPrefix : σ → Option (List Nat)
  otGetUnicastAddresses : σ → List otNetifAddress
  otActiveScanInProgress : σ → Bool
  SetMeshLocalPrefix : σ → List Nat → ThreadError × σ
  otDisable : σ → ThreadError × σ
  otEnable : σ → ThreadError × σ
  otBecomeDetached : σ → ThreadError × σ
  otBecomeRouter : σ → ThreadError × σ
  otBecomeLeader : σ → ThreadError × σ
  otBecomeChild : σ → ThreadError × σ
  otActiveScan : σ → Nat → Nat → ThreadError × σ
  NewMessage : σ → Option Message × σ
  Append : σ → Message → List Nat → ThreadError × Message × σ
  GetInterfaceId : σ → Nat
  HandleDatagram : σ → Message → Nat → ThreadError × σ
  otSetNetworkName : σ → List Nat → ThreadError × σ
  otSetChannel : σ → Nat → ThreadError × σ
  otSetPanId : σ → Nat → ThreadError × σ
  otSetExtendedPanId : σ → List Nat → σ
  otSetMasterKey : σ → List Nat → ThreadError × σ
  otSetKeySequenceCounter : σ → Nat → σ

/-- Modelled from the spec: the Outbound Datagram Queue (`MessageQueue` is not
among the sources), "an ordered sequence of network-stack messages"; "if the
queue is full, the datagram is dropped". -/
structure MessageQueue where
  items : List Message
  capacity : Nat
deriving DecidableEq

/-- Modelled from the spec: head of the queue, `none` for the null pointer. -/
def MessageQueue.GetHead (q : MessageQueue) : Option Message := q.items.head?

/-- Modelled from the spec: append at the tail; fails when the queue is
full. -/
def MessageQueue.Enqueue (q : MessageQueue) (message : Message) : ThreadError × MessageQueue :=
  if q.items.length < q.capacity then
    (kThreadError_None, { q with items := q.items ++ [message] })
  else (kThreadError_NoBufs, q)

/-- Modelled from the spec: remove a message from the queue. -/
def MessageQueue.Dequeue (q : MessageQueue) (message : Message) : MessageQueue :=
  { q with items := q.items.erase message }

/-- The member variables of `NcpBase` and `Ncp`, the state of the stack, and
the log of effects. `mQueuedGetHeader`/`mQueuedGetKey` are the Pending-Get
Slot (header `0` means empty). -/
structure NcpBase (σ : Type) where
  mSending : Bool
  mLastStatus : Nat
  mQueuedGetHeader : Nat
  mQueuedGetKey : Nat
  mSendQueue : MessageQueue
  mChannelMask : Nat
  mSendMessage : Option Message
  gActiveScanContextHack : Bool
  stack : σ
  trace : List Event

variable {σ : Type}

/-- Log a call of a stack accessor that only reads. -/
def NcpBase.call (s : NcpBase σ) (c : StackCall) : NcpBase σ :=
  { s with trace := s.trace ++ [Event.Stack c] }

/-- Log a call of a stack accessor that leaves the stack in state `st`. -/
def NcpBase.invoke (s : NcpBase σ) (c : StackCall) (st : σ) : NcpBase σ :=
  { s with stack := st, trace := s.trace ++ [Event.Stack c] }

/-- The frames handed to the transport so far, oldest first. -/
def sentFrames : List Event → List (List Nat)
  | [] => []
  | Event.Send frame :: rest => frame :: sentFrames rest
  | Event.SendMessage frame message :: rest => (frame ++ message.data) :: sentFrames rest
  | _ :: rest => sentFrames rest

/-- The stack accessors called so far, oldest first. -/
def stackCalls : List Event → List StackCall
  | [] => []
  | Event.Stack c :: rest => c :: stackCalls rest
  | _ :: rest => stackCalls rest

/-- The messages freed so far, oldest first. -/
def freedMessages : List Event → List Message
  | [] => []
  | Event.Free m :: rest => m :: freedMessages rest
  | _ :: rest => freedMessages rest

/-! ## Transport (`ncp.cpp`) -/

/-- `Ncp::Send(frame, frameLength)`: the frame is encoded and handed to the
serial driver. -/
def Send (frame : List Nat) (s : NcpBase σ) : NcpBase σ :=
  { s with trace := s.trace ++ [Event.Send frame] }

/-- `Ncp::Send(frame, frameLength, message)`: the frame followed by the
message payload is handed to the serial driver; the message is remembered in
`mSendMessage`. -/
def SendWithMessage (frame : List Nat) (message : Message) (s : NcpBase σ) : NcpBase σ :=
  { s with mSendMessage := some message,
           trace := s.trace ++ [Event.SendMessage frame message] }

/-! ## Outbound scheduler -/

/-- `NcpBase::SendPropteryUpdate(header, command, key, pack_format, ...)`. -/
def SendPropteryUpdate (header command key : Nat) (pack_format : String)
    (args : List spinel_arg) (s : NcpBase σ) : NcpBase σ :=
  let hdr := spinel_datatype_pack 256 "Cii"
    [spinel_arg.uint header, spinel_arg.uint (command % 256), spinel_arg.uint key]
  if hdr.len > 0 then
    let value := spinel_datatype_pack (256 - hdr.len.toNat) pack_format args
    if value.len ≥ 0 ∧ hdr.len + value.len ≤ 256 then
      Send (hdr.bytes ++ value.bytes) { s with mSending := true }
    else s
  else s

/-- `NcpBase::SendPropteryUpdate(header, command, key, message)`. -/
def SendPropteryUpdateMessage (header command key : Nat) (message : Message)
    (s : NcpBase σ) : NcpBase σ :=
  let hdr := spinel_datatype_pack 8 "Cii"
    [spinel_arg.uint header, spinel_arg.uint (command % 256), spinel_arg.uint key]
  if hdr.len > 0 then
    SendWithMessage hdr.bytes message { s with mSending := true }
  else s

/-- `NcpBase::SendLastStatus`. -/
def SendLastStatus (header lastStatus : Nat) (s : NcpBase σ) : NcpBase σ :=
  SendPropteryUpdate header SPINEL_CMD_PROP_VALUE_IS SPINEL_PROP_LAST_STATUS "i"
    [spinel_arg.uint lastStatus]
    (if SPINEL_HEADER_GET_IID header = 0 then { s with mLastStatus := lastStatus } else s)

/-- The loop of `HandleCommandPropertyGetAddressList` over the address list:
`none` when an entry fails to pack (the function replies "internal error" and
returns), otherwise the frame length and frame assembled when the loop ends
or breaks. -/
def addressListLoop : List otNetifAddress → Nat → List Nat → Option (Nat × List Nat)
  | [], header_len, buf => some (header_len, buf)
  | address :: next, header_len, buf =>
    let value := spinel_datatype_pack (256 - header_len) "T(6CLL)."
      [spinel_arg.bytes address.mAddress, spinel_arg.uint address.mPrefixLength,
       spinel_arg.uint address.mPreferredLifetime, spinel_arg.uint address.mValidLifetime]
    if value.len ≤ 0 then none
    else if value.len > ((256 - header_len : Nat) : Int) then some (header_len, buf)
    else addressListLoop next (header_len + value.len.toNat) (buf ++ value.bytes)

/-- `NcpBase::HandleCommandPropertyGetAddressList`. -/
def HandleCommandPropertyGetAddressList (api : StackApi σ) (header : Nat)
    (s : NcpBase σ) : NcpBase σ :=
  let hdr := spinel_datatype_pack 256 "Cii"
    [spinel_arg.uint header, spinel_arg.uint SPINEL_CMD_PROP_VALUE_IS,
     spinel_arg.uint SPINEL_PROP_IPV6_ADDRESS_TABLE]
  if hdr.len > 0 then
    match addressListLoop (api.otGetUnicastAddresses s.stack) hdr.len.toNat hdr.bytes with
    | none =>
      SendLastStatus header SPINEL_STATUS_INTERNAL_ERROR (s.call StackCall.otGetUnicastAddresses)
    | some (_, buf) =>
      Send buf { s.call StackCall.otGetUnicastAddresses with mSending := true }
  else s

/-- `NcpBase::HandleCommandPropertyGetRoutingTable`. -/
def HandleCommandPropertyGetRoutingTable (header : Nat) (s : NcpBase σ) : NcpBase σ :=
  SendLastStatus header SPINEL_STATUS_UNIMPLEMENTED s

/-- The version text of the build (`PACKAGE_NAME "/" PACKAGE_VERSION "; "
__DATE__ " " __TIME__`), fixed at compile time; here the octets of
`OPENTHREAD/0.01.00`. -/
def NCP_VERSION_STRING : List Nat :=
  [79, 80, 69, 78, 84, 72, 82, 69, 65, 68, 47, 48, 46, 48, 49, 46, 48, 48]

/-- Size of an extended PAN id, `sizeof(spinel_net_xpanid_t)`. -/
def sizeof_spinel_net_xpanid_t : Nat := 8

/-! ## Property GET -/

/-- The `switch (key)` of `NcpBase::HandleCommandPropertyGet`, reached when no
send is in flight. -/
def HandleCommandPropertyGet_switch (api : StackApi σ) (header key : Nat)
    (s : NcpBase σ) : NcpBase σ :=
  if key = SPINEL_PROP_LAST_STATUS then
    SendPropteryUpdate header SPINEL_CMD_PROP_VALUE_IS key SPINEL_DATATYPE_UINT_PACKED_S
      [spinel_arg.uint s.mLastStatus] s
  else if key = SPINEL_PROP_PROTOCOL_VERSION then
    SendPropteryUpdate header SPINEL_CMD_PROP_VALUE_IS key
      (SPINEL_DATATYPE_UINT_PACKED_S ++ SPINEL_DATATYPE_UINT_PACKED_S ++
        SPINEL_DATATYPE_UINT_PACKED_S)
      [spinel_arg.uint SPINEL_PROTOCOL_TYPE_THREAD,
       spinel_arg.uint SPINEL_PROTOCOL_VERSION_THREAD_MAJOR,
       spinel_arg.uint SPINEL_PROTOCOL_VERSION_THREAD_MINOR] s
  else if key = SPINEL_PROP_CAPABILITIES then
    SendPropteryUpdate header SPINEL_CMD_PROP_VALUE_IS key SPINEL_DATATYPE_UINT_PACKED_S
      [spinel_arg.uint SPINEL_CAP_ROLE_ROUTER] s
  else if key = SPINEL_PROP_NCP_VERSION then
    SendPropteryUpdate header SPINEL_CMD_PROP_VALUE_IS key SPINEL_DATATYPE_UTF8_S
      [spinel_arg.utf8 NCP_VERSION_STRING] s
  else if key = SPINEL_PROP_INTERFACE_COUNT then
    SendPropteryUpdate header SPINEL_CMD_PROP_VALUE_IS key SPINEL_DATATYPE_UINT8_S
      [spinel_arg.uint 1] s
  else if key = SPINEL_PROP_POWER_STATE then
    SendPropteryUpdate header SPINEL_CMD_PROP_VALUE_IS key SPINEL_DATATYPE_UINT8_S
      [spinel_arg.uint SPINEL_POWER_STATE_ONLINE] s
  else if key = SPINEL_PROP_NET_NETWORK_NAME then
    SendPropteryUpdate header SPINEL_CMD_PROP_VALUE_IS key SPINEL_DATATYPE_UTF8_S
      [spinel_arg.utf8 (api.otGetNetworkName s.stack)] (s.call StackCall.otGetNetworkName)
  else if key = SPINEL_PROP_MAC_15_4_PANID then
    SendPropteryUpdate header SPINEL_CMD_PROP_VALUE_IS key SPINEL_DATATYPE_UINT16_S
      [spinel_arg.uint (api.otGetPanId s.stack)] (s.call StackCall.otGetPanId)
  else if key = SPINEL_PROP_PHY_CHAN then
    SendPropteryUpdate header SPINEL_CMD_PROP_VALUE_IS key SPINEL_DATATYPE_UINT_PACKED_S
      [spinel_arg.uint (api.otGetChannel s.stack)] (s.call StackCall.otGetChannel)
  else if key = SPINEL_PROP_HWADDR ∨ key = SPINEL_PROP_MAC_15_4_LADDR then
    SendPropteryUpdate header SPINEL_CMD_PROP_VALUE_IS key SPINEL_DATATYPE_EUI64_S
      [spinel_arg.bytes (api.otGetExtendedAddress s.stack)]
      (s.call StackCall.otGetExtendedAddress)
  else if key = SPINEL_PROP_MAC_15_4_SADDR then
    SendPropteryUpdate header SPINEL_CMD_PROP_VALUE_IS key SPINEL_DATATYPE_UINT16_S
      [spinel_arg.uint (api.GetShortAddress s.stack)] (s.call StackCall.GetShortAddress)
  else if key = SPINEL_PROP_NET_XPANID then
    SendPropteryUpdate header SPINEL_CMD_PROP_VALUE_IS key SPINEL_DATATYPE_DATA_S
      [spinel_arg.bytes (fixed_octets sizeof_spinel_net_xpanid_t (api.otGetExtendedPanId s.stack))]
      (s.call StackCall.otGetExtendedPanId)
  else if key = SPINEL_PROP_NET_MASTER_KEY then
    SendPropteryUpdate header SPINEL_CMD_PROP_VALUE_IS key SPINEL_DATATYPE_DATA_S
      [spinel_arg.bytes (api.otGetMasterKey s.stack)] (s.call StackCall.otGetMasterKey)
  else if key = SPINEL_PROP_NET_KEY_SEQUENCE then
    SendPropteryUpdate header SPINEL_CMD_PROP_VALUE_IS key SPINEL_DATATYPE_UINT32_S
      [spinel_arg.uint (api.otGetKeySequenceCounter s.stack)]
      (s.call StackCall.otGetKeySequenceCounter)
  else if key = SPINEL_PROP_PHY_RSSI then
    SendPropteryUpdate header SPINEL_CMD_PROP_VALUE_IS key SPINEL_DATATYPE_INT8_S
      [spinel_arg.int (api.otPlatRadioGetNoiseFloor s.stack)]
      (s.call StackCall.otPlatRadioGetNoiseFloor)
  else if key = SPINEL_PROP_NET_PARTITION_ID then
    SendPropteryUpdate header SPINEL_CMD_PROP_VALUE_IS key SPINEL_DATATYPE_UINT32_S
      [spinel_arg.uint (api.otGetPartitionId s.stack)] (s.call StackCall.otGetPartitionId)
  else if key = SPINEL_PROP_NET_STATE then
    SendPropteryUpdate header SPINEL_CMD_PROP_VALUE_IS key SPINEL_DATATYPE_UINT8_S
      [spinel_arg.uint
        (match api.otGetDeviceRole s.stack with
         | kDeviceRoleDisabled => SPINEL_NET_STATE_OFFLINE
         | kDeviceRoleDetached => SPINEL_NET_STATE_DETACHED
         | kDeviceRoleChild => SPINEL_NET_STATE_ATTACHED
         | kDeviceRoleRouter => SPINEL_NET_STATE_ATTACHED
         | kDeviceRoleLeader => SPINEL_NET_STATE_ATTACHED)]
      (s.call StackCall.otGetDeviceRole)
  else if key = SPINEL_PROP_NET_ROLE then
    SendPropteryUpdate header SPINEL_CMD_PROP_VALUE_IS key SPINEL_DATATYPE_UINT8_S
      [spinel_arg.uint
        (match api.otGetDeviceRole s.stack with
         | kDeviceRoleDisabled => SPINEL_NET_ROLE_NONE
         | kDeviceRoleDetached => SPINEL_NET_ROLE_NONE
         | kDeviceRoleChild => SPINEL_NET_ROLE_CHILD
         | kDeviceRoleRouter => SPINEL_NET_ROLE_ROUTER
         | kDeviceRoleLeader => SPINEL_NET_ROLE_LEADER)]
      (s.call StackCall.otGetDeviceRole)
  else if key = SPINEL_PROP_THREAD_LEADER then
    if (api.GetLeaderAddress s.stack).1 ≠ kThreadError_None then
      SendLastStatus header (ThreadErrorToSpinelStatus (api.GetLeaderAddress s.stack).1)
        (s.call StackCall.GetLeaderAddress)
    else
      SendPropteryUpdate header SPINEL_CMD_PROP_VALUE_IS key SPINEL_DATATYPE_IPv6ADDR_S
        [spinel_arg.bytes (api.GetLeaderAddress s.stack).2] (s.call StackCall.GetLeaderAddress)
  else if key = SPINEL_PROP_IPV6_ML_PREFIX then
    match api.GetMeshLocalPrefix s.stack with
    | some ml_prefix =>
      SendPropteryUpdate header SPINEL_CMD_PROP_VALUE_IS key
        (SPINEL_DATATYPE_IPv6ADDR_S ++ SPINEL_DATATYPE_UINT8_S)
        [spinel_arg.bytes ml_prefix, spinel_arg.uint 64] (s.call StackCall.GetMeshLocalPrefix)
    | none =>
      SendPropteryUpdate header SPINEL_CMD_PROP_VALUE_IS key SPINEL_DATATYPE_VOID_S []
        (s.call StackCall.GetMeshLocalPrefix)
  else if key = SPINEL_PROP_IPV6_ADDRESS_TABLE then
    HandleCommandPropertyGetAddressList api header s
  else if key = SPINEL_PROP_IPV6_ROUTE_TABLE then
    HandleCommandPropertyGetRoutingTable header s
  else if key = SPINEL_PROP_MAC_SCAN_MASK ∨ key = SPINEL_PROP_PHY_FREQ ∨
      key = SPINEL_PROP_PHY_TX_POWER then
    SendLastStatus header SPINEL_STATUS_UNIMPLEMENTED s
  else if key = SPINEL_PROP_MAC_SCAN_STATE then
    if api.otActiveScanInProgress s.stack then
      SendPropteryUpdate header SPINEL_CMD_PROP_VALUE_IS key SPINEL_DATATYPE_UINT8_S
        [spinel_arg.uint SPINEL_SCAN_STATE_BEACON] (s.call StackCall.otActiveScanInProgress)
    else
      SendPropteryUpdate header SPINEL_CMD_PROP_VALUE_IS key SPINEL_DATATYPE_UINT8_S
        [spinel_arg.uint SPINEL_SCAN_STATE_IDLE] (s.call StackCall.otActiveScanInProgress)
  else if key = SPINEL_PROP_STREAM_NET ∨ key = SPINEL_PROP_STREAM_NET_INSECURE ∨
      key = SPINEL_PROP_STREAM_DEBUG ∨ key = SPINEL_PROP_STREAM_RAW ∨
      key = SPINEL_PROP_MAC_SCAN_BEACON then
    SendLastStatus header SPINEL_STATUS_FAILURE s
  else
    SendLastStatus header SPINEL_STATUS_PROPERTY_NOT_FOUND s

/-- `NcpBase::HandleCommandPropertyGet`: while a send is in flight the request
is recorded in the Pending-Get Slot if the slot is empty and dropped
otherwise; with no send in flight the getter of the key runs. -/
def HandleCommandPropertyGet (api : StackApi σ) (header key : Nat)
    (s : NcpBase σ) : NcpBase σ :=
  if s.mSending then
    if s.mQueuedGetHeader = 0 then
      { s with mQueuedGetHeader := header, mQueuedGetKey := key }
    else s
  else HandleCommandPropertyGet_switch api header key s

/-! ## Property SET, INSERT, REMOVE -/

/-- The tail shared by the setter branches of `HandleCommandPropertySet`:
`if (errorCode == kThreadError_None) HandleCommandPropertyGet(header, key);
else SendLastStatus(header, ThreadErrorToSpinelStatus(errorCode));`. -/
def replyToSet (api : StackApi σ) (header key : Nat) (errorCode : ThreadError)
    (s : NcpBase σ) : NcpBase σ :=
  if errorCode = kThreadError_None then HandleCommandPropertyGet api header key s
  else SendLastStatus header (ThreadErrorToSpinelStatus errorCode) s

/-- The `SPINEL_PROP_NET_STATE` branch of `HandleCommandPropertySet` once the
value `i` has been unpacked. -/
def setNetState (api : StackApi σ) (header key i : Nat) (s : NcpBase σ) : NcpBase σ :=
  if i = SPINEL_NET_STATE_OFFLINE then
    if api.otGetDeviceRole s.stack ≠ kDeviceRoleDisabled then
      replyToSet api header key (api.otDisable s.stack).1
        ((s.call StackCall.otGetDeviceRole).invoke StackCall.otDisable (api.otDisable s.stack).2)
    else replyToSet api header key kThreadError_None (s.call StackCall.otGetDeviceRole)
  else if i = SPINEL_NET_STATE_DETACHED then
    if api.otGetDeviceRole s.stack = kDeviceRoleDisabled then
      if (api.otEnable s.stack).1 = kThreadError_None then
        replyToSet api header key (api.otBecomeDetached (api.otEnable s.stack).2).1
          ((((s.call StackCall.otGetDeviceRole).invoke StackCall.otEnable
            (api.otEnable s.stack).2)).invoke StackCall.otBecomeDetached
            (api.otBecomeDetached (api.otEnable s.stack).2).2)
      else
        replyToSet api header key (api.otEnable s.stack).1
          ((s.call StackCall.otGetDeviceRole).invoke StackCall.otEnable (api.otEnable s.stack).2)
    else if api.otGetDeviceRole s.stack ≠ kDeviceRoleDetached then
      replyToSet api header key (api.otBecomeDetached s.stack).1
        ((((s.call StackCall.otGetDeviceRole).call StackCall.otGetDeviceRole)).invoke
          StackCall.otBecomeDetached (api.otBecomeDetached s.stack).2)
    else
      replyToSet api header key kThreadError_None
        ((s.call StackCall.otGetDeviceRole).call StackCall.otGetDeviceRole)
  else if i = SPINEL_NET_STATE_ATTACHING ∨ i = SPINEL_NET_STATE_ATTACHED then
    let enabled : ThreadError × NcpBase σ :=
      if api.otGetDeviceRole s.stack = kDeviceRoleDisabled then
        ((api.otEnable s.stack).1,
          (s.call StackCall.otGetDeviceRole).invoke StackCall.otEnable (api.otEnable s.stack).2)
      else (kThreadError_None, s.call StackCall.otGetDeviceRole)
    if api.otGetDeviceRole enabled.2.stack = kDeviceRoleDetached then
      if (api.otBecomeRouter enabled.2.stack).1 = kThreadError_None then
        SendPropteryUpdate header SPINEL_CMD_PROP_VALUE_IS key SPINEL_DATATYPE_UINT8_S
          [spinel_arg.uint SPINEL_NET_STATE_ATTACHING]
          ((enabled.2.call StackCall.otGetDeviceRole).invoke StackCall.otBecomeRouter
            (api.otBecomeRouter enabled.2.stack).2)
      else
        replyToSet api header key (api.otBecomeRouter enabled.2.stack).1
          ((enabled.2.call StackCall.otGetDeviceRole).invoke StackCall.otBecomeRouter
            (api.otBecomeRouter enabled.2.stack).2)
    else replyToSet api header key enabled.1 (enabled.2.call StackCall.otGetDeviceRole)
  else replyToSet api header key kThreadError_None s

/-- The `SPINEL_PROP_NET_ROLE` branch of `HandleCommandPropertySet` once the
value `i` has been unpacked. -/
def setNetRole (api : StackApi σ) (header key i : Nat) (s : NcpBase σ) : NcpBase σ :=
  if i = SPINEL_NET_ROLE_NONE then
    replyToSet api header key kThreadError_InvalidArgs s
  else if i = SPINEL_NET_ROLE_ROUTER then
    replyToSet api header key (api.otBecomeRouter s.stack).1
      (s.invoke StackCall.otBecomeRouter (api.otBecomeRouter s.stack).2)
  else if i = SPINEL_NET_ROLE_LEADER then
    replyToSet api header key (api.otBecomeLeader s.stack).1
      (s.invoke StackCall.otBecomeLeader (api.otBecomeLeader s.stack).2)
  else if i = SPINEL_NET_ROLE_CHILD then
    replyToSet api header key (api.otBecomeChild s.stack).1
      (s.invoke StackCall.otBecomeChild (api.otBecomeChild s.stack).2)
  else replyToSet api header key kThreadError_None s

/-- The `SPINEL_PROP_MAC_SCAN_STATE` branch of `HandleCommandPropertySet` once
the value `i` has been unpacked. -/
def setScanState (api : StackApi σ) (header key i : Nat) (s : NcpBase σ) : NcpBase σ :=
  if i = SPINEL_SCAN_STATE_IDLE then
    replyToSet api header key kThreadError_None s
  else if i = SPINEL_SCAN_STATE_BEACON then
    replyToSet api header key
      (api.otActiveScan s.stack ((s.mChannelMask >>> kPhyMinChannel) % 65536) 200).1
      ({ s with gActiveScanContextHack := true }.invoke StackCall.otActiveScan
        (api.otActiveScan s.stack ((s.mChannelMask >>> kPhyMinChannel) % 65536) 200).2)
  else if i = SPINEL_SCAN_STATE_ENERGY then
    replyToSet api header key kThreadError_NotImplemented s
  else replyToSet api header key kThreadError_InvalidArgs s

/-- The tail of the `SPINEL_PROP_STREAM_NET` branch: a status reply, which
for a successful send is made only when the header carries a transaction
id. -/
def replyToStreamNet (header : Nat) (errorCode : ThreadError) (s : NcpBase σ) : NcpBase σ :=
  if errorCode = kThreadError_None then
    if SPINEL_HEADER_GET_TID header ≠ 0 then SendLastStatus header SPINEL_STATUS_OK s
    else s
  else SendLastStatus header (ThreadErrorToSpinelStatus errorCode) s

/-- The `SPINEL_PROP_STREAM_NET` branch of `HandleCommandPropertySet`: a
datagram from the host is handed to the stack. -/
def setStreamNet (api : StackApi σ) (header : Nat) (value : List Nat)
    (s : NcpBase σ) : NcpBase σ :=
  match (api.NewMessage s.stack).1 with
  | none =>
    replyToStreamNet header kThreadError_NoBufs
      (s.invoke StackCall.NewMessage (api.NewMessage s.stack).2)
  | some message =>
    let appended := api.Append (api.NewMessage s.stack).2 message value
    if appended.1 = kThreadError_None then
      let handled := api.HandleDatagram appended.2.2 appended.2.1
        (api.GetInterfaceId appended.2.2)
      replyToStreamNet header handled.1
        ((((s.invoke StackCall.NewMessage (api.NewMessage s.stack).2).invoke StackCall.Append
          appended.2.2).call StackCall.GetInterfaceId).invoke StackCall.HandleDatagram handled.2)
    else
      replyToStreamNet header appended.1
        ((s.invoke StackCall.NewMessage (api.NewMessage s.stack).2).invoke StackCall.Append
          appended.2.2)

/-- `NcpBase::HandleCommandPropertySet`. -/
def HandleCommandPropertySet (api : StackApi σ) (header key : Nat) (value : List Nat)
    (s : NcpBase σ) : NcpBase σ :=
  if key = SPINEL_PROP_LAST_STATUS ∨ key = SPINEL_PROP_PROTOCOL_VERSION ∨
      key = SPINEL_PROP_CAPABILITIES ∨ key = SPINEL_PROP_NCP_VERSION ∨
      key = SPINEL_PROP_STREAM_DEBUG ∨ key = SPINEL_PROP_MAC_SCAN_BEACON ∨
      key = SPINEL_PROP_NET_PARTITION_ID ∨ key = SPINEL_PROP_PHY_FREQ ∨
      key = SPINEL_PROP_IPV6_ADDRESS_TABLE ∨ key = SPINEL_PROP_IPV6_ROUTE_TABLE ∨
      key = SPINEL_PROP_PHY_RSSI ∨ key = SPINEL_PROP_INTERFACE_COUNT then
    SendLastStatus header SPINEL_STATUS_FAILURE s
  else if key = SPINEL_PROP_MAC_SCAN_MASK ∨ key = SPINEL_PROP_POWER_STATE ∨
      key = SPINEL_PROP_PHY_TX_POWER then
    SendLastStatus header SPINEL_STATUS_UNIMPLEMENTED s
  else if key = SPINEL_PROP_IPV6_ML_PREFIX then
    if (spinel_datatype_unpack value SPINEL_DATATYPE_IPv6ADDR_S).len > 0 then
      let ptr := ((spinel_datatype_unpack value SPINEL_DATATYPE_IPv6ADDR_S).bytesAt 0).getD []
      replyToSet api header key (api.SetMeshLocalPrefix s.stack ptr).1
        (HandleCommandPropertyGet api header key
          (s.invoke StackCall.SetMeshLocalPrefix (api.SetMeshLocalPrefix s.stack ptr).2))
    else replyToSet api header key kThreadError_Parse s
  else if key = SPINEL_PROP_NET_STATE then
    if (spinel_datatype_unpack value SPINEL_DATATYPE_UINT_PACKED_S).len > 0 then
      setNetState api header key
        ((spinel_datatype_unpack value SPINEL_DATATYPE_UINT_PACKED_S).uintAt 0 0) s
    else SendLastStatus header SPINEL_STATUS_PARSE_ERROR s
  else if key = SPINEL_PROP_NET_ROLE then
    if (spinel_datatype_unpack value SPINEL_DATATYPE_UINT_PACKED_S).len > 0 then
      setNetRole api header key
        ((spinel_datatype_unpack value SPINEL_DATATYPE_UINT_PACKED_S).uintAt 0 0) s
    else SendLastStatus header SPINEL_STATUS_PARSE_ERROR s
  else if key = SPINEL_PROP_MAC_SCAN_STATE then
    if (spinel_datatype_unpack value SPINEL_DATATYPE_UINT_PACKED_S).len > 0 then
      setScanState api header key
        ((spinel_datatype_unpack value SPINEL_DATATYPE_UINT_PACKED_S).uintAt 0 0) s
    else SendLastStatus header SPINEL_STATUS_PARSE_ERROR s
  else if key = SPINEL_PROP_STREAM_NET_INSECURE then
    SendLastStatus header SPINEL_STATUS_UNIMPLEMENTED s
  else if key = SPINEL_PROP_STREAM_NET then
    setStreamNet api header value s
  else if key = SPINEL_PROP_NET_NETWORK_NAME then
    if (spinel_datatype_unpack value SPINEL_DATATYPE_UTF8_S).len > 0 then
      match (spinel_datatype_unpack value SPINEL_DATATYPE_UTF8_S).bytesAt 0 with
      | some string =>
        replyToSet api header key (api.otSetNetworkName s.stack string).1
          (s.invoke StackCall.otSetNetworkName (api.otSetNetworkName s.stack string).2)
      | none => SendLastStatus header SPINEL_STATUS_PARSE_ERROR s
    else SendLastStatus header SPINEL_STATUS_PARSE_ERROR s
  else if key = SPINEL_PROP_PHY_CHAN then
    if (spinel_datatype_unpack value SPINEL_DATATYPE_UINT_PACKED_S).len > 0 then
      let i := (spinel_datatype_unpack value SPINEL_DATATYPE_UINT_PACKED_S).uintAt 0 0
      replyToSet api header key (api.otSetChannel s.stack (i % 256)).1
        (s.invoke StackCall.otSetChannel (api.otSetChannel s.stack (i % 256)).2)
    else SendLastStatus header SPINEL_STATUS_PARSE_ERROR s
  else if key = SPINEL_PROP_MAC_15_4_PANID then
    if (spinel_datatype_unpack value SPINEL_DATATYPE_UINT16_S).len > 0 then
      let tmp := (spinel_datatype_unpack value SPINEL_DATATYPE_UINT16_S).uintAt 0 0
      replyToSet api header key (api.otSetPanId s.stack tmp).1
        (s.invoke StackCall.otSetPanId (api.otSetPanId s.stack tmp).2)
    else SendLastStatus header SPINEL_STATUS_PARSE_ERROR s
  else if key = SPINEL_PROP_NET_XPANID then
    let ptr := ((spinel_datatype_unpack value SPINEL_DATATYPE_DATA_S).bytesAt 0).getD []
    if (spinel_datatype_unpack value SPINEL_DATATYPE_DATA_S).len > 0 ∧
        ptr.length = sizeof_spinel_net_xpanid_t then
      HandleCommandPropertyGet api header key
        (s.invoke StackCall.otSetExtendedPanId (api.otSetExtendedPanId s.stack ptr))
    else SendLastStatus header SPINEL_STATUS_PARSE_ERROR s
  else if key = SPINEL_PROP_NET_MASTER_KEY then
    let ptr := ((spinel_datatype_unpack value SPINEL_DATATYPE_DATA_S).bytesAt 0).getD []
    if (spinel_datatype_unpack value SPINEL_DATATYPE_DATA_S).len > 0 ∧ ptr.length < 100 then
      replyToSet api header key (api.otSetMasterKey s.stack ptr).1
        (s.invoke StackCall.otSetMasterKey (api.otSetMasterKey s.stack ptr).2)
    else SendLastStatus header SPINEL_STATUS_PARSE_ERROR s
  else if key = SPINEL_PROP_NET_KEY_SEQUENCE then
    if (spinel_datatype_unpack value SPINEL_DATATYPE_UINT32_S).len > 0 then
      let i := (spinel_datatype_unpack value SPINEL_DATATYPE_UINT32_S).uintAt 0 0
      HandleCommandPropertyGet api header key
        (s.invoke StackCall.otSetKeySequenceCounter (api.otSetKeySequenceCounter s.stack i))
    else SendLastStatus header SPINEL_STATUS_PARSE_ERROR s
  else SendLastStatus header SPINEL_STATUS_PROPERTY_NOT_FOUND s

/-- `NcpBase::HandleCommandPropertyInsert`: insertions are not supported. -/
def HandleCommandPropertyInsert (header : Nat) (_key : Nat) (_value : List Nat)
    (s : NcpBase σ) : NcpBase σ :=
  SendLastStatus header SPINEL_STATUS_UNIMPLEMENTED s

/-- `NcpBase::HandleCommandPropertyRemove`: removals are not supported. -/
def HandleCommandPropertyRemove (header : Nat) (_key : Nat) (_value : List Nat)
    (s : NcpBase σ) : NcpBase σ :=
  SendLastStatus header SPINEL_STATUS_UNIMPLEMENTED s

/-! ## Dispatcher -/

/-- `NcpBase::HandleCommand`. -/
def HandleCommand (api : StackApi σ) (header command : Nat) (arg : List Nat)
    (s : NcpBase σ) : NcpBase σ :=
  if SPINEL_HEADER_FLAG &&& header ≠ SPINEL_HEADER_FLAG then s
  else if SPINEL_HEADER_GET_IID header ≠ 0 then
    SendLastStatus header SPINEL_STATUS_INVALID_INTERFACE s
  else if command = SPINEL_CMD_NOOP then
    SendLastStatus header SPINEL_STATUS_OK s
  else if command = SPINEL_CMD_RESET then
    SendLastStatus 0 SPINEL_STATUS_RESET_SOFTWARE s
  else if command = SPINEL_CMD_PROP_VALUE_GET then
    if (spinel_datatype_unpack arg "i").len > 0 then
      HandleCommandPropertyGet api header ((spinel_datatype_unpack arg "i").uintAt 0 0) s
    else SendLastStatus header SPINEL_STATUS_PARSE_ERROR s
  else if command = SPINEL_CMD_PROP_VALUE_SET then
    if (spinel_datatype_unpack arg "iD").len = (arg.length : Int) then
      HandleCommandPropertySet api header ((spinel_datatype_unpack arg "iD").uintAt 0 0)
        (((spinel_datatype_unpack arg "iD").bytesAt 1).getD []) s
    else SendLastStatus header SPINEL_STATUS_PARSE_ERROR s
  else if command = SPINEL_CMD_PROP_VALUE_INSERT then
    if (spinel_datatype_unpack arg "iD").len = (arg.length : Int) then
      HandleCommandPropertyInsert header ((spinel_datatype_unpack arg "iD").uintAt 0 0)
        (((spinel_datatype_unpack arg "iD").bytesAt 1).getD []) s
    else SendLastStatus header SPINEL_STATUS_PARSE_ERROR s
  else if command = SPINEL_CMD_PROP_VALUE_REMOVE then
    if (spinel_datatype_unpack arg "iD").len = (arg.length : Int) then
      HandleCommandPropertyRemove header ((spinel_datatype_unpack arg "iD").uintAt 0 0)
        (((spinel_datatype_unpack arg "iD").bytesAt 1).getD []) s
    else SendLastStatus header SPINEL_STATUS_PARSE_ERROR s
  else SendLastStatus header SPINEL_STATUS_INVALID_COMMAND s

/-- `NcpBase::HandleReceive`: `header` and `command` are initialised to `0` and
keep that value when unpacking stops before reaching them. -/
def HandleReceive (api : StackApi σ) (buf : List Nat) (s : NcpBase σ) : NcpBase σ :=
  if (spinel_datatype_unpack buf "CiD").len = (buf.length : Int) then
    HandleCommand api ((spinel_datatype_unpack buf "CiD").uintAt 0 0)
      ((spinel_datatype_unpack buf "CiD").uintAt 1 0)
      (((spinel_datatype_unpack buf "CiD").bytesAt 2).getD []) s
  else
    SendLastStatus ((spinel_datatype_unpack buf "CiD").uintAt 0 0) SPINEL_STATUS_PARSE_ERROR s

/-- `Ncp::HandleFrame`: a decoded frame of the transport enters the engine. -/
def HandleFrame (api : StackApi σ) (aBuf : List Nat) (s : NcpBase σ) : NcpBase σ :=
  HandleReceive api aBuf s

/-! ## Stack event bridge -/

/-- `Message::Free`. -/
def MessageFree (message : Message) (s : NcpBase σ) : NcpBase σ :=
  { s with trace := s.trace ++ [Event.Free message] }

/-- `NcpBase::HandleReceivedDatagram`. -/
def HandleReceivedDatagram (message : Message) (s : NcpBase σ) : NcpBase σ :=
  if s.mSending = false then
    SendPropteryUpdateMessage (SPINEL_HEADER_FLAG ||| SPINEL_HEADER_IID_0)
      SPINEL_CMD_PROP_VALUE_IS SPINEL_PROP_STREAM_NET message s
  else if (s.mSendQueue.Enqueue message).1 ≠ kThreadError_None then
    MessageFree message { s with mSendQueue := (s.mSendQueue.Enqueue message).2 }
  else { s with mSendQueue := (s.mSendQueue.Enqueue message).2 }

/-- `NcpBase::HandleActiveScanResult`; `none` is the null result that ends the
scan. -/
def HandleActiveScanResult (result : Option otActiveScanResult) (s : NcpBase σ) : NcpBase σ :=
  if s.mSending = false then
    match result with
    | some result =>
      let flags := ((result.mVersion <<< SPINEL_BEACON_THREAD_FLAG_VERSION_SHIFT) |||
        (if result.mIsJoinable then SPINEL_BEACON_THREAD_FLAG_JOINABLE else 0) |||
        (if result.mIsNative then SPINEL_BEACON_THREAD_FLAG_NATIVE else 0)) % 256
      SendPropteryUpdate (SPINEL_HEADER_FLAG ||| SPINEL_HEADER_IID_0)
        SPINEL_CMD_PROP_VALUE_INSERTED SPINEL_PROP_MAC_SCAN_BEACON "icT(ESSC)T(iCUD.)."
        [spinel_arg.uint result.mChannel, spinel_arg.int result.mRssi,
         spinel_arg.bytes result.mExtAddress, spinel_arg.uint 0xFFFF,
         spinel_arg.uint result.mPanId, spinel_arg.uint 0xFF,
         spinel_arg.uint SPINEL_PROTOCOL_TYPE_THREAD, spinel_arg.uint flags,
         spinel_arg.utf8 result.mNetworkName,
         spinel_arg.bytes (fixed_octets sizeof_spinel_net_xpanid_t result.mExtPanId)] s
    | none =>
      SendPropteryUpdate (SPINEL_HEADER_FLAG ||| SPINEL_HEADER_IID_0)
        SPINEL_CMD_PROP_VALUE_IS SPINEL_PROP_MAC_SCAN_STATE SPINEL_DATATYPE_UINT8_S
        [spinel_arg.uint SPINEL_SCAN_STATE_IDLE] s
  else s

/-- `NcpBase::HandleActiveScanResult_Jump`: the callback registered with the
stack. -/
def HandleActiveScanResult_Jump (result : Option otActiveScanResult)
    (s : NcpBase σ) : NcpBase σ :=
  if s.gActiveScanContextHack then HandleActiveScanResult result s else s

/-- `NcpBase::RunUpdateAddressesTask`. -/
def RunUpdateAddressesTask (api : StackApi σ) (s : NcpBase σ) : NcpBase σ :=
  if s.mSending = false then
    HandleCommandPropertyGet api (SPINEL_HEADER_FLAG ||| SPINEL_HEADER_IID_0)
      SPINEL_PROP_NET_STATE
      (HandleCommandPropertyGet api (SPINEL_HEADER_FLAG ||| SPINEL_HEADER_IID_0)
        SPINEL_PROP_IPV6_ADDRESS_TABLE s)
  else s

/-- The first half of `NcpBase::HandleSendDone`: the flag is cleared and the
head of the datagram queue, if any, is sent and dequeued. -/
def HandleSendDone_queue (s : NcpBase σ) : NcpBase σ :=
  match s.mSendQueue.GetHead with
  | some message =>
    let sent := SendPropteryUpdateMessage (SPINEL_HEADER_FLAG ||| SPINEL_HEADER_IID_0)
      SPINEL_CMD_PROP_VALUE_IS SPINEL_PROP_STREAM_NET message { s with mSending := false }
    { sent with mSendQueue := sent.mSendQueue.Dequeue message }
  | none => { s with mSending := false }

/-- `NcpBase::HandleSendDone`. -/
def HandleSendDone (api : StackApi σ) (s : NcpBase σ) : NcpBase σ :=
  let drained := HandleSendDone_queue s
  if drained.mQueuedGetHeader ≠ 0 then
    { HandleCommandPropertyGet api drained.mQueuedGetHeader drained.mQueuedGetKey drained with
      mQueuedGetHeader := 0 }
  else drained

/-- `Ncp::SendDoneTask`: the message of the completed send is freed, then the
engine is told. -/
def SendDoneTask (api : StackApi σ) (s : NcpBase σ) : NcpBase σ :=
  match s.mSendMessage with
  | some message => HandleSendDone api { MessageFree message s with mSendMessage := none }
  | none => HandleSendDone api s

/-- The notifications that the event loop delivers to the engine. -/
inductive Notification
  | Receive (buf : List Nat)
  | Command (header command : Nat) (arg : List Nat)
  | ReceivedDatagram (message : Message)
  | ActiveScanResult (result : Option otActiveScanResult)
  | ActiveScanResult_Jump (result : Option otActiveScanResult)
  | UpdateAddressesTask
  | SendDone
deriving DecidableEq

/-- One notification runs to completion. -/
def step (api : StackApi σ) (s : NcpBase σ) (n : Notification) : NcpBase σ :=
  match n with
  | Notification.Receive buf => HandleReceive api buf s
  | Notification.Command header command arg => HandleCommand api header command arg s
  | Notification.ReceivedDatagram message => HandleReceivedDatagram message s
  | Notification.ActiveScanResult result => HandleActiveScanResult result s
  | Notification.ActiveScanResult_Jump result => HandleActiveScanResult_Jump result s
  | Notification.UpdateAddressesTask => RunUpdateAddressesTask api s
  | Notification.SendDone => HandleSendDone api s

/-- A sequence of notifications, processed in order. -/
def run (api : StackApi σ) (s : NcpBase σ) (ns : List Notification) : NcpBase σ :=
  ns.foldl (step api) s

/-- The state of an engine that has not been notified of anything yet: no
send in flight, empty Pending-Get Slot, an empty datagram queue of the given
capacity, and the channel mask set by the constructor. -/
def NcpBase.init (stack : σ) (capacity : Nat) : NcpBase σ :=
  { mSending := false, mLastStatus := 0, mQueuedGetHeader := 0, mQueuedGetKey := 0,
    mSendQueue := { items := [], capacity := capacity },
    mChannelMask := (0xFFFF <<< 11) % 2 ^ 32, mSendMessage := none,
    gActiveScanContextHack := false, stack := stack, trace := [] }

/-! ## A concrete stack for evaluating the engine -/

/-- A stack without state of its own: channel 15, PAN 0x1234, device role
Detached, every command accepted, message allocation always succeeding. -/
def fixedStack : StackApi Unit :=
  { otGetNetworkName := fun _ => [79, 84],
    otGetPanId := fun _ => 0x1234,
    otGetChannel := fun _ => 15,
    otGetExtendedAddress := fun _ => [1, 2, 3, 4, 5, 6, 7, 8],
    GetShortAddress := fun _ => 0x0400,
    otGetExtendedPanId := fun _ => [8, 7, 6, 5, 4, 3, 2, 1],
    otGetMasterKey := fun _ => [0, 1, 2, 3, 4, 5, 6, 7, 8, 9, 10, 11, 12, 13, 14, 15],
    otGetKeySequenceCounter := fun _ => 0,
    otPlatRadioGetNoiseFloor := fun _ => -100,
    otGetPartitionId := fun _ => 0,
    otGetDeviceRole := fun _ => kDeviceRoleDetached,
    GetLeaderAddress := fun _ => (kThreadError_None, []),
    GetMeshLocalPrefix := fun _ => none,
    otGetUnicastAddresses := fun _ => [],
    otActiveScanInProgress := fun _ => false,
    SetMeshLocalPrefix := fun st _ => (kThreadError_None, st),
    otDisable := fun st => (kThreadError_None, st),
    otEnable := fun st => (kThreadError_None, st),
    otBecomeDetached := fun st => (kThreadError_None, st),
    otBecomeRouter := fun st => (kThreadError_None, st),
    otBecomeLeader := fun st => (kThreadError_None, st),
    otBecomeChild := fun st => (kThreadError_None, st),
    otActiveScan := fun st _ _ => (kThreadError_None, st),
    NewMessage := fun st => (some { id := 0, data := [] }, st),
    Append := fun st message value =>
      (kThreadError_None, { message with data := message.data ++ value }, st),
    GetInterfaceId := fun _ => 1,
    HandleDatagram := fun st _ _ => (kThreadError_None, st),
    otSetNetworkName := fun st _ => (kThreadError_None, st),
    otSetChannel := fun st _ => (kThreadError_None, st),
    otSetPanId := fun st _ => (kThreadError_None, st),
    otSetExtendedPanId := fun st _ => st,
    otSetMasterKey := fun st _ => (kThreadError_None, st),
    otSetKeySequenceCounter := fun st _ => st }

/-- An engine on `fixedStack` with a frame in flight, the given datagram queue
(capacity 4) and the given Pending-Get Slot. -/
def busyEngine (queue : List Message) (header key : Nat) : NcpBase Unit :=
  { NcpBase.init () 4 with
    mSending := true, mQueuedGetHeader := header, mQueuedGetKey := key,
    mSendQueue := { items := queue, capacity := 4 } }

/-- The frame header of a datagram update. -/
def streamNetHeader : List Nat :=
  [SPINEL_HEADER_FLAG ||| SPINEL_HEADER_IID_0, SPINEL_CMD_PROP_VALUE_IS, SPINEL_PROP_STREAM_NET]

/-! ## Predicates on steps -/

/-- The step from `s` to `t` only appends to the log, and hands at most one
frame to the transport. -/
def sendsAtMostOne (s t : NcpBase σ) : Prop :=
  ∃ evs, t.trace = s.trace ++ evs ∧ (sentFrames evs).length ≤ 1

/-- The case labels of the `switch (key)` in `HandleCommandPropertyGet`, in
source order: the keys the getter table knows. -/
def getCaseLabels : List Nat :=
  [SPINEL_PROP_LAST_STATUS, SPINEL_PROP_PROTOCOL_VERSION, SPINEL_PROP_CAPABILITIES,
   SPINEL_PROP_NCP_VERSION, SPINEL_PROP_INTERFACE_COUNT, SPINEL_PROP_POWER_STATE,
   SPINEL_PROP_NET_NETWORK_NAME, SPINEL_PROP_MAC_15_4_PANID, SPINEL_PROP_PHY_CHAN,
   SPINEL_PROP_HWADDR, SPINEL_PROP_MAC_15_4_LADDR, SPINEL_PROP_MAC_15_4_SADDR,
   SPINEL_PROP_NET_XPANID, SPINEL_PROP_NET_MASTER_KEY, SPINEL_PROP_NET_KEY_SEQUENCE,
   SPINEL_PROP_PHY_RSSI, SPINEL_PROP_NET_PARTITION_ID, SPINEL_PROP_NET_STATE,
   SPINEL_PROP_NET_ROLE, SPINEL_PROP_THREAD_LEADER, SPINEL_PROP_IPV6_ML_PREFIX,
   SPINEL_PROP_IPV6_ADDRESS_TABLE, SPINEL_PROP_IPV6_ROUTE_TABLE, SPINEL_PROP_MAC_SCAN_MASK,
   SPINEL_PROP_PHY_FREQ, SPINEL_PROP_PHY_TX_POWER, SPINEL_PROP_MAC_SCAN_STATE,
   SPINEL_PROP_STREAM_NET, SPINEL_PROP_STREAM_NET_INSECURE, SPINEL_PROP_STREAM_DEBUG,
   SPINEL_PROP_STREAM_RAW, SPINEL_PROP_MAC_SCAN_BEACON]

/-- The case labels of `HandleCommandPropertyGet` under the comment "These
properties don't have a Getter". -/
def keysWithoutGetter : List Nat :=
  [SPINEL_PROP_STREAM_NET, SPINEL_PROP_STREAM_NET_INSECURE, SPINEL_PROP_STREAM_DEBUG,
   SPINEL_PROP_STREAM_RAW, SPINEL_PROP_MAC_SCAN_BEACON]

/-- The case labels of `HandleCommandPropertySet` under the comment "These
properties don't have a Setter". -/
def keysWithoutSetter : List Nat :=
  [SPINEL_PROP_LAST_STATUS, SPINEL_PROP_PROTOCOL_VERSION, SPINEL_PROP_CAPABILITIES,
   SPINEL_PROP_NCP_VERSION, SPINEL_PROP_STREAM_DEBUG, SPINEL_PROP_MAC_SCAN_BEACON,
   SPINEL_PROP_NET_PARTITION_ID, SPINEL_PROP_PHY_FREQ, SPINEL_PROP_IPV6_ADDRESS_TABLE,
   SPINEL_PROP_IPV6_ROUTE_TABLE, SPINEL_PROP_PHY_RSSI, SPINEL_PROP_INTERFACE_COUNT]

/-- Like `fixedStack`, with a mesh-local prefix configured and a
`SetMeshLocalPrefix` that returns `e`. -/
def meshStack (e : ThreadError) : StackApi Unit :=
  { fixedStack with
    GetMeshLocalPrefix := fun _ => some [0xfd, 0x00, 0x0d, 0xb8, 0, 0, 0, 0],
    SetMeshLocalPrefix := fun st _ => (e, st) }

/-- Like `fixedStack`, with every role command, setter and datagram entry
point returning `e`. -/
def refusingStack (e : ThreadError) : StackApi Unit :=
  { fixedStack with
    otDisable := fun st => (e, st),
    otEnable := fun st => (e, st),
    otBecomeDetached := fun st => (e, st),
    otBecomeRouter := fun st => (e, st),
    otBecomeLeader := fun st => (e, st),
    otBecomeChild := fun st => (e, st),
    otActiveScan := fun st _ _ => (e, st),
    HandleDatagram := fun st _ _ => (e, st),
    otSetNetworkName := fun st _ => (e, st),
    otSetChannel := fun st _ => (e, st),
    otSetPanId := fun st _ => (e, st),
    otSetMasterKey := fun st _ => (e, st) }

/-- Like `fixedStack`, with a message pool that is exhausted. -/
def exhaustedStack : StackApi Unit :=
  { fixedStack with NewMessage := fun st => (none, st) }

/-- Like `fixedStack`, with a message `Append` that returns `e`. -/
def appendFailingStack (e : ThreadError) : StackApi Unit :=
  { fixedStack with Append := fun st message _ => (e, message, st) }

/-- The octets of one address-table entry as `HandleCommandPropertyGetAddressList`
packs it with `"T(6CLL)."`: the length of the structure, the address, the
prefix length and the two lifetimes (27 octets). -/
def packedNetifAddress (address : otNetifAddress) : List Nat :=
  uint16_le 25 ++ fixed_octets 16 address.mAddress ++ [address.mPrefixLength % 256] ++
    uint32_le address.mPreferredLifetime ++ uint32_le address.mValidLifetime

/-- Like `fixedStack`, with `n` unicast addresses `fe80::1`, `fe80::2`, ... on
the interface. -/
def crowdedStack (n : Nat) : StackApi Unit :=
  { fixedStack with
    otGetUnicastAddresses := fun _ =>
      (List.range n).map fun i =>
        ⟨[0xfe, 0x80, 0, 0, 0, 0, 0, 0, 0, 0, 0, 0, 0, 0, 0, i + 1], 64, 0xFFFFFFFF,
          0xFFFFFFFF⟩ }

/-- What reaches the `Ncp` object of `ncp.cpp`: a decoded frame
(`Ncp::HandleFrame`), a datagram from the stack (`HandleReceivedDatagram`),
or the completion signal of the serial driver (`otPlatSerialSignalSendDone`,
which runs `Ncp::SendDoneTask`). The driver signals one completion for each
frame handed to it, in the order the frames were handed over. -/
inductive NcpSignal
  | Frame (aBuf : List Nat)
  | Datagram (message : Message)
  | SendDone
deriving DecidableEq

/-- One signal runs to completion. -/
def signal (api : StackApi σ) (s : NcpBase σ) (n : NcpSignal) : NcpBase σ :=
  match n with
  | NcpSignal.Frame aBuf => HandleFrame api aBuf s
  | NcpSignal.Datagram message => HandleReceivedDatagram message s
  | NcpSignal.SendDone => SendDoneTask api s

/-- A sequence of signals, processed in order. -/
def signals (api : StackApi σ) (s : NcpBase σ) (ns : List NcpSignal) : NcpBase σ :=
  ns.foldl (signal api) s

/-- The sends so far, oldest first: for each frame handed to the serial
driver, the message that went with it, if any. -/
def sentMessages : List Event → List (Option Message)
  | [] => []
  | Event.Send _ :: rest => none :: sentMessages rest
  | Event.SendMessage _ message :: rest => some message :: sentMessages rest
  | _ :: rest => sentMessages rest

/-! ## Random numbers on the CC2538 (`examples/platforms/cc2538/random.c`) -/

/-- The registers that `generateRandom` reads to compute its result.
`RFCORE_XREG_RFRND k` is the value of the `k`-th read of the radio's random
data register; `SOC_ADC_RNDL seed` and `SOC_ADC_RNDH seed` are the values read
back from the two halves of the random-number generator after `seed` was
written to it and the generator was clocked once.
`RFCORE_XREG_RFRND_IRND` is the mask of the random bit, a constant of the
platform header, which is not among the sources. The status registers that
`generateRandom` waits on and the radio driver are in `Cc2538Platform`. -/
structure Cc2538 where
  RFCORE_XREG_RFRND : Nat → Nat
  RFCORE_XREG_RFRND_IRND : Nat
  SOC_ADC_RNDL : Nat → Nat
  SOC_ADC_RNDH : Nat → Nat

/-- The `for` loop of `generateRandom`, `index` iterations of it: the bit read
from the radio is or-ed into the 16-bit `seed`, which is then shifted left by
one. `reads` counts the reads of the random data register so far. -/
def seedRound (hw : Cc2538) : Nat → Nat → Nat → Nat
  | 0, _, seed => seed
  | index + 1, reads, seed =>
    seedRound hw index (reads + 1)
      ((((seed ||| (hw.RFCORE_XREG_RFRND reads &&& hw.RFCORE_XREG_RFRND_IRND)) % 65536) <<< 1)
        % 65536)

/-- The loop `while (seed == 0x0000 || seed == 0x8003)` of `generateRandom`,
each pass running the `for` loop over the sixteen bits of the seed. The fuel
bounds the number of tests of the loop condition; `none` when it runs out. -/
def seedLoop (hw : Cc2538) : Nat → Nat → Nat → Option (Nat × Nat)
  | 0, _, _ => none
  | fuel + 1, reads, seed =>
    if seed = 0x0000 ∨ seed = 0x8003 then
      seedLoop hw fuel (reads + 16) (seedRound hw 16 reads seed)
    else some (seed, reads)

/-- A CC2538 whose random data register always reads 1 and whose generator
returns the seed it was given. -/
def steadyCc2538 : Cc2538 :=
  { RFCORE_XREG_RFRND := fun _ => 1,
    RFCORE_XREG_RFRND_IRND := 1,
    SOC_ADC_RNDL := fun seed => seed % 256,
    SOC_ADC_RNDH := fun seed => seed / 256 }

/-- A CC2538 whose random data register always reads 0. -/
def silentCc2538 : Cc2538 :=
  { steadyCc2538 with RFCORE_XREG_RFRND := fun _ => 0 }

/-- A stack whose state is the current channel. `otSetChannel` follows its
documentation in `openthread.h`: `kThreadErrorInvalidArgs` "if aChannel is not
in the range [11, 26]", otherwise the channel is set. Everything else is as
in `fixedStack`. -/
def channelStack : StackApi Nat :=
  { otGetNetworkName := fun _ => fixedStack.otGetNetworkName (),
    otGetPanId := fun _ => fixedStack.otGetPanId (),
    otGetChannel := fun st => st,
    otGetExtendedAddress := fun _ => fixedStack.otGetExtendedAddress (),
    GetShortAddress := fun _ => fixedStack.GetShortAddress (),
    otGetExtendedPanId := fun _ => fixedStack.otGetExtendedPanId (),
    otGetMasterKey := fun _ => fixedStack.otGetMasterKey (),
    otGetKeySequenceCounter := fun _ => fixedStack.otGetKeySequenceCounter (),
    otPlatRadioGetNoiseFloor := fun _ => fixedStack.otPlatRadioGetNoiseFloor (),
    otGetPartitionId := fun _ => fixedStack.otGetPartitionId (),
    otGetDeviceRole := fun _ => fixedStack.otGetDeviceRole (),
    GetLeaderAddress := fun _ => fixedStack.GetLeaderAddress (),
    GetMeshLocalPrefix := fun _ => fixedStack.GetMeshLocalPrefix (),
    otGetUnicastAddresses := fun _ => fixedStack.otGetUnicastAddresses (),
    otActiveScanInProgress := fun _ => fixedStack.otActiveScanInProgress (),
    SetMeshLocalPrefix := fun st _ => (kThreadError_None, st),
    otDisable := fun st => (kThreadError_None, st),
    otEnable := fun st => (kThreadError_None, st),
    otBecomeDetached := fun st => (kThreadError_None, st),
    otBecomeRouter := fun st => (kThreadError_None, st),
    otBecomeLeader := fun st => (kThreadError_None, st),
    otBecomeChild := fun st => (kThreadError_None, st),
    otActiveScan := fun st _ _ => (kThreadError_None, st),
    NewMessage := fun st => (some { id := 0, data := [] }, st),
    Append := fun st message value =>
      (kThreadError_None, { message with data := message.data ++ value }, st),
    GetInterfaceId := fun _ => fixedStack.GetInterfaceId (),
    HandleDatagram := fun st _ _ => (kThreadError_None, st),
    otSetNetworkName := fun st _ => (kThreadError_None, st),
    otSetChannel := fun st aChannel =>
      if 11 ≤ aChannel ∧ aChannel ≤ 26 then (kThreadError_None, aChannel)
      else (kThreadError_InvalidArgs, st),
    otSetPanId := fun st _ => (kThreadError_None, st),
    otSetExtendedPanId := fun st _ => st,
    otSetMasterKey := fun st _ => (kThreadError_None, st),
    otSetKeySequenceCounter := fun st _ => st }

/-- The step from `s` to `t` only appends to the log, and either hands no
frame to the transport and leaves `mSending` as it was, or hands exactly one
frame to the transport and leaves `mSending` true. -/
def sendsAndFlags (s t : NcpBase σ) : Prop :=
  ∃ evs, t.trace = s.trace ++ evs ∧
    ((sentFrames evs = [] ∧ t.mSending = s.mSending) ∨
      ((sentFrames evs).length = 1 ∧ t.mSending = true))

/-- The Pending-Get Slot can be read without ambiguity: its header is either
0, the mark of the empty slot, or has the valid-flag bit (bit 7) set. -/
def slotUnambiguous (s : NcpBase σ) : Prop :=
  s.mQueuedGetHeader = 0 ∨ s.mQueuedGetHeader.testBit 7 = true

/-- The random bit that the `k`-th read of the random data register
delivers: the register value under the mask of the random bit. -/
def randomBit (hw : Cc2538) (k : Nat) : Nat :=
  hw.RFCORE_XREG_RFRND k &&& hw.RFCORE_XREG_RFRND_IRND

/-- The number spelled by `count` successive random bits, the bit of read
`reads` first, followed by a zero: the first bit has weight `2 ^ count`, the
last one weight 2. -/
def shiftedBits (hw : Cc2538) : Nat → Nat → Nat
  | 0, _ => 0
  | count + 1, reads => randomBit hw reads * 2 ^ (count + 1) + shiftedBits hw count (reads + 1)

/-! ## `generateRandom` and its callers (`examples/platforms/cc2538/random.c`) -/

/-- What `generateRandom` does to the platform besides reading registers: the
calls of the radio driver and the register writes, in the order of the
source. `ADCCON1_clear_RCTRL` is
`HWREG(SOC_ADC_ADCCON1) &= ~(SOC_ADC_ADCCON1_RCTRL1 | SOC_ADC_ADCCON1_RCTRL0)`
and `ADCCON1_set_RCTRL0` is `HWREG(SOC_ADC_ADCCON1) |= SOC_ADC_ADCCON1_RCTRL0`;
the other register events are plain stores of the constant they name. -/
inductive Cc2538Event
  | otPlatRadioSleep
  | otPlatRadioDisable
  | ADCCON1_clear_RCTRL
  | RCGCRFC_write_RFC0
  | FRMCTRL0_write_INFINITY_RX
  | RFST_write_INSTR_RXON
  | SOC_ADC_RNDL_write (value : Nat)
  | RFST_write_INSTR_RFOFF
  | ADCCON1_set_RCTRL0
  | cc2538RadioInit
  | otPlatRadioEnable
  | otPlatRadioReceive (aChannel : Nat)
  deriving DecidableEq

/-- The part of the platform that `generateRandom` polls or asks besides the
registers of `Cc2538`. The radio driver and the platform header are not among
the sources, so the driver's answers and the register constants are
parameters: `otPlatRadioIsEnabled` and the value read from
`RFCORE_XREG_FREQCTRL` may depend on everything done to the platform so far;
`SYS_CTRL_RCGCRFC k` and `RFCORE_XREG_RSSISTAT k` are the values of the
`k`-th read of the two status registers. -/
structure Cc2538Platform where
  otPlatRadioIsEnabled : List Cc2538Event → Bool
  RFCORE_XREG_FREQCTRL : List Cc2538Event → Nat
  SYS_CTRL_RCGCRFC : Nat → Nat
  SYS_CTRL_RCGCRFC_RFC0 : Nat
  RFCORE_XREG_RSSISTAT : Nat → Nat
  RFCORE_XREG_RSSISTAT_RSSI_VALID : Nat

/-- The state of the platform between calls: how often each polled register
has been read, and everything done to the platform so far. -/
structure Cc2538State where
  RCGCRFC_reads : Nat
  RSSISTAT_reads : Nat
  RFRND_reads : Nat
  log : List Cc2538Event
  deriving DecidableEq

/-- A loop `while (condition);` whose condition reads a register: `again k`
tells whether the value of the `k`-th read keeps the loop going. The result is
the count of reads once the loop has ended. The fuel bounds the number of
tests of the condition; `none` when it runs out. -/
def busyWait (again : Nat → Bool) : Nat → Nat → Option Nat
  | 0, _ => none
  | fuel + 1, reads =>
    if again reads then busyWait again fuel (reads + 1) else some (reads + 1)

/-- The condition of `while (HWREG(SYS_CTRL_RCGCRFC) != SYS_CTRL_RCGCRFC_RFC0);`
at the `k`-th read of the register. -/
def RCGCRFC_pending (platform : Cc2538Platform) (k : Nat) : Bool :=
  decide (platform.SYS_CTRL_RCGCRFC k ≠ platform.SYS_CTRL_RCGCRFC_RFC0)

/-- The condition of
`while (!HWREG(RFCORE_XREG_RSSISTAT) & RFCORE_XREG_RSSISTAT_RSSI_VALID);` at
the `k`-th read of the register. The negation binds tighter than `&`: the
register value is negated to 0 or 1 and the result is masked. -/
def RSSISTAT_pending (platform : Cc2538Platform) (k : Nat) : Bool :=
  decide ((if platform.RFCORE_XREG_RSSISTAT k = 0 then 1 else 0) &&&
    platform.RFCORE_XREG_RSSISTAT_RSSI_VALID ≠ 0)

/-- `generateRandom`: statement by statement. If the radio is enabled its
channel is computed from the frequency register (32-bit arithmetic, narrowed
to `uint8_t`) and the radio is put to sleep and disabled. Then the generator
is switched off, the clock of the radio core is requested and awaited, the
receiver is started and the RSSI status awaited, the seed is collected from
the random data register, written to the generator in two halves, the
receiver is switched off, the generator is clocked once and read back, and
the radio is started again on its channel if that is not 0. The result is the
low 16 bits of the value read back. `none` when one of the three `while`
loops runs out of fuel. -/
def generateRandom (hw : Cc2538) (platform : Cc2538Platform) (fuel : Nat) (st : Cc2538State) :
    Option (Nat × Cc2538State) :=
  let enabled := platform.otPlatRadioIsEnabled st.log
  let channel :=
    if enabled then
      (11 + (platform.RFCORE_XREG_FREQCTRL st.log % 2 ^ 32 + 2 ^ 32 - 11) % 2 ^ 32 / 5) % 256
    else 0
  let stopped :=
    if enabled then st.log ++ [Cc2538Event.otPlatRadioSleep, Cc2538Event.otPlatRadioDisable]
    else st.log
  match busyWait (RCGCRFC_pending platform) fuel st.RCGCRFC_reads with
  | none => none
  | some clockReads =>
    match busyWait (RSSISTAT_pending platform) fuel st.RSSISTAT_reads with
    | none => none
    | some rssiReads =>
      match seedLoop hw fuel st.RFRND_reads 0 with
      | none => none
      | some (seed, reads) =>
        let seeded :=
          stopped ++
            [Cc2538Event.ADCCON1_clear_RCTRL, Cc2538Event.RCGCRFC_write_RFC0,
              Cc2538Event.FRMCTRL0_write_INFINITY_RX, Cc2538Event.RFST_write_INSTR_RXON,
              Cc2538Event.SOC_ADC_RNDL_write ((seed >>> 8) &&& 0xff),
              Cc2538Event.SOC_ADC_RNDL_write (seed &&& 0xff),
              Cc2538Event.RFST_write_INSTR_RFOFF, Cc2538Event.ADCCON1_set_RCTRL0]
        let reg := (hw.SOC_ADC_RNDL seed ||| (hw.SOC_ADC_RNDH seed <<< 8)) % 2 ^ 32
        some (reg % 65536,
          { RCGCRFC_reads := clockReads,
            RSSISTAT_reads := rssiReads,
            RFRND_reads := reads,
            log :=
              if channel ≠ 0 then
                seeded ++
                  [Cc2538Event.cc2538RadioInit, Cc2538Event.otPlatRadioEnable,
                    Cc2538Event.otPlatRadioReceive channel]
              else seeded })

/-- `otPlatRandomGet`: `generateRandom() | (generateRandom() << 16)`. -/
def otPlatRandomGet (hw : Cc2538) (platform : Cc2538Platform) (fuel : Nat) (st : Cc2538State) :
    Option (Nat × Cc2538State) :=
  match generateRandom hw platform fuel st with
  | some (low, st) =>
    match generateRandom hw platform fuel st with
    | some (high, st) => some ((low ||| (high <<< 16)) % 2 ^ 32, st)
    | none => none
  | none => none

/-- The `for` loop of `otPlatSecureRandomGet`, with `count` iterations left:
`aOutput[length] = (uint8_t)generateRandom()`. The memory behind `aOutput` is
a map from offsets to octets. -/
def otPlatSecureRandomGet_loop (hw : Cc2538) (platform : Cc2538Platform) (fuel : Nat) :
    Nat → Nat → (Nat → Nat) → Cc2538State → Option ((Nat → Nat) × Cc2538State)
  | 0, _, aOutput, st => some (aOutput, st)
  | count + 1, length, aOutput, st =>
    match generateRandom hw platform fuel st with
    | some (value, st) =>
      otPlatSecureRandomGet_loop hw platform fuel count (length + 1)
        (fun offset => if offset = length then value % 256 else aOutput offset) st
    | none => none

/-- What a call of `otPlatSecureRandomGet` leaves behind: the return value,
the memory behind the two pointers (`none` for a null pointer) and the state
of the platform. -/
structure SecureRandom where
  error : ThreadError
  aOutput : Option (Nat → Nat)
  aOutputLength : Option Nat
  platform : Cc2538State

/-- `otPlatSecureRandomGet(aInputLength, aOutput, aOutputLength)`; `none`
when a call of `generateRandom` runs out of fuel. -/
def otPlatSecureRandomGet (hw : Cc2538) (platform : Cc2538Platform) (fuel : Nat)
    (aInputLength : Nat) (aOutput : Option (Nat → Nat)) (aOutputLength : Option Nat)
    (st : Cc2538State) : Option SecureRandom :=
  match aOutput, aOutputLength with
  | some output, some _ =>
    match otPlatSecureRandomGet_loop hw platform fuel (aInputLength % 65536) 0 output st with
    | some (output, st) =>
      some ⟨kThreadError_None, some output, some (aInputLength % 65536), st⟩
    | none => none
  | _, _ => some ⟨kThreadError_InvalidArgs, aOutput, aOutputLength, st⟩

/-- A platform whose status registers are ready at the first read and whose
radio is enabled on channel 15. -/
def readyPlatform : Cc2538Platform :=
  { otPlatRadioIsEnabled := fun _ => true,
    RFCORE_XREG_FREQCTRL := fun _ => 31,
    SYS_CTRL_RCGCRFC := fun _ => 1,
    SYS_CTRL_RCGCRFC_RFC0 := 1,
    RFCORE_XREG_RSSISTAT := fun _ => 1,
    RFCORE_XREG_RSSISTAT_RSSI_VALID := 1 }

/-- A platform on which the clock of the radio core never reads back as
requested. -/
def unclockedPlatform : Cc2538Platform :=
  { readyPlatform with SYS_CTRL_RCGCRFC := fun _ => 0 }

/-- A platform whose RSSI status register reads 0 for ever. -/
def deafPlatform : Cc2538Platform :=
  { readyPlatform with RFCORE_XREG_RSSISTAT := fun _ => 0 }

/-- The platform before anything was done to it. -/
def Cc2538State.reset : Cc2538State :=
  { RCGCRFC_reads := 0, RSSISTAT_reads := 0, RFRND_reads := 0, log := [] }

/-- The step from `s` to `t` answers the request `(header, key)`: it only
appends to the log, hands exactly one frame to the transport and leaves
`mSending` true. The frame is a `VALUE_IS` frame under `header`, for the
property `key` or, where the getter reports a status instead of a value, for
`LAST_STATUS`. -/
def repliesTo (header key : Nat) (s t : NcpBase σ) : Prop :=
  ∃ evs prop value,
    t.trace = s.trace ++ evs ∧
    sentFrames evs = [[header % 256, SPINEL_CMD_PROP_VALUE_IS, prop] ++ value] ∧
    (prop = key ∨ prop = SPINEL_PROP_LAST_STATUS) ∧
    t.mSending = true

/-! # Theorems -/

/-! ## Codec facts -/

theorem spinel_packed_uint_encode_small (v : Nat) (h : v < 128) :
    spinel_packed_uint_encode v = [v] := by
  have h2 : v % 4294967296 = v := Nat.mod_eq_of_lt (by omega)
  simp [spinel_packed_uint_encode, spinel_packed_uint_encode_aux, h2, h]

theorem pack_header (cap header command key : Nat) (hcap : 3 ≤ cap)
    (hc : command < 128) (hk : key < 128) :
    spinel_datatype_pack cap "Cii"
      [spinel_arg.uint header, spinel_arg.uint command, spinel_arg.uint key] =
    ⟨3, [header % 256, command, key]⟩ := by
  simp [spinel_datatype_pack, spinel_datatype_pack_aux, spinel_packed_uint_encode_small, hc, hk,
    hcap]

theorem pack_status (cap status : Nat) (hcap : 1 ≤ cap) (hs : status < 128) :
    spinel_datatype_pack cap "i" [spinel_arg.uint status] = ⟨1, [status]⟩ := by
  simp [spinel_datatype_pack, spinel_datatype_pack_aux, spinel_packed_uint_encode_small, hs,
    hcap]

/-- The header of a failed or complete `"CiD"` unpack is the first octet of the
buffer, and stays `0` for the empty buffer. -/
theorem unpack_CiD_header (buf : List Nat) :
    (spinel_datatype_unpack buf "CiD").uintAt 0 0 = buf.headD 0 % 256 := by
  cases buf with
  | nil => simp [spinel_datatype_unpack, spinel_datatype_unpack_aux, spinel_unpacked.uintAt]
  | cons b rest =>
    cases hd : spinel_packed_uint_decode rest with
    | none =>
      simp [spinel_datatype_unpack, spinel_datatype_unpack_aux, spinel_unpacked.uintAt, hd]
    | some r =>
      simp [spinel_datatype_unpack, spinel_datatype_unpack_aux, spinel_unpacked.uintAt, hd,
        format_ends]

/-! ## Status replies -/

/-- A status reply for a one-octet status always fits the reply buffer: the
frame is sent, the flag is set, Last-Status is overwritten for interface 0. -/
theorem SendLastStatus_small (header status : Nat) (s : NcpBase σ) (hs : status < 128) :
    SendLastStatus header status s =
      { (if SPINEL_HEADER_GET_IID header = 0 then { s with mLastStatus := status } else s) with
        mSending := true,
        trace := s.trace ++ [Event.Send [header % 256, SPINEL_CMD_PROP_VALUE_IS,
          SPINEL_PROP_LAST_STATUS, status]] } := by
  have hp := pack_header 256 header SPINEL_CMD_PROP_VALUE_IS SPINEL_PROP_LAST_STATUS
    (by decide) (by decide) (by decide)
  have hc : SPINEL_CMD_PROP_VALUE_IS % 256 = SPINEL_CMD_PROP_VALUE_IS := by decide
  unfold SendLastStatus SendPropteryUpdate
  rw [hc, hp]
  have hv := pack_status 253 status (by decide) hs
  simp only [show (256 - (3 : Int).toNat) = 253 from by decide, hv]
  by_cases hi : SPINEL_HEADER_GET_IID header = 0 <;> simp [hi, Send]

/-- The test `(SPINEL_HEADER_FLAG & header) == SPINEL_HEADER_FLAG` reads bit 7
of the header. -/
theorem flag_of_testBit (header : Nat) :
    SPINEL_HEADER_FLAG &&& header = SPINEL_HEADER_FLAG ↔ header.testBit 7 = true := by
  have h : SPINEL_HEADER_FLAG = 2 ^ 7 := by decide
  rw [h, Nat.two_pow_and]
  cases header.testBit 7 <;> simp

/-! ## Header validation -/

/-- C8: a frame whose header has the valid-flag bit (bit 7) unset is ignored.
For every command and payload `HandleCommand` returns the state it was given:
no frame is sent, no stack accessor is called, and `mSending`, `mLastStatus`,
the Pending-Get Slot and the datagram queue are unchanged. -/
theorem HandleCommand_flag_unset_ignored (api : StackApi σ) (header command : Nat)
    (arg : List Nat) (s : NcpBase σ) (hflag : header.testBit 7 = false) :
    HandleCommand api header command arg s = s := by
  have h : SPINEL_HEADER_FLAG &&& header ≠ SPINEL_HEADER_FLAG := by
    rw [Ne, flag_of_testBit, hflag]; simp
  simp [HandleCommand, h]

theorem HandleCommand_flag_unset_ignored_witness :
    (0x01 : Nat).testBit 7 = false ∧
      HandleCommand fixedStack 0x01 SPINEL_CMD_PROP_VALUE_GET [SPINEL_PROP_PHY_CHAN]
        (NcpBase.init () 4) = NcpBase.init () 4 :=
  ⟨by decide, HandleCommand_flag_unset_ignored fixedStack 0x01 SPINEL_CMD_PROP_VALUE_GET
    [SPINEL_PROP_PHY_CHAN] (NcpBase.init () 4) (by decide)⟩

/-- C9: a frame whose header has bit 7 set and a non-zero interface id (bits
6–4) gets exactly one reply, the `LAST_STATUS` frame carrying "invalid
interface" under the request header. Nothing else happens: the log grows by
that one `Send` (no property handler, no stack accessor), and `mLastStatus`,
the stack, the Pending-Get Slot and the queue are unchanged. -/
theorem HandleCommand_invalid_interface (api : StackApi σ) (header command : Nat)
    (arg : List Nat) (s : NcpBase σ) (hflag : header.testBit 7 = true)
    (hiid : SPINEL_HEADER_GET_IID header ≠ 0) :
    HandleCommand api header command arg s =
      { s with
        mSending := true,
        trace := s.trace ++ [Event.Send [header % 256, SPINEL_CMD_PROP_VALUE_IS,
          SPINEL_PROP_LAST_STATUS, SPINEL_STATUS_INVALID_INTERFACE]] } := by
  have h : SPINEL_HEADER_FLAG &&& header = SPINEL_HEADER_FLAG := (flag_of_testBit header).2 hflag
  simp [HandleCommand, h, hiid, SendLastStatus_small header SPINEL_STATUS_INVALID_INTERFACE s
    (by decide)]

theorem HandleCommand_invalid_interface_witness :
    (0x91 : Nat).testBit 7 = true ∧ SPINEL_HEADER_GET_IID 0x91 ≠ 0 ∧
      HandleCommand fixedStack 0x91 SPINEL_CMD_NOOP [] (NcpBase.init () 4) =
        { NcpBase.init () 4 with
          mSending := true,
          trace := (NcpBase.init () 4).trace ++ [Event.Send [0x91 % 256,
            SPINEL_CMD_PROP_VALUE_IS, SPINEL_PROP_LAST_STATUS,
            SPINEL_STATUS_INVALID_INTERFACE]] } :=
  ⟨by decide, by decide, HandleCommand_invalid_interface fixedStack 0x91 SPINEL_CMD_NOOP []
    (NcpBase.init () 4) (by decide) (by decide)⟩

/-- C10 (as stated, refuted): given the empty buffer, from which not even the
header can be unpacked, `HandleReceive` does send a reply: one `LAST_STATUS`
frame "parse error" whose header byte is 0. -/
theorem HandleReceive_empty_buffer_replies :
    sentFrames (HandleReceive fixedStack [] (NcpBase.init () 4)).trace =
      [[0, SPINEL_CMD_PROP_VALUE_IS, SPINEL_PROP_LAST_STATUS, SPINEL_STATUS_PARSE_ERROR]] := by
  decide

/-- C10 (amended): whenever the unpacked length differs from the buffer
length, `HandleReceive` sends exactly one `LAST_STATUS` reply "parse error"
whose header is the first octet of the buffer when there is one and 0
otherwise (the empty buffer), and records the status in `mLastStatus` when
that header names interface 0. -/
theorem HandleReceive_length_mismatch (api : StackApi σ) (buf : List Nat) (s : NcpBase σ)
    (hlen : (spinel_datatype_unpack buf "CiD").len ≠ (buf.length : Int)) :
    HandleReceive api buf s =
      { (if SPINEL_HEADER_GET_IID (buf.headD 0 % 256) = 0 then
          { s with mLastStatus := SPINEL_STATUS_PARSE_ERROR } else s) with
        mSending := true,
        trace := s.trace ++ [Event.Send [buf.headD 0 % 256, SPINEL_CMD_PROP_VALUE_IS,
          SPINEL_PROP_LAST_STATUS, SPINEL_STATUS_PARSE_ERROR]] } := by
  unfold HandleReceive
  rw [if_neg hlen, unpack_CiD_header,
    SendLastStatus_small (buf.headD 0 % 256) SPINEL_STATUS_PARSE_ERROR s (by decide)]
  simp

theorem HandleReceive_length_mismatch_witness :
    (spinel_datatype_unpack [0x81] "CiD").len ≠ (([0x81] : List Nat).length : Int) ∧
      HandleReceive fixedStack [0x81] (NcpBase.init () 4) =
        { (if SPINEL_HEADER_GET_IID (([0x81] : List Nat).headD 0 % 256) = 0 then
            { NcpBase.init () 4 with mLastStatus := SPINEL_STATUS_PARSE_ERROR }
            else NcpBase.init () 4) with
          mSending := true,
          trace := (NcpBase.init () 4).trace ++ [Event.Send [([0x81] : List Nat).headD 0 % 256,
            SPINEL_CMD_PROP_VALUE_IS, SPINEL_PROP_LAST_STATUS, SPINEL_STATUS_PARSE_ERROR]] } :=
  ⟨by decide, HandleReceive_length_mismatch fixedStack [0x81] (NcpBase.init () 4) (by decide)⟩

/-! ## Datagram queue -/

theorem Enqueue_success_iff (q : MessageQueue) (m : Message) :
    (q.Enqueue m).1 = kThreadError_None ↔ q.items.length < q.capacity := by
  unfold MessageQueue.Enqueue
  split <;> simp [*]

theorem Enqueue_success (q : MessageQueue) (m : Message)
    (h : (q.Enqueue m).1 = kThreadError_None) :
    (q.Enqueue m).2 = { q with items := q.items ++ [m] } := by
  have h2 := (Enqueue_success_iff q m).1 h
  simp [MessageQueue.Enqueue, h2]

theorem Enqueue_failure (q : MessageQueue) (m : Message)
    (h : (q.Enqueue m).1 ≠ kThreadError_None) : (q.Enqueue m).2 = q := by
  have h2 : ¬ q.items.length < q.capacity := fun h3 => h ((Enqueue_success_iff q m).2 h3)
  simp [MessageQueue.Enqueue, h2]

/-- The frame header of a datagram update always fits its 8-octet buffer. -/
theorem SendPropteryUpdateMessage_stream_net (m : Message) (s : NcpBase σ) :
    SendPropteryUpdateMessage (SPINEL_HEADER_FLAG ||| SPINEL_HEADER_IID_0)
      SPINEL_CMD_PROP_VALUE_IS SPINEL_PROP_STREAM_NET m s =
      { s with
        mSending := true,
        mSendMessage := some m,
        trace := s.trace ++ [Event.SendMessage [SPINEL_HEADER_FLAG ||| SPINEL_HEADER_IID_0,
          SPINEL_CMD_PROP_VALUE_IS, SPINEL_PROP_STREAM_NET] m] } := by
  have hp : spinel_datatype_pack 8 "Cii"
      [spinel_arg.uint (SPINEL_HEADER_FLAG ||| SPINEL_HEADER_IID_0),
        spinel_arg.uint (SPINEL_CMD_PROP_VALUE_IS % 256), spinel_arg.uint SPINEL_PROP_STREAM_NET] =
      ⟨3, [SPINEL_HEADER_FLAG ||| SPINEL_HEADER_IID_0, SPINEL_CMD_PROP_VALUE_IS,
        SPINEL_PROP_STREAM_NET]⟩ := by decide
  unfold SendPropteryUpdateMessage
  rw [hp]
  simp [SendWithMessage]

theorem HandleReceivedDatagram_idle (m : Message) (s : NcpBase σ) (h : s.mSending = false) :
    HandleReceivedDatagram m s =
      { s with
        mSending := true,
        mSendMessage := some m,
        trace := s.trace ++ [Event.SendMessage [SPINEL_HEADER_FLAG ||| SPINEL_HEADER_IID_0,
          SPINEL_CMD_PROP_VALUE_IS, SPINEL_PROP_STREAM_NET] m] } := by
  simp [HandleReceivedDatagram, h, SendPropteryUpdateMessage_stream_net]

theorem HandleReceivedDatagram_enqueued (m : Message) (s : NcpBase σ) (h : s.mSending = true)
    (he : (s.mSendQueue.Enqueue m).1 = kThreadError_None) :
    HandleReceivedDatagram m s =
      { s with mSendQueue := { s.mSendQueue with items := s.mSendQueue.items ++ [m] } } := by
  simp [HandleReceivedDatagram, h, he, Enqueue_success]

theorem HandleReceivedDatagram_dropped (m : Message) (s : NcpBase σ) (h : s.mSending = true)
    (he : (s.mSendQueue.Enqueue m).1 ≠ kThreadError_None) :
    HandleReceivedDatagram m s = { s with trace := s.trace ++ [Event.Free m] } := by
  simp [HandleReceivedDatagram, h, he, Enqueue_failure, MessageFree]

/-- C6: `HandleReceivedDatagram(m)`. If no send is in flight, `m` is handed to
the transport at once as a `STREAM_NET` `VALUE_IS` update with header
`FLAG|IID_0` (and remembered in `mSendMessage`), the queue being unchanged. If
a send is in flight and `Enqueue` succeeds, `m` is appended to the queue and
the log is unchanged (nothing is sent or freed). If a send is in flight and
`Enqueue` fails, the only effect is one `Message::Free(m)`: the queue is
unchanged and nothing is sent. -/
theorem HandleReceivedDatagram_cases (m : Message) (s : NcpBase σ) :
    (s.mSending = false →
      HandleReceivedDatagram m s =
        { s with
          mSending := true,
          mSendMessage := some m,
          trace := s.trace ++ [Event.SendMessage [SPINEL_HEADER_FLAG ||| SPINEL_HEADER_IID_0,
            SPINEL_CMD_PROP_VALUE_IS, SPINEL_PROP_STREAM_NET] m] }) ∧
    (s.mSending = true → (s.mSendQueue.Enqueue m).1 = kThreadError_None →
      HandleReceivedDatagram m s =
        { s with mSendQueue := { s.mSendQueue with items := s.mSendQueue.items ++ [m] } }) ∧
    (s.mSending = true → (s.mSendQueue.Enqueue m).1 ≠ kThreadError_None →
      HandleReceivedDatagram m s = { s with trace := s.trace ++ [Event.Free m] }) :=
  ⟨HandleReceivedDatagram_idle m s, HandleReceivedDatagram_enqueued m s,
    HandleReceivedDatagram_dropped m s⟩

theorem HandleReceivedDatagram_cases_witness :
    HandleReceivedDatagram ⟨1, [7]⟩ (NcpBase.init () 4) =
        { NcpBase.init () 4 with
          mSending := true,
          mSendMessage := some ⟨1, [7]⟩,
          trace := (NcpBase.init () 4).trace ++
            [Event.SendMessage [SPINEL_HEADER_FLAG ||| SPINEL_HEADER_IID_0,
              SPINEL_CMD_PROP_VALUE_IS, SPINEL_PROP_STREAM_NET] ⟨1, [7]⟩] } ∧
      HandleReceivedDatagram ⟨1, [7]⟩ (busyEngine [] 0 0) =
        { busyEngine [] 0 0 with
          mSendQueue := { (busyEngine [] 0 0).mSendQueue with
            items := (busyEngine [] 0 0).mSendQueue.items ++ [⟨1, [7]⟩] } } ∧
      HandleReceivedDatagram ⟨1, [7]⟩ (busyEngine [⟨2, []⟩, ⟨3, []⟩, ⟨4, []⟩, ⟨5, []⟩] 0 0) =
        { busyEngine [⟨2, []⟩, ⟨3, []⟩, ⟨4, []⟩, ⟨5, []⟩] 0 0 with
          trace := (busyEngine [⟨2, []⟩, ⟨3, []⟩, ⟨4, []⟩, ⟨5, []⟩] 0 0).trace ++
            [Event.Free ⟨1, [7]⟩] } :=
  ⟨(HandleReceivedDatagram_cases ⟨1, [7]⟩ (NcpBase.init () 4)).1 rfl,
   (HandleReceivedDatagram_cases ⟨1, [7]⟩ (busyEngine [] 0 0)).2.1 rfl (by decide),
   (HandleReceivedDatagram_cases ⟨1, [7]⟩
      (busyEngine [⟨2, []⟩, ⟨3, []⟩, ⟨4, []⟩, ⟨5, []⟩] 0 0)).2.2 rfl (by decide)⟩

/-! ## Send completion -/

theorem HandleSendDone_queue_empty (s : NcpBase σ) (hq : s.mSendQueue.items = []) :
    HandleSendDone_queue s = { s with mSending := false } := by
  simp [HandleSendDone_queue, MessageQueue.GetHead, hq]

/-- With an empty queue and an occupied slot, a completion runs the getter of
the slot on the idle state and empties the slot. -/
theorem HandleSendDone_pending_get (api : StackApi σ) (s : NcpBase σ)
    (hq : s.mSendQueue.items = []) (h : s.mQueuedGetHeader ≠ 0) :
    HandleSendDone api s =
      { HandleCommandPropertyGet_switch api s.mQueuedGetHeader s.mQueuedGetKey
          { s with mSending := false } with mQueuedGetHeader := 0 } := by
  simp [HandleSendDone, HandleSendDone_queue_empty s hq, h, HandleCommandPropertyGet]

theorem sentFrames_append (xs ys : List Event) :
    sentFrames (xs ++ ys) = sentFrames xs ++ sentFrames ys := by
  induction xs with
  | nil => rfl
  | cons e rest ih => cases e <;> simp [sentFrames, ih]

theorem sendsAtMostOne_refl (s : NcpBase σ) : sendsAtMostOne s s :=
  ⟨[], by simp, by simp [sentFrames]⟩

theorem sendsAtMostOne_call (s t : NcpBase σ) (c : StackCall)
    (h : sendsAtMostOne (s.call c) t) : sendsAtMostOne s t := by
  obtain ⟨evs, h1, h2⟩ := h
  refine ⟨Event.Stack c :: evs, ?_, ?_⟩
  · simp [h1, NcpBase.call]
  · simpa [sentFrames] using h2

theorem SendPropteryUpdate_sends (header command key : Nat) (fmt : String)
    (args : List spinel_arg) (s : NcpBase σ) :
    sendsAtMostOne s (SendPropteryUpdate header command key fmt args s) := by
  unfold SendPropteryUpdate
  simp only
  split
  · split
    · exact ⟨_, rfl, by simp [sentFrames]⟩
    · exact sendsAtMostOne_refl s
  · exact sendsAtMostOne_refl s

theorem SendLastStatus_sends (header status : Nat) (s : NcpBase σ) :
    sendsAtMostOne s (SendLastStatus header status s) := by
  unfold SendLastStatus
  split
  · obtain ⟨evs, h1, h2⟩ := SendPropteryUpdate_sends header SPINEL_CMD_PROP_VALUE_IS
      SPINEL_PROP_LAST_STATUS "i" [spinel_arg.uint status] { s with mLastStatus := status }
    exact ⟨evs, h1, h2⟩
  · exact SendPropteryUpdate_sends _ _ _ _ _ _

theorem HandleCommandPropertyGetAddressList_sends (api : StackApi σ) (header : Nat)
    (s : NcpBase σ) : sendsAtMostOne s (HandleCommandPropertyGetAddressList api header s) := by
  unfold HandleCommandPropertyGetAddressList
  simp only
  split
  · split
    · exact sendsAtMostOne_call _ _ _ (SendLastStatus_sends _ _ _)
    · exact sendsAtMostOne_call _ _ _ ⟨_, rfl, by simp [sentFrames]⟩
  · exact sendsAtMostOne_refl s

theorem sendsAtMostOne_ite (s a b : NcpBase σ) (c : Prop) [Decidable c]
    (ha : sendsAtMostOne s a) (hb : sendsAtMostOne s b) :
    sendsAtMostOne s (if c then a else b) := by
  split <;> assumption

/-- Every getter hands at most one frame to the transport. -/
theorem HandleCommandPropertyGet_switch_sends (api : StackApi σ) (header key : Nat)
    (s : NcpBase σ) : sendsAtMostOne s (HandleCommandPropertyGet_switch api header key s) := by
  unfold HandleCommandPropertyGet_switch HandleCommandPropertyGetRoutingTable
  repeat' first
    | with_reducible apply sendsAtMostOne_ite
    | with_reducible exact SendPropteryUpdate_sends _ _ _ _ _ _
    | with_reducible exact sendsAtMostOne_call _ _ _ (SendPropteryUpdate_sends _ _ _ _ _ _)
    | with_reducible exact SendLastStatus_sends _ _ _
    | with_reducible exact sendsAtMostOne_call _ _ _ (SendLastStatus_sends _ _ _)
    | with_reducible exact HandleCommandPropertyGetAddressList_sends _ _ _
    | split

/-! ## The Pending-Get Slot -/

/-- C2 (as stated, refuted): with a send in flight and an empty slot, GET
(0x81, PHY_CHAN) followed by GET (0x82, MAC_15_4_PANID) leaves the first
request in the slot, not the second, and the completion answers PHY_CHAN. -/
theorem pending_get_not_last_request_wins :
    (run fixedStack (busyEngine [] 0 0)
        [Notification.Command 0x81 SPINEL_CMD_PROP_VALUE_GET [SPINEL_PROP_PHY_CHAN],
         Notification.Command 0x82 SPINEL_CMD_PROP_VALUE_GET
          [SPINEL_PROP_MAC_15_4_PANID]]).mQueuedGetHeader ≠ 0x82 ∧
    (run fixedStack (busyEngine [] 0 0)
        [Notification.Command 0x81 SPINEL_CMD_PROP_VALUE_GET [SPINEL_PROP_PHY_CHAN],
         Notification.Command 0x82 SPINEL_CMD_PROP_VALUE_GET
          [SPINEL_PROP_MAC_15_4_PANID]]).mQueuedGetKey ≠ SPINEL_PROP_MAC_15_4_PANID ∧
    sentFrames (run fixedStack (busyEngine [] 0 0)
        [Notification.Command 0x81 SPINEL_CMD_PROP_VALUE_GET [SPINEL_PROP_PHY_CHAN],
         Notification.Command 0x82 SPINEL_CMD_PROP_VALUE_GET [SPINEL_PROP_MAC_15_4_PANID],
         Notification.SendDone]).trace =
      [[0x81, SPINEL_CMD_PROP_VALUE_IS, SPINEL_PROP_PHY_CHAN, 15]] := by
  decide

/-- C2 (amended): first-request-wins. With a send in flight, an empty
Pending-Get Slot and a non-zero header `hA`, after GET(hA, keyA) then
GET(hB, keyB) the slot holds (hA, keyA) and nothing has been sent; the second
request is dropped. The following `HandleSendDone` with an empty datagram
queue performs the getter of keyA under header hA, and nothing else, which
hands at most one frame to the transport, and empties the slot. -/
theorem pending_get_first_request_wins (api : StackApi σ) (s : NcpBase σ)
    (hA keyA hB keyB : Nat) (hs : s.mSending = true) (hslot : s.mQueuedGetHeader = 0)
    (hA0 : hA ≠ 0) (hq : s.mSendQueue.items = []) :
    HandleCommandPropertyGet api hB keyB (HandleCommandPropertyGet api hA keyA s) =
        { s with mQueuedGetHeader := hA, mQueuedGetKey := keyA } ∧
    HandleSendDone api
        (HandleCommandPropertyGet api hB keyB (HandleCommandPropertyGet api hA keyA s)) =
      { HandleCommandPropertyGet_switch api hA keyA
          { s with mSending := false, mQueuedGetHeader := hA, mQueuedGetKey := keyA } with
        mQueuedGetHeader := 0 } ∧
    sendsAtMostOne s (HandleSendDone api
        (HandleCommandPropertyGet api hB keyB (HandleCommandPropertyGet api hA keyA s))) := by
  have h1 : HandleCommandPropertyGet api hB keyB (HandleCommandPropertyGet api hA keyA s) =
      { s with mQueuedGetHeader := hA, mQueuedGetKey := keyA } := by
    simp [HandleCommandPropertyGet, hs, hslot, hA0]
  have h2 := HandleSendDone_pending_get api
    { s with mQueuedGetHeader := hA, mQueuedGetKey := keyA } hq hA0
  refine ⟨h1, ?_, ?_⟩
  · rw [h1, h2]
  · rw [h1, h2]
    obtain ⟨evs, he, hn⟩ := HandleCommandPropertyGet_switch_sends api hA keyA
      { s with mSending := false, mQueuedGetHeader := hA, mQueuedGetKey := keyA }
    exact ⟨evs, he, hn⟩

theorem pending_get_first_request_wins_witness :
    HandleCommandPropertyGet fixedStack 0x82 SPINEL_PROP_MAC_15_4_PANID
        (HandleCommandPropertyGet fixedStack 0x81 SPINEL_PROP_PHY_CHAN (busyEngine [] 0 0)) =
      { busyEngine [] 0 0 with mQueuedGetHeader := 0x81, mQueuedGetKey := SPINEL_PROP_PHY_CHAN } ∧
    HandleSendDone fixedStack
        (HandleCommandPropertyGet fixedStack 0x82 SPINEL_PROP_MAC_15_4_PANID
          (HandleCommandPropertyGet fixedStack 0x81 SPINEL_PROP_PHY_CHAN (busyEngine [] 0 0))) =
      { HandleCommandPropertyGet_switch fixedStack 0x81 SPINEL_PROP_PHY_CHAN
          { busyEngine [] 0 0 with
            mSending := false, mQueuedGetHeader := 0x81,
            mQueuedGetKey := SPINEL_PROP_PHY_CHAN } with
        mQueuedGetHeader := 0 } ∧
    sendsAtMostOne (busyEngine [] 0 0) (HandleSendDone fixedStack
        (HandleCommandPropertyGet fixedStack 0x82 SPINEL_PROP_MAC_15_4_PANID
          (HandleCommandPropertyGet fixedStack 0x81 SPINEL_PROP_PHY_CHAN (busyEngine [] 0 0)))) :=
  pending_get_first_request_wins fixedStack (busyEngine [] 0 0) 0x81 SPINEL_PROP_PHY_CHAN 0x82
    SPINEL_PROP_MAC_15_4_PANID rfl rfl (by decide) rfl

/-- C3 (the code at the failing input): starting idle, datagram 0 arrives and
is sent at once, datagram 1 arrives and is queued, and the host's GET of
PHY_CHAN under header 0x81 is deferred to the Pending-Get Slot. The first
completion transmits datagram 1 and empties the slot without answering the
GET; the second completion, with the queue now empty, transmits nothing: the
GET is never answered. -/
theorem HandleSendDone_datagram_cancels_pending_get :
    (run fixedStack (NcpBase.init () 4)
        [Notification.ReceivedDatagram ⟨0, [9]⟩, Notification.ReceivedDatagram ⟨1, [7]⟩,
         Notification.Receive [0x81, SPINEL_CMD_PROP_VALUE_GET, SPINEL_PROP_PHY_CHAN]]).mSendQueue.items
      = [⟨1, [7]⟩] ∧
    (run fixedStack (NcpBase.init () 4)
        [Notification.ReceivedDatagram ⟨0, [9]⟩, Notification.ReceivedDatagram ⟨1, [7]⟩,
         Notification.Receive [0x81, SPINEL_CMD_PROP_VALUE_GET, SPINEL_PROP_PHY_CHAN]]).mQueuedGetHeader
      = 0x81 ∧
    (run fixedStack (NcpBase.init () 4)
        [Notification.ReceivedDatagram ⟨0, [9]⟩, Notification.ReceivedDatagram ⟨1, [7]⟩,
         Notification.Receive [0x81, SPINEL_CMD_PROP_VALUE_GET, SPINEL_PROP_PHY_CHAN]]).mQueuedGetKey
      = SPINEL_PROP_PHY_CHAN ∧
    (run fixedStack (NcpBase.init () 4)
        [Notification.ReceivedDatagram ⟨0, [9]⟩, Notification.ReceivedDatagram ⟨1, [7]⟩,
         Notification.Receive [0x81, SPINEL_CMD_PROP_VALUE_GET, SPINEL_PROP_PHY_CHAN],
         Notification.SendDone]).trace =
      [Event.SendMessage streamNetHeader ⟨0, [9]⟩, Event.SendMessage streamNetHeader ⟨1, [7]⟩] ∧
    (run fixedStack (NcpBase.init () 4)
        [Notification.ReceivedDatagram ⟨0, [9]⟩, Notification.ReceivedDatagram ⟨1, [7]⟩,
         Notification.Receive [0x81, SPINEL_CMD_PROP_VALUE_GET, SPINEL_PROP_PHY_CHAN],
         Notification.SendDone]).mQueuedGetHeader = 0 ∧
    (run fixedStack (NcpBase.init () 4)
        [Notification.ReceivedDatagram ⟨0, [9]⟩, Notification.ReceivedDatagram ⟨1, [7]⟩,
         Notification.Receive [0x81, SPINEL_CMD_PROP_VALUE_GET, SPINEL_PROP_PHY_CHAN],
         Notification.SendDone, Notification.SendDone]).trace =
      [Event.SendMessage streamNetHeader ⟨0, [9]⟩, Event.SendMessage streamNetHeader ⟨1, [7]⟩] := by
  decide

/-- C1 (the code at the failing input): starting idle, two NOOP frames arrive
with no send completion in between. The first reply sets `mSending`; the
second reply is handed to the transport all the same, while the first is
still in flight. -/
theorem Send_issued_while_sending :
    (HandleReceive fixedStack [0x81, SPINEL_CMD_NOOP] (NcpBase.init () 4)).mSending = true ∧
    (HandleReceive fixedStack [0x81, SPINEL_CMD_NOOP] (NcpBase.init () 4)).trace =
      [Event.Send [0x81, SPINEL_CMD_PROP_VALUE_IS, SPINEL_PROP_LAST_STATUS, SPINEL_STATUS_OK]] ∧
    (HandleReceive fixedStack [0x82, SPINEL_CMD_NOOP]
        (HandleReceive fixedStack [0x81, SPINEL_CMD_NOOP] (NcpBase.init () 4))).trace =
      [Event.Send [0x81, SPINEL_CMD_PROP_VALUE_IS, SPINEL_PROP_LAST_STATUS, SPINEL_STATUS_OK],
       Event.Send [0x82, SPINEL_CMD_PROP_VALUE_IS, SPINEL_PROP_LAST_STATUS, SPINEL_STATUS_OK]] := by
  decide

/-! ## The in-flight flag is only cleared by a completion -/

theorem mSending_ite (a b : NcpBase σ) (c : Prop) [Decidable c]
    (ha : a.mSending = true) (hb : b.mSending = true) :
    (if c then a else b).mSending = true := by
  split <;> assumption

theorem SendPropteryUpdate_sending (header command key : Nat) (fmt : String)
    (args : List spinel_arg) (s : NcpBase σ) (hs : s.mSending = true) :
    (SendPropteryUpdate header command key fmt args s).mSending = true := by
  unfold SendPropteryUpdate
  simp only
  split
  · split
    · rfl
    · exact hs
  · exact hs

theorem SendLastStatus_sending (header status : Nat) (s : NcpBase σ)
    (hs : s.mSending = true) : (SendLastStatus header status s).mSending = true := by
  unfold SendLastStatus
  apply SendPropteryUpdate_sending
  split
  · exact hs
  · exact hs

theorem HandleCommandPropertyGet_sending (api : StackApi σ) (header key : Nat)
    (s : NcpBase σ) (hs : s.mSending = true) :
    (HandleCommandPropertyGet api header key s).mSending = true := by
  unfold HandleCommandPropertyGet
  rw [if_pos hs]
  split
  · exact hs
  · exact hs

theorem replyToSet_sending (api : StackApi σ) (header key : Nat) (errorCode : ThreadError)
    (s : NcpBase σ) (hs : s.mSending = true) :
    (replyToSet api header key errorCode s).mSending = true := by
  unfold replyToSet
  split
  · exact HandleCommandPropertyGet_sending api header key s hs
  · exact SendLastStatus_sending _ _ s hs

theorem replyToStreamNet_sending (header : Nat) (errorCode : ThreadError)
    (s : NcpBase σ) (hs : s.mSending = true) :
    (replyToStreamNet header errorCode s).mSending = true := by
  unfold replyToStreamNet
  split
  · split
    · exact SendLastStatus_sending _ _ s hs
    · exact hs
  · exact SendLastStatus_sending _ _ s hs

theorem setNetState_sending (api : StackApi σ) (header key i : Nat) (s : NcpBase σ)
    (hs : s.mSending = true) : (setNetState api header key i s).mSending = true := by
  unfold setNetState
  simp only
  repeat' first
    | with_reducible apply mSending_ite
    | with_reducible apply replyToSet_sending
    | with_reducible apply SendPropteryUpdate_sending
    | exact hs
    | split

theorem setNetRole_sending (api : StackApi σ) (header key i : Nat) (s : NcpBase σ)
    (hs : s.mSending = true) : (setNetRole api header key i s).mSending = true := by
  unfold setNetRole
  repeat' first
    | with_reducible apply mSending_ite
    | with_reducible apply replyToSet_sending
    | exact hs

theorem setScanState_sending (api : StackApi σ) (header key i : Nat) (s : NcpBase σ)
    (hs : s.mSending = true) : (setScanState api header key i s).mSending = true := by
  unfold setScanState
  repeat' first
    | with_reducible apply mSending_ite
    | with_reducible apply replyToSet_sending
    | exact hs

theorem setStreamNet_sending (api : StackApi σ) (header : Nat) (value : List Nat)
    (s : NcpBase σ) (hs : s.mSending = true) :
    (setStreamNet api header value s).mSending = true := by
  unfold setStreamNet
  split
  · exact replyToStreamNet_sending _ _ _ hs
  · simp only
    split
    · exact replyToStreamNet_sending _ _ _ hs
    · exact replyToStreamNet_sending _ _ _ hs

theorem HandleCommandPropertySet_sending (api : StackApi σ) (header key : Nat)
    (value : List Nat) (s : NcpBase σ) (hs : s.mSending = true) :
    (HandleCommandPropertySet api header key value s).mSending = true := by
  unfold HandleCommandPropertySet
  simp only
  repeat' first
    | with_reducible apply mSending_ite
    | with_reducible apply SendLastStatus_sending
    | with_reducible apply replyToSet_sending
    | with_reducible apply HandleCommandPropertyGet_sending
    | with_reducible apply setNetState_sending
    | with_reducible apply setNetRole_sending
    | with_reducible apply setScanState_sending
    | with_reducible apply setStreamNet_sending
    | exact hs
    | split

theorem HandleCommand_sending (api : StackApi σ) (header command : Nat) (arg : List Nat)
    (s : NcpBase σ) (hs : s.mSending = true) :
    (HandleCommand api header command arg s).mSending = true := by
  unfold HandleCommand HandleCommandPropertyInsert HandleCommandPropertyRemove
  repeat' first
    | with_reducible apply mSending_ite
    | with_reducible apply SendLastStatus_sending
    | with_reducible apply HandleCommandPropertyGet_sending
    | with_reducible apply HandleCommandPropertySet_sending
    | exact hs

theorem HandleReceive_sending (api : StackApi σ) (buf : List Nat) (s : NcpBase σ)
    (hs : s.mSending = true) : (HandleReceive api buf s).mSending = true := by
  unfold HandleReceive
  split
  · exact HandleCommand_sending api _ _ _ s hs
  · exact SendLastStatus_sending _ _ s hs

theorem HandleReceivedDatagram_sending (message : Message) (s : NcpBase σ)
    (hs : s.mSending = true) : (HandleReceivedDatagram message s).mSending = true := by
  simp [HandleReceivedDatagram, hs]
  split <;> simp [MessageFree, hs]

theorem HandleActiveScanResult_sending (result : Option otActiveScanResult) (s : NcpBase σ)
    (hs : s.mSending = true) : HandleActiveScanResult result s = s := by
  simp [HandleActiveScanResult, hs]

theorem RunUpdateAddressesTask_sending (api : StackApi σ) (s : NcpBase σ)
    (hs : s.mSending = true) : RunUpdateAddressesTask api s = s := by
  simp [RunUpdateAddressesTask, hs]

theorem step_sending (api : StackApi σ) (s : NcpBase σ) (n : Notification)
    (hn : n ≠ Notification.SendDone) (hs : s.mSending = true) :
    (step api s n).mSending = true := by
  cases n with
  | Receive buf => exact HandleReceive_sending api buf s hs
  | Command header command arg => exact HandleCommand_sending api header command arg s hs
  | ReceivedDatagram message => exact HandleReceivedDatagram_sending message s hs
  | ActiveScanResult result =>
    simp only [step]; rw [HandleActiveScanResult_sending result s hs]; exact hs
  | ActiveScanResult_Jump result =>
    simp only [step, HandleActiveScanResult_Jump]
    split
    · rw [HandleActiveScanResult_sending result s hs]; exact hs
    · exact hs
  | UpdateAddressesTask =>
    simp only [step]; rw [RunUpdateAddressesTask_sending api s hs]; exact hs
  | SendDone => exact absurd rfl hn

/-- C7: transport silence is safe. `mSending` is cleared only by
`HandleSendDone`: over every sequence of notifications without a send
completion (inbound frames and commands, datagram arrivals, active-scan
results, runs of the address task), once `mSending` is true it is still true
at the end. -/
theorem mSending_cleared_only_by_send_done (api : StackApi σ) (ns : List Notification)
    (s : NcpBase σ) (hns : Notification.SendDone ∉ ns) (hs : s.mSending = true) :
    (run api s ns).mSending = true := by
  induction ns generalizing s with
  | nil => exact hs
  | cons n rest ih =>
    have hn : n ≠ Notification.SendDone := fun h => hns (by simp [h])
    have hrest : Notification.SendDone ∉ rest := fun h => hns (by simp [h])
    exact ih (step api s n) hrest (step_sending api s n hn hs)

theorem mSending_cleared_only_by_send_done_witness :
    Notification.SendDone ∉
        [Notification.Receive [0x81, SPINEL_CMD_NOOP],
         Notification.Receive [0x82, SPINEL_CMD_PROP_VALUE_SET, SPINEL_PROP_PHY_CHAN, 11],
         Notification.ReceivedDatagram ⟨1, [7]⟩, Notification.ActiveScanResult none,
         Notification.UpdateAddressesTask] ∧
      (busyEngine [] 0 0).mSending = true ∧
      (run fixedStack (busyEngine [] 0 0)
        [Notification.Receive [0x81, SPINEL_CMD_NOOP],
         Notification.Receive [0x82, SPINEL_CMD_PROP_VALUE_SET, SPINEL_PROP_PHY_CHAN, 11],
         Notification.ReceivedDatagram ⟨1, [7]⟩, Notification.ActiveScanResult none,
         Notification.UpdateAddressesTask]).mSending = true :=
  ⟨by decide, rfl, mSending_cleared_only_by_send_done fixedStack _ (busyEngine [] 0 0)
    (by decide) rfl⟩

/-! ## FIFO drain of the datagram queue -/

theorem run_append (api : StackApi σ) (s : NcpBase σ) (xs ys : List Notification) :
    run api s (xs ++ ys) = run api (run api s xs) ys := by
  simp [run, List.foldl_append]

/-- While a send is in flight and the queue has room, datagram arrivals only
extend the queue, in arrival order. -/
theorem run_datagrams_while_sending (api : StackApi σ) (ms : List Message) (s : NcpBase σ)
    (hs : s.mSending = true)
    (hcap : s.mSendQueue.items.length + ms.length ≤ s.mSendQueue.capacity) :
    run api s (ms.map Notification.ReceivedDatagram) =
      { s with mSendQueue := { s.mSendQueue with items := s.mSendQueue.items ++ ms } } := by
  induction ms generalizing s with
  | nil => simp [run]
  | cons m rest ih =>
    have hroom : (s.mSendQueue.Enqueue m).1 = kThreadError_None :=
      (Enqueue_success_iff _ m).2 (by simp at hcap; omega)
    have h1 := HandleReceivedDatagram_enqueued m s hs hroom
    simp only [List.map_cons, run, List.foldl_cons, step]
    rw [h1]
    have h2 := ih { s with mSendQueue := { s.mSendQueue with items := s.mSendQueue.items ++ [m] } }
      hs (by simp at hcap ⊢; omega)
    simp only [run] at h2
    rw [h2]
    simp

/-- A completion with a non-empty queue sends the head of the queue, and only
that; the Pending-Get Slot is empty afterwards. -/
theorem HandleSendDone_queue_head (api : StackApi σ) (s : NcpBase σ) (m : Message)
    (rest : List Message) (hq : s.mSendQueue.items = m :: rest) :
    HandleSendDone api s =
      { s with
        mSending := true,
        mSendMessage := some m,
        mQueuedGetHeader := 0,
        mSendQueue := { s.mSendQueue with items := rest },
        trace := s.trace ++ [Event.SendMessage streamNetHeader m] } := by
  have hhead : s.mSendQueue.GetHead = some m := by simp [MessageQueue.GetHead, hq]
  unfold HandleSendDone HandleSendDone_queue
  simp only [hhead, SendPropteryUpdateMessage_stream_net, MessageQueue.Dequeue, hq,
    List.erase_cons_head, HandleCommandPropertyGet, streamNetHeader]
  by_cases h0 : s.mQueuedGetHeader = 0 <;> simp [h0]

theorem run_send_done_drains (api : StackApi σ) (k : Nat) (s : NcpBase σ)
    (hk : k ≤ s.mSendQueue.items.length) :
    (run api s (List.replicate k Notification.SendDone)).trace =
        s.trace ++ (s.mSendQueue.items.take k).map (Event.SendMessage streamNetHeader) ∧
      (run api s (List.replicate k Notification.SendDone)).mSendQueue.items =
        s.mSendQueue.items.drop k := by
  induction k generalizing s with
  | zero => simp [run]
  | succ k ih =>
    cases hq : s.mSendQueue.items with
    | nil => simp [hq] at hk
    | cons m rest =>
      have h1 := HandleSendDone_queue_head api s m rest hq
      have h2 := ih (HandleSendDone api s) (by rw [h1]; simp [hq] at hk ⊢; omega)
      simp only [List.replicate_succ, run, List.foldl_cons, step]
      simp only [run] at h2
      rw [h2.1, h2.2, h1]
      simp

/-- C5: FIFO drain. A send is in flight; datagrams `ms = m1..mN` arrive and
all fit the queue. Their arrival sends nothing and appends them to the queue
in arrival order. After the next `k` completions the log has grown by exactly
the `STREAM_NET` `VALUE_IS` frames of the first `k` queued datagrams, in queue
order (so each completion hands exactly one frame to the transport), and the
queue holds the rest. In particular, when the queue was empty before `m1`
arrived, the next `N` completions transmit `m1, ..., mN` in that order and
leave the queue empty. -/
theorem datagram_queue_fifo_drain (api : StackApi σ) (s : NcpBase σ) (ms : List Message)
    (k : Nat) (hs : s.mSending = true)
    (hcap : s.mSendQueue.items.length + ms.length ≤ s.mSendQueue.capacity)
    (hk : k ≤ s.mSendQueue.items.length + ms.length) :
    (run api s (ms.map Notification.ReceivedDatagram)).trace = s.trace ∧
    (run api s (ms.map Notification.ReceivedDatagram)).mSendQueue.items =
      s.mSendQueue.items ++ ms ∧
    (run api s (ms.map Notification.ReceivedDatagram ++
        List.replicate k Notification.SendDone)).trace =
      s.trace ++ ((s.mSendQueue.items ++ ms).take k).map (Event.SendMessage streamNetHeader) ∧
    (run api s (ms.map Notification.ReceivedDatagram ++
        List.replicate k Notification.SendDone)).mSendQueue.items =
      (s.mSendQueue.items ++ ms).drop k ∧
    (s.mSendQueue.items = [] →
      (run api s (ms.map Notification.ReceivedDatagram ++
          List.replicate ms.length Notification.SendDone)).trace =
        s.trace ++ ms.map (Event.SendMessage streamNetHeader) ∧
      (run api s (ms.map Notification.ReceivedDatagram ++
          List.replicate ms.length Notification.SendDone)).mSendQueue.items = []) := by
  have h1 := run_datagrams_while_sending api ms s hs hcap
  have h2 := run_send_done_drains api k (run api s (ms.map Notification.ReceivedDatagram))
    (by rw [h1]; simpa using hk)
  refine ⟨by rw [h1], by rw [h1], ?_, ?_, fun hq => ?_⟩
  · rw [run_append, h2.1, h1]
  · rw [run_append, h2.2, h1]
  · have h3 := run_send_done_drains api ms.length
      (run api s (ms.map Notification.ReceivedDatagram)) (by rw [h1]; simp)
    rw [run_append, h3.1, h3.2, h1]
    simp [hq]

theorem datagram_queue_fifo_drain_witness :
    (busyEngine [] 0x81 SPINEL_PROP_PHY_CHAN).mSending = true ∧
    (busyEngine [] 0x81 SPINEL_PROP_PHY_CHAN).mSendQueue.items = [] ∧
    (run fixedStack (busyEngine [] 0x81 SPINEL_PROP_PHY_CHAN)
        ([⟨1, [7]⟩, ⟨2, [8]⟩].map Notification.ReceivedDatagram ++
          List.replicate ([⟨1, [7]⟩, ⟨2, [8]⟩] : List Message).length
            Notification.SendDone)).trace =
      (busyEngine [] 0x81 SPINEL_PROP_PHY_CHAN).trace ++
        ([⟨1, [7]⟩, ⟨2, [8]⟩] : List Message).map (Event.SendMessage streamNetHeader) ∧
    (run fixedStack (busyEngine [] 0x81 SPINEL_PROP_PHY_CHAN)
        ([⟨1, [7]⟩, ⟨2, [8]⟩].map Notification.ReceivedDatagram ++
          List.replicate ([⟨1, [7]⟩, ⟨2, [8]⟩] : List Message).length
            Notification.SendDone)).mSendQueue.items = [] :=
  ⟨rfl, rfl,
    (datagram_queue_fifo_drain fixedStack (busyEngine [] 0x81 SPINEL_PROP_PHY_CHAN)
      [⟨1, [7]⟩, ⟨2, [8]⟩] 2 rfl (by decide) (by decide)).2.2.2.2 rfl⟩

/-! ## Command dispatch -/

theorem ThreadErrorToSpinelStatus_small (e : ThreadError) :
    ThreadErrorToSpinelStatus e < 128 := by
  cases e <;> simp [ThreadErrorToSpinelStatus] <;> decide

/-- On an accepted header (flag set, interface 0) `HandleCommand` reaches its
`switch (command)`. -/
theorem HandleCommand_accepted (api : StackApi σ) (header command : Nat) (arg : List Nat)
    (s : NcpBase σ) (hflag : header.testBit 7 = true) (hiid : SPINEL_HEADER_GET_IID header = 0) :
    HandleCommand api header command arg s =
      if command = SPINEL_CMD_NOOP then
        SendLastStatus header SPINEL_STATUS_OK s
      else if command = SPINEL_CMD_RESET then
        SendLastStatus 0 SPINEL_STATUS_RESET_SOFTWARE s
      else if command = SPINEL_CMD_PROP_VALUE_GET then
        if (spinel_datatype_unpack arg "i").len > 0 then
          HandleCommandPropertyGet api header ((spinel_datatype_unpack arg "i").uintAt 0 0) s
        else SendLastStatus header SPINEL_STATUS_PARSE_ERROR s
      else if command = SPINEL_CMD_PROP_VALUE_SET then
        if (spinel_datatype_unpack arg "iD").len = (arg.length : Int) then
          HandleCommandPropertySet api header ((spinel_datatype_unpack arg "iD").uintAt 0 0)
            (((spinel_datatype_unpack arg "iD").bytesAt 1).getD []) s
        else SendLastStatus header SPINEL_STATUS_PARSE_ERROR s
      else if command = SPINEL_CMD_PROP_VALUE_INSERT then
        if (spinel_datatype_unpack arg "iD").len = (arg.length : Int) then
          HandleCommandPropertyInsert header ((spinel_datatype_unpack arg "iD").uintAt 0 0)
            (((spinel_datatype_unpack arg "iD").bytesAt 1).getD []) s
        else SendLastStatus header SPINEL_STATUS_PARSE_ERROR s
      else if command = SPINEL_CMD_PROP_VALUE_REMOVE then
        if (spinel_datatype_unpack arg "iD").len = (arg.length : Int) then
          HandleCommandPropertyRemove header ((spinel_datatype_unpack arg "iD").uintAt 0 0)
            (((spinel_datatype_unpack arg "iD").bytesAt 1).getD []) s
        else SendLastStatus header SPINEL_STATUS_PARSE_ERROR s
      else SendLastStatus header SPINEL_STATUS_INVALID_COMMAND s := by
  have h : SPINEL_HEADER_FLAG &&& header = SPINEL_HEADER_FLAG := (flag_of_testBit header).2 hflag
  unfold HandleCommand
  rw [if_neg (by simp [h]), if_neg (by simp [hiid])]

/-- A status reply on an interface-0 header, spelled out. -/
theorem SendLastStatus_iid0 (header status : Nat) (s : NcpBase σ) (hs : status < 128)
    (hiid : SPINEL_HEADER_GET_IID header = 0) :
    SendLastStatus header status s =
      { s with
        mLastStatus := status,
        mSending := true,
        trace := s.trace ++ [Event.Send [header % 256, SPINEL_CMD_PROP_VALUE_IS,
          SPINEL_PROP_LAST_STATUS, status]] } := by
  rw [SendLastStatus_small header status s hs]
  simp [hiid]

/-- C11: command dispatch on an accepted header `h` (flag set, interface 0).
NOOP yields exactly one reply, `LAST_STATUS` = OK under `h`. RESET yields
exactly one reply, `LAST_STATUS` = software reset, and leaves the stack
untouched (no accessor is called, the stack state is the same); its header
byte is 0. Every
command id other than NOOP, RESET and the four property commands yields
exactly one reply, `LAST_STATUS` = "invalid command" under `h`. In each case
the state changes only in `mLastStatus`, `mSending` and the one `Send` added
to the log. -/
theorem HandleCommand_dispatch (api : StackApi σ) (header command : Nat) (arg : List Nat)
    (s : NcpBase σ) (hflag : header.testBit 7 = true) (hiid : SPINEL_HEADER_GET_IID header = 0) :
    (command = SPINEL_CMD_NOOP →
      HandleCommand api header command arg s =
        { s with
          mLastStatus := SPINEL_STATUS_OK,
          mSending := true,
          trace := s.trace ++ [Event.Send [header % 256, SPINEL_CMD_PROP_VALUE_IS,
            SPINEL_PROP_LAST_STATUS, SPINEL_STATUS_OK]] }) ∧
    (command = SPINEL_CMD_RESET →
      HandleCommand api header command arg s =
        { s with
          mLastStatus := SPINEL_STATUS_RESET_SOFTWARE,
          mSending := true,
          trace := s.trace ++ [Event.Send [0, SPINEL_CMD_PROP_VALUE_IS,
            SPINEL_PROP_LAST_STATUS, SPINEL_STATUS_RESET_SOFTWARE]] }) ∧
    (command ≠ SPINEL_CMD_NOOP → command ≠ SPINEL_CMD_RESET →
      command ≠ SPINEL_CMD_PROP_VALUE_GET → command ≠ SPINEL_CMD_PROP_VALUE_SET →
      command ≠ SPINEL_CMD_PROP_VALUE_INSERT → command ≠ SPINEL_CMD_PROP_VALUE_REMOVE →
      HandleCommand api header command arg s =
        { s with
          mLastStatus := SPINEL_STATUS_INVALID_COMMAND,
          mSending := true,
          trace := s.trace ++ [Event.Send [header % 256, SPINEL_CMD_PROP_VALUE_IS,
            SPINEL_PROP_LAST_STATUS, SPINEL_STATUS_INVALID_COMMAND]] }) := by
  have hacc := HandleCommand_accepted api header command arg s hflag hiid
  refine ⟨fun hc => ?_, fun hc => ?_, fun h1 h2 h3 h4 h5 h6 => ?_⟩
  · rw [hacc, if_pos hc, SendLastStatus_iid0 _ _ _ (by decide) hiid]
  · have hne : command ≠ SPINEL_CMD_NOOP := by rw [hc]; decide
    rw [hacc, if_neg hne, if_pos hc, SendLastStatus_iid0 _ _ _ (by decide) (by decide)]
  · rw [hacc, if_neg h1, if_neg h2, if_neg h3, if_neg h4, if_neg h5, if_neg h6,
      SendLastStatus_iid0 _ _ _ (by decide) hiid]

theorem HandleCommandPropertyGet_switch_unknown (api : StackApi σ) (header key : Nat)
    (s : NcpBase σ) (hk : key ∉ getCaseLabels) :
    HandleCommandPropertyGet_switch api header key s =
      SendLastStatus header SPINEL_STATUS_PROPERTY_NOT_FOUND s := by
  simp only [getCaseLabels, List.mem_cons, List.mem_nil_iff, or_false, not_or] at hk
  unfold HandleCommandPropertyGet_switch
  simp only [hk, if_false, or_self]

theorem HandleCommandPropertyGet_switch_no_getter (api : StackApi σ) (header key : Nat)
    (s : NcpBase σ) (hk : key ∈ keysWithoutGetter) :
    HandleCommandPropertyGet_switch api header key s =
      SendLastStatus header SPINEL_STATUS_FAILURE s := by
  simp only [keysWithoutGetter, List.mem_cons, List.mem_nil_iff, or_false] at hk
  unfold HandleCommandPropertyGet_switch
  rcases hk with h | h | h | h | h <;> subst h <;> simp +decide only [if_false, if_true, or_self, or_true, true_or, or_false, false_or]

theorem HandleCommand_dispatch_witness :
    HandleCommand fixedStack 0x81 SPINEL_CMD_NOOP [] (NcpBase.init () 4) =
        { NcpBase.init () 4 with
          mLastStatus := SPINEL_STATUS_OK,
          mSending := true,
          trace := (NcpBase.init () 4).trace ++ [Event.Send [0x81 % 256,
            SPINEL_CMD_PROP_VALUE_IS, SPINEL_PROP_LAST_STATUS, SPINEL_STATUS_OK]] } ∧
      HandleCommand fixedStack 0x81 SPINEL_CMD_RESET [] (NcpBase.init () 4) =
        { NcpBase.init () 4 with
          mLastStatus := SPINEL_STATUS_RESET_SOFTWARE,
          mSending := true,
          trace := (NcpBase.init () 4).trace ++ [Event.Send [0, SPINEL_CMD_PROP_VALUE_IS,
            SPINEL_PROP_LAST_STATUS, SPINEL_STATUS_RESET_SOFTWARE]] } ∧
      HandleCommand fixedStack 0x81 9 [] (NcpBase.init () 4) =
        { NcpBase.init () 4 with
          mLastStatus := SPINEL_STATUS_INVALID_COMMAND,
          mSending := true,
          trace := (NcpBase.init () 4).trace ++ [Event.Send [0x81 % 256,
            SPINEL_CMD_PROP_VALUE_IS, SPINEL_PROP_LAST_STATUS,
            SPINEL_STATUS_INVALID_COMMAND]] } :=
  ⟨(HandleCommand_dispatch fixedStack 0x81 SPINEL_CMD_NOOP [] (NcpBase.init () 4)
      (by decide) (by decide)).1 rfl,
   (HandleCommand_dispatch fixedStack 0x81 SPINEL_CMD_RESET [] (NcpBase.init () 4)
      (by decide) (by decide)).2.1 rfl,
   (HandleCommand_dispatch fixedStack 0x81 9 [] (NcpBase.init () 4)
      (by decide) (by decide)).2.2 (by decide) (by decide) (by decide) (by decide) (by decide)
      (by decide)⟩

/-! ## Property GET -/

theorem HandleCommandPropertyGet_idle (api : StackApi σ) (header key : Nat) (s : NcpBase σ)
    (hs : s.mSending = false) :
    HandleCommandPropertyGet api header key s =
      HandleCommandPropertyGet_switch api header key s := by
  simp [HandleCommandPropertyGet, hs]

/-- C12: property GET with no send in flight. For every key that is not a
case label of the getter switch the only effect is one `LAST_STATUS` reply
"property not found"; for each key without a getter (`STREAM_NET`,
`STREAM_NET_INSECURE`, `STREAM_DEBUG`, `STREAM_RAW`, `MAC_SCAN_BEACON`) the
only effect is one `LAST_STATUS` reply "failure". In both cases exactly one
frame is added to the log and no stack accessor is called; `mLastStatus`
records the status when the header names interface 0. -/
theorem HandleCommandPropertyGet_no_getter (api : StackApi σ) (header key : Nat)
    (s : NcpBase σ) (hs : s.mSending = false) :
    (key ∉ getCaseLabels →
      HandleCommandPropertyGet api header key s =
        { (if SPINEL_HEADER_GET_IID header = 0 then
            { s with mLastStatus := SPINEL_STATUS_PROPERTY_NOT_FOUND } else s) with
          mSending := true,
          trace := s.trace ++ [Event.Send [header % 256, SPINEL_CMD_PROP_VALUE_IS,
            SPINEL_PROP_LAST_STATUS, SPINEL_STATUS_PROPERTY_NOT_FOUND]] }) ∧
    (key ∈ keysWithoutGetter →
      HandleCommandPropertyGet api header key s =
        { (if SPINEL_HEADER_GET_IID header = 0 then
            { s with mLastStatus := SPINEL_STATUS_FAILURE } else s) with
          mSending := true,
          trace := s.trace ++ [Event.Send [header % 256, SPINEL_CMD_PROP_VALUE_IS,
            SPINEL_PROP_LAST_STATUS, SPINEL_STATUS_FAILURE]] }) := by
  refine ⟨fun hk => ?_, fun hk => ?_⟩
  · rw [HandleCommandPropertyGet_idle api header key s hs,
      HandleCommandPropertyGet_switch_unknown api header key s hk,
      SendLastStatus_small header _ s (by decide)]
  · rw [HandleCommandPropertyGet_idle api header key s hs,
      HandleCommandPropertyGet_switch_no_getter api header key s hk,
      SendLastStatus_small header _ s (by decide)]

theorem HandleCommandPropertyGet_no_getter_witness :
    HandleCommandPropertyGet fixedStack 0x81 200 (NcpBase.init () 4) =
        { (if SPINEL_HEADER_GET_IID 0x81 = 0 then
            { NcpBase.init () 4 with mLastStatus := SPINEL_STATUS_PROPERTY_NOT_FOUND }
            else NcpBase.init () 4) with
          mSending := true,
          trace := (NcpBase.init () 4).trace ++ [Event.Send [0x81 % 256,
            SPINEL_CMD_PROP_VALUE_IS, SPINEL_PROP_LAST_STATUS,
            SPINEL_STATUS_PROPERTY_NOT_FOUND]] } ∧
      HandleCommandPropertyGet fixedStack 0x81 SPINEL_PROP_STREAM_RAW (NcpBase.init () 4) =
        { (if SPINEL_HEADER_GET_IID 0x81 = 0 then
            { NcpBase.init () 4 with mLastStatus := SPINEL_STATUS_FAILURE }
            else NcpBase.init () 4) with
          mSending := true,
          trace := (NcpBase.init () 4).trace ++ [Event.Send [0x81 % 256,
            SPINEL_CMD_PROP_VALUE_IS, SPINEL_PROP_LAST_STATUS, SPINEL_STATUS_FAILURE]] } :=
  ⟨(HandleCommandPropertyGet_no_getter fixedStack 0x81 200 (NcpBase.init () 4) rfl).1
      (by decide),
   (HandleCommandPropertyGet_no_getter fixedStack 0x81 SPINEL_PROP_STREAM_RAW
      (NcpBase.init () 4) rfl).2 (by decide)⟩

/-! ## Value replies -/

theorem spinel_packed_uint_encode_aux_length (fuel v : Nat) :
    (spinel_packed_uint_encode_aux fuel v).length ≤ fuel := by
  induction fuel generalizing v with
  | zero => simp [spinel_packed_uint_encode_aux]
  | succ n ih =>
    unfold spinel_packed_uint_encode_aux
    split
    · simp
    · have := ih (v / 128)
      simp
      omega

theorem spinel_packed_uint_encode_length (v : Nat) :
    (spinel_packed_uint_encode v).length ≤ 5 :=
  spinel_packed_uint_encode_aux_length 5 _

theorem pack_packed_uint (cap v : Nat) (hcap : 5 ≤ cap) :
    spinel_datatype_pack cap "i" [spinel_arg.uint v] =
      ⟨(spinel_packed_uint_encode v).length, spinel_packed_uint_encode v⟩ := by
  have h := spinel_packed_uint_encode_length v
  have h2 : (spinel_packed_uint_encode v).length ≤ cap := by omega
  simp [spinel_datatype_pack, spinel_datatype_pack_aux, h2]

theorem spinel_datatype_pack_len_eq (cap : Nat) (fmt : String) (args : List spinel_arg)
    (h : (spinel_datatype_pack cap fmt args).len ≥ 0)
    (hle : (spinel_datatype_pack cap fmt args).len ≤ cap) :
    (spinel_datatype_pack cap fmt args).len = (spinel_datatype_pack cap fmt args).bytes.length := by
  simp only [spinel_datatype_pack, String.toList] at h hle ⊢
  cases hp : spinel_datatype_pack_aux fmt.data args [] [] with
  | none => simp [hp] at h
  | some out =>
    by_cases hl : out.length ≤ cap
    · simp [hl]
    · simp [hp, hl] at hle

/-- A property update whose command and key take one octet each and whose
value packs into the rest of the buffer is sent as one frame. -/
theorem SendPropteryUpdate_sent (header command key : Nat) (fmt : String)
    (args : List spinel_arg) (s : NcpBase σ) (hc : command < 128) (hk : key < 128)
    (hv : (spinel_datatype_pack 253 fmt args).len ≥ 0)
    (hle : (spinel_datatype_pack 253 fmt args).len ≤ 253) :
    SendPropteryUpdate header command key fmt args s =
      { s with
        mSending := true,
        trace := s.trace ++ [Event.Send ([header % 256, command, key] ++
          (spinel_datatype_pack 253 fmt args).bytes)] } := by
  have hc2 : command % 256 = command := Nat.mod_eq_of_lt (by omega)
  have hp := pack_header 256 header command key (by decide) hc hk
  unfold SendPropteryUpdate
  rw [hc2, hp]
  simp only [show (256 - (3 : Int).toNat) = 253 from by decide]
  rw [if_pos (by decide), if_pos ⟨hv, by omega⟩]
  simp [Send]

theorem HandleCommandPropertyGet_switch_PHY_CHAN (api : StackApi σ) (header : Nat)
    (s : NcpBase σ) :
    HandleCommandPropertyGet_switch api header SPINEL_PROP_PHY_CHAN s =
      SendPropteryUpdate header SPINEL_CMD_PROP_VALUE_IS SPINEL_PROP_PHY_CHAN
        SPINEL_DATATYPE_UINT_PACKED_S [spinel_arg.uint (api.otGetChannel s.stack)]
        (s.call StackCall.otGetChannel) := by
  unfold HandleCommandPropertyGet_switch
  simp +decide only [if_false, if_true]

theorem unpack_one_key (key : Nat) (hk : key < 128) :
    spinel_datatype_unpack [key] "i" = ⟨1, [spinel_arg.uint key]⟩ := by
  have h1 : key % 256 < 128 := by omega
  have h2 : key % 128 = key := Nat.mod_eq_of_lt hk
  have h3 : key % 4294967296 = key := Nat.mod_eq_of_lt (by omega)
  simp [spinel_datatype_unpack, spinel_datatype_unpack_aux, spinel_packed_uint_decode,
    spinel_packed_uint_decode_aux, h1, h2, h3]

/-- C13: basic GET. For every accepted header `h` (flag set, interface 0) and
every channel `c` reported by the stack, a GET of `PHY_CHAN` with no send in
flight reads the channel once and hands exactly one frame to the transport:
the octets of `pack("Cii", h, VALUE_IS, PHY_CHAN)`, which are `h`,
`VALUE_IS`, `PHY_CHAN`, followed by `c` as a packed varint. This holds for
the handler and for the command as dispatched by `HandleCommand`. -/
theorem HandleCommandPropertyGet_PHY_CHAN (api : StackApi σ) (header : Nat) (s : NcpBase σ)
    (hflag : header.testBit 7 = true) (hiid : SPINEL_HEADER_GET_IID header = 0)
    (hs : s.mSending = false) :
    HandleCommandPropertyGet api header SPINEL_PROP_PHY_CHAN s =
      { s with
        mSending := true,
        trace := s.trace ++ [Event.Stack StackCall.otGetChannel,
          Event.Send ((spinel_datatype_pack 256 "Cii"
              [spinel_arg.uint header, spinel_arg.uint SPINEL_CMD_PROP_VALUE_IS,
               spinel_arg.uint SPINEL_PROP_PHY_CHAN]).bytes ++
            spinel_packed_uint_encode (api.otGetChannel s.stack))] } ∧
    HandleCommand api header SPINEL_CMD_PROP_VALUE_GET [SPINEL_PROP_PHY_CHAN] s =
      HandleCommandPropertyGet api header SPINEL_PROP_PHY_CHAN s ∧
    (spinel_datatype_pack 256 "Cii"
        [spinel_arg.uint header, spinel_arg.uint SPINEL_CMD_PROP_VALUE_IS,
         spinel_arg.uint SPINEL_PROP_PHY_CHAN]).bytes =
      [header % 256, SPINEL_CMD_PROP_VALUE_IS, SPINEL_PROP_PHY_CHAN] := by
  have hp := pack_header 256 header SPINEL_CMD_PROP_VALUE_IS SPINEL_PROP_PHY_CHAN
    (by decide) (by decide) (by decide)
  have hv := pack_packed_uint 253 (api.otGetChannel s.stack) (by decide)
  have hfmt : SPINEL_DATATYPE_UINT_PACKED_S = "i" := rfl
  refine ⟨?_, ?_, by rw [hp]⟩
  · rw [HandleCommandPropertyGet_idle api header _ s hs,
      HandleCommandPropertyGet_switch_PHY_CHAN, hfmt,
      SendPropteryUpdate_sent header _ _ "i" _ _ (by decide) (by decide)
        (by rw [hv]; simp)
        (by rw [hv]; have := spinel_packed_uint_encode_length (api.otGetChannel s.stack)
            simp only; omega), hv, hp]
    simp [NcpBase.call]
  · rw [HandleCommand_accepted api header _ _ s hflag hiid]
    have hu := unpack_one_key SPINEL_PROP_PHY_CHAN (by decide)
    simp +decide only [if_false, if_true, hu, spinel_unpacked.uintAt]
    rfl

theorem HandleCommandPropertyGet_PHY_CHAN_witness :
    HandleCommandPropertyGet fixedStack 0x81 SPINEL_PROP_PHY_CHAN (NcpBase.init () 4) =
      { NcpBase.init () 4 with
        mSending := true,
        trace := (NcpBase.init () 4).trace ++ [Event.Stack StackCall.otGetChannel,
          Event.Send ((spinel_datatype_pack 256 "Cii"
              [spinel_arg.uint 0x81, spinel_arg.uint SPINEL_CMD_PROP_VALUE_IS,
               spinel_arg.uint SPINEL_PROP_PHY_CHAN]).bytes ++
            spinel_packed_uint_encode (fixedStack.otGetChannel (NcpBase.init () 4).stack))] } ∧
    (HandleReceive fixedStack [0x81, SPINEL_CMD_PROP_VALUE_GET, SPINEL_PROP_PHY_CHAN]
        (NcpBase.init () 4)).trace =
      [Event.Stack StackCall.otGetChannel,
       Event.Send [0x81, SPINEL_CMD_PROP_VALUE_IS, SPINEL_PROP_PHY_CHAN, 15]] :=
  ⟨(HandleCommandPropertyGet_PHY_CHAN fixedStack 0x81 (NcpBase.init () 4) (by decide)
    (by decide) rfl).1, by decide⟩

/-! ## Property SET: keys without a setter -/

theorem stackCalls_append (xs ys : List Event) :
    stackCalls (xs ++ ys) = stackCalls xs ++ stackCalls ys := by
  induction xs with
  | nil => rfl
  | cons e rest ih => cases e <;> simp [stackCalls, ih]

theorem HandleCommandPropertySet_no_setter (api : StackApi σ) (header key : Nat)
    (value : List Nat) (s : NcpBase σ) (hk : key ∈ keysWithoutSetter) :
    HandleCommandPropertySet api header key value s =
      SendLastStatus header SPINEL_STATUS_FAILURE s := by
  simp only [keysWithoutSetter, List.mem_cons, List.mem_nil_iff, or_false] at hk
  unfold HandleCommandPropertySet
  rw [if_pos hk]

/-- C15: SET rejected. For `LAST_STATUS` and every other key of the no-setter
arm (`PROTOCOL_VERSION`, `CAPABILITIES`, `NCP_VERSION`, `STREAM_DEBUG`,
`MAC_SCAN_BEACON`, `NET_PARTITION_ID`, `PHY_FREQ`, `IPV6_ADDRESS_TABLE`,
`IPV6_ROUTE_TABLE`, `PHY_RSSI`, `INTERFACE_COUNT`) and every payload,
`HandleCommandPropertySet` sends exactly one reply, `LAST_STATUS` = "failure"
under the request header. No stack accessor is called and the stack state is
unchanged: the state changes only in `mSending`, the one `Send` added to the
log, and `mLastStatus` when the header names interface 0. -/
theorem HandleCommandPropertySet_rejected (api : StackApi σ) (header key : Nat)
    (value : List Nat) (s : NcpBase σ) (hk : key ∈ keysWithoutSetter) :
    HandleCommandPropertySet api header key value s =
      { (if SPINEL_HEADER_GET_IID header = 0 then
          { s with mLastStatus := SPINEL_STATUS_FAILURE } else s) with
        mSending := true,
        trace := s.trace ++ [Event.Send [header % 256, SPINEL_CMD_PROP_VALUE_IS,
          SPINEL_PROP_LAST_STATUS, SPINEL_STATUS_FAILURE]] } ∧
    (HandleCommandPropertySet api header key value s).stack = s.stack ∧
    stackCalls (HandleCommandPropertySet api header key value s).trace = stackCalls s.trace := by
  have h := HandleCommandPropertySet_no_setter api header key value s hk
  rw [SendLastStatus_small header _ s (by decide)] at h
  refine ⟨h, ?_, ?_⟩
  · rw [h]; split <;> rfl
  · rw [h]; simp [stackCalls_append, stackCalls]

theorem HandleCommandPropertySet_rejected_witness :
    SPINEL_PROP_LAST_STATUS ∈ keysWithoutSetter ∧
    HandleCommandPropertySet fixedStack 0x81 SPINEL_PROP_LAST_STATUS [5] (NcpBase.init () 4) =
      { (if SPINEL_HEADER_GET_IID 0x81 = 0 then
          { NcpBase.init () 4 with mLastStatus := SPINEL_STATUS_FAILURE }
          else NcpBase.init () 4) with
        mSending := true,
        trace := (NcpBase.init () 4).trace ++ [Event.Send [0x81 % 256,
          SPINEL_CMD_PROP_VALUE_IS, SPINEL_PROP_LAST_STATUS, SPINEL_STATUS_FAILURE]] } ∧
    (HandleCommandPropertySet fixedStack 0x81 SPINEL_PROP_LAST_STATUS [5]
      (NcpBase.init () 4)).stack = (NcpBase.init () 4).stack ∧
    stackCalls (HandleCommandPropertySet fixedStack 0x81 SPINEL_PROP_LAST_STATUS [5]
      (NcpBase.init () 4)).trace = stackCalls (NcpBase.init () 4).trace :=
  ⟨by decide, HandleCommandPropertySet_rejected fixedStack 0x81 SPINEL_PROP_LAST_STATUS [5]
    (NcpBase.init () 4) (by decide)⟩

/-- C14 (the code at the failing input): `HWADDR`, `MAC_15_4_LADDR`,
`MAC_15_4_SADDR` and `THREAD_LEADER` are served by the getter (a GET yields a
`VALUE_IS` frame for the key) but are not case labels of
`HandleCommandPropertySet`: a SET of any of them falls to the default arm and
is answered "property not found", not "failure". -/
theorem HandleCommandPropertySet_get_only_not_found :
    sentFrames (HandleCommandPropertyGet fixedStack 0x81 SPINEL_PROP_HWADDR
        (NcpBase.init () 4)).trace =
      [[0x81, SPINEL_CMD_PROP_VALUE_IS, SPINEL_PROP_HWADDR, 1, 2, 3, 4, 5, 6, 7, 8]] ∧
    sentFrames (HandleCommandPropertySet fixedStack 0x81 SPINEL_PROP_HWADDR
        [1, 2, 3, 4, 5, 6, 7, 8] (NcpBase.init () 4)).trace =
      [[0x81, SPINEL_CMD_PROP_VALUE_IS, SPINEL_PROP_LAST_STATUS,
        SPINEL_STATUS_PROPERTY_NOT_FOUND]] ∧
    sentFrames (HandleCommandPropertySet fixedStack 0x81 SPINEL_PROP_MAC_15_4_LADDR
        [1, 2, 3, 4, 5, 6, 7, 8] (NcpBase.init () 4)).trace =
      [[0x81, SPINEL_CMD_PROP_VALUE_IS, SPINEL_PROP_LAST_STATUS,
        SPINEL_STATUS_PROPERTY_NOT_FOUND]] ∧
    sentFrames (HandleCommandPropertySet fixedStack 0x81 SPINEL_PROP_MAC_15_4_SADDR
        [0, 4] (NcpBase.init () 4)).trace =
      [[0x81, SPINEL_CMD_PROP_VALUE_IS, SPINEL_PROP_LAST_STATUS,
        SPINEL_STATUS_PROPERTY_NOT_FOUND]] ∧
    sentFrames (HandleCommandPropertySet fixedStack 0x81 SPINEL_PROP_THREAD_LEADER
        [] (NcpBase.init () 4)).trace =
      [[0x81, SPINEL_CMD_PROP_VALUE_IS, SPINEL_PROP_LAST_STATUS,
        SPINEL_STATUS_PROPERTY_NOT_FOUND]] := by
  decide

/-! ## Property SET: the mesh-local prefix branch -/

/-- C16 (the code at the failing input): a SET of `IPV6_ML_PREFIX` with a
well-formed 16-octet payload on an idle engine whose stack accepts the
prefix. The GET path runs twice: the first run sends the `VALUE_IS` reply,
the second finds the send in flight and parks (0x81, `IPV6_ML_PREFIX`) in
the Pending-Get Slot, so that the next completion sends the same reply
again. The host gets two replies to one SET. The sibling branch of `PHY_CHAN`
on the same engine yields one reply, also counting the next completion. -/
theorem HandleCommandPropertySet_ML_PREFIX_gets_twice :
    stackCalls (HandleCommandPropertySet (meshStack kThreadError_None) 0x81
        SPINEL_PROP_IPV6_ML_PREFIX [0xfd, 0, 0x0d, 0xb8, 0, 0, 0, 0, 0, 0, 0, 0, 0, 0, 0, 0]
        (NcpBase.init () 4)).trace =
      [StackCall.SetMeshLocalPrefix, StackCall.GetMeshLocalPrefix] ∧
    sentFrames (HandleCommandPropertySet (meshStack kThreadError_None) 0x81
        SPINEL_PROP_IPV6_ML_PREFIX [0xfd, 0, 0x0d, 0xb8, 0, 0, 0, 0, 0, 0, 0, 0, 0, 0, 0, 0]
        (NcpBase.init () 4)).trace =
      [[0x81, SPINEL_CMD_PROP_VALUE_IS, SPINEL_PROP_IPV6_ML_PREFIX,
        0xfd, 0, 0x0d, 0xb8, 0, 0, 0, 0, 0, 0, 0, 0, 0, 0, 0, 0, 64]] ∧
    (HandleCommandPropertySet (meshStack kThreadError_None) 0x81
        SPINEL_PROP_IPV6_ML_PREFIX [0xfd, 0, 0x0d, 0xb8, 0, 0, 0, 0, 0, 0, 0, 0, 0, 0, 0, 0]
        (NcpBase.init () 4)).mQueuedGetHeader = 0x81 ∧
    (HandleCommandPropertySet (meshStack kThreadError_None) 0x81
        SPINEL_PROP_IPV6_ML_PREFIX [0xfd, 0, 0x0d, 0xb8, 0, 0, 0, 0, 0, 0, 0, 0, 0, 0, 0, 0]
        (NcpBase.init () 4)).mQueuedGetKey = SPINEL_PROP_IPV6_ML_PREFIX ∧
    sentFrames (HandleSendDone (meshStack kThreadError_None)
        (HandleCommandPropertySet (meshStack kThreadError_None) 0x81
          SPINEL_PROP_IPV6_ML_PREFIX [0xfd, 0, 0x0d, 0xb8, 0, 0, 0, 0, 0, 0, 0, 0, 0, 0, 0, 0]
          (NcpBase.init () 4))).trace =
      [[0x81, SPINEL_CMD_PROP_VALUE_IS, SPINEL_PROP_IPV6_ML_PREFIX,
        0xfd, 0, 0x0d, 0xb8, 0, 0, 0, 0, 0, 0, 0, 0, 0, 0, 0, 0, 64],
       [0x81, SPINEL_CMD_PROP_VALUE_IS, SPINEL_PROP_IPV6_ML_PREFIX,
        0xfd, 0, 0x0d, 0xb8, 0, 0, 0, 0, 0, 0, 0, 0, 0, 0, 0, 0, 64]] ∧
    sentFrames (HandleSendDone (meshStack kThreadError_None)
        (HandleCommandPropertySet (meshStack kThreadError_None) 0x81
          SPINEL_PROP_PHY_CHAN [15] (NcpBase.init () 4))).trace =
      [[0x81, SPINEL_CMD_PROP_VALUE_IS, SPINEL_PROP_PHY_CHAN, 15]] := by
  decide

/-- C17 (the code at the failing input): a SET of `IPV6_ML_PREFIX` with a
well-formed payload on an idle engine whose stack refuses the prefix with
`kThreadError_Failed`. The GET path is invoked all the same and sends a
`VALUE_IS` reply; the status reply "failure" follows as a second frame. The
sibling branch of `PHY_CHAN`, refused with the same error, calls no getter
and sends the status reply only. -/
theorem HandleCommandPropertySet_ML_PREFIX_error_two_frames :
    stackCalls (HandleCommandPropertySet (meshStack kThreadError_Failed) 0x81
        SPINEL_PROP_IPV6_ML_PREFIX [0xfd, 0, 0x0d, 0xb8, 0, 0, 0, 0, 0, 0, 0, 0, 0, 0, 0, 0]
        (NcpBase.init () 4)).trace =
      [StackCall.SetMeshLocalPrefix, StackCall.GetMeshLocalPrefix] ∧
    sentFrames (HandleCommandPropertySet (meshStack kThreadError_Failed) 0x81
        SPINEL_PROP_IPV6_ML_PREFIX [0xfd, 0, 0x0d, 0xb8, 0, 0, 0, 0, 0, 0, 0, 0, 0, 0, 0, 0]
        (NcpBase.init () 4)).trace =
      [[0x81, SPINEL_CMD_PROP_VALUE_IS, SPINEL_PROP_IPV6_ML_PREFIX,
        0xfd, 0, 0x0d, 0xb8, 0, 0, 0, 0, 0, 0, 0, 0, 0, 0, 0, 0, 64],
       [0x81, SPINEL_CMD_PROP_VALUE_IS, SPINEL_PROP_LAST_STATUS, SPINEL_STATUS_FAILURE]] ∧
    stackCalls (HandleCommandPropertySet (refusingStack kThreadError_Failed) 0x81
        SPINEL_PROP_PHY_CHAN [15] (NcpBase.init () 4)).trace = [StackCall.otSetChannel] ∧
    sentFrames (HandleCommandPropertySet (refusingStack kThreadError_Failed) 0x81
        SPINEL_PROP_PHY_CHAN [15] (NcpBase.init () 4)).trace =
      [[0x81, SPINEL_CMD_PROP_VALUE_IS, SPINEL_PROP_LAST_STATUS, SPINEL_STATUS_FAILURE]] := by
  decide

/-! ## Property SET: network state -/

theorem HandleCommandPropertySet_NET_STATE (api : StackApi σ) (header : Nat)
    (value : List Nat) (s : NcpBase σ) :
    HandleCommandPropertySet api header SPINEL_PROP_NET_STATE value s =
      if (spinel_datatype_unpack value SPINEL_DATATYPE_UINT_PACKED_S).len > 0 then
        setNetState api header SPINEL_PROP_NET_STATE
          ((spinel_datatype_unpack value SPINEL_DATATYPE_UINT_PACKED_S).uintAt 0 0) s
      else SendLastStatus header SPINEL_STATUS_PARSE_ERROR s := by
  unfold HandleCommandPropertySet
  simp +decide only [if_false, if_true, or_self]

theorem pack_uint8 (cap v : Nat) (hcap : 1 ≤ cap) :
    spinel_datatype_pack cap SPINEL_DATATYPE_UINT8_S [spinel_arg.uint v] = ⟨1, [v % 256]⟩ := by
  simp [spinel_datatype_pack, spinel_datatype_pack_aux, SPINEL_DATATYPE_UINT8_S, hcap]

/-- The attach arm of the `NET_STATE` setter when the device is Detached. -/
theorem setNetState_attach_detached (api : StackApi σ) (header key i : Nat) (s : NcpBase σ)
    (hi : i = SPINEL_NET_STATE_ATTACHING ∨ i = SPINEL_NET_STATE_ATTACHED)
    (hrole : api.otGetDeviceRole s.stack = kDeviceRoleDetached) :
    setNetState api header key i s =
      if (api.otBecomeRouter s.stack).1 = kThreadError_None then
        SendPropteryUpdate header SPINEL_CMD_PROP_VALUE_IS key SPINEL_DATATYPE_UINT8_S
          [spinel_arg.uint SPINEL_NET_STATE_ATTACHING]
          (((s.call StackCall.otGetDeviceRole).call StackCall.otGetDeviceRole).invoke
            StackCall.otBecomeRouter (api.otBecomeRouter s.stack).2)
      else
        SendLastStatus header (ThreadErrorToSpinelStatus (api.otBecomeRouter s.stack).1)
          (((s.call StackCall.otGetDeviceRole).call StackCall.otGetDeviceRole).invoke
            StackCall.otBecomeRouter (api.otBecomeRouter s.stack).2) := by
  have h1 : i ≠ SPINEL_NET_STATE_OFFLINE := by rcases hi with h | h <;> rw [h] <;> decide
  have h2 : i ≠ SPINEL_NET_STATE_DETACHED := by rcases hi with h | h <;> rw [h] <;> decide
  unfold setNetState
  rw [if_neg h1, if_neg h2, if_pos hi]
  simp only [hrole, NcpBase.call, NcpBase.invoke, replyToSet]
  simp +decide only [if_false, if_true]
  split <;> simp_all

/-- C18: role transition. A SET of `NET_STATE` whose payload unpacks to
ATTACHED or ATTACHING, while the device role is Detached, reads the role
(twice) and calls become-router. If that reports no error, exactly one frame
is sent, the `VALUE_IS` reply for `NET_STATE` carrying ATTACHING under the
request header, and nothing else happens: the generic GET path is not run
(the Pending-Get Slot and `mLastStatus` are unchanged, no further accessor is
called). If it reports an error `e`, exactly one frame is sent, the
`LAST_STATUS` reply carrying the status mapped from `e`. -/
theorem HandleCommandPropertySet_NET_STATE_attach (api : StackApi σ) (header : Nat)
    (value : List Nat) (s : NcpBase σ)
    (hparse : (spinel_datatype_unpack value SPINEL_DATATYPE_UINT_PACKED_S).len > 0)
    (hi : (spinel_datatype_unpack value SPINEL_DATATYPE_UINT_PACKED_S).uintAt 0 0 =
        SPINEL_NET_STATE_ATTACHING ∨
      (spinel_datatype_unpack value SPINEL_DATATYPE_UINT_PACKED_S).uintAt 0 0 =
        SPINEL_NET_STATE_ATTACHED)
    (hrole : api.otGetDeviceRole s.stack = kDeviceRoleDetached) :
    ((api.otBecomeRouter s.stack).1 = kThreadError_None →
      HandleCommandPropertySet api header SPINEL_PROP_NET_STATE value s =
        { s with
          stack := (api.otBecomeRouter s.stack).2,
          mSending := true,
          trace := s.trace ++ [Event.Stack StackCall.otGetDeviceRole,
            Event.Stack StackCall.otGetDeviceRole, Event.Stack StackCall.otBecomeRouter,
            Event.Send [header % 256, SPINEL_CMD_PROP_VALUE_IS, SPINEL_PROP_NET_STATE,
              SPINEL_NET_STATE_ATTACHING]] }) ∧
    ((api.otBecomeRouter s.stack).1 ≠ kThreadError_None →
      HandleCommandPropertySet api header SPINEL_PROP_NET_STATE value s =
        { (if SPINEL_HEADER_GET_IID header = 0 then
            { s with
              mLastStatus := ThreadErrorToSpinelStatus (api.otBecomeRouter s.stack).1 }
            else s) with
          stack := (api.otBecomeRouter s.stack).2,
          mSending := true,
          trace := s.trace ++ [Event.Stack StackCall.otGetDeviceRole,
            Event.Stack StackCall.otGetDeviceRole, Event.Stack StackCall.otBecomeRouter,
            Event.Send [header % 256, SPINEL_CMD_PROP_VALUE_IS, SPINEL_PROP_LAST_STATUS,
              ThreadErrorToSpinelStatus (api.otBecomeRouter s.stack).1]] }) := by
  have hset := HandleCommandPropertySet_NET_STATE api header value s
  rw [if_pos hparse, setNetState_attach_detached api header _ _ s hi hrole] at hset
  refine ⟨fun he => ?_, fun he => ?_⟩
  · rw [hset, if_pos he, SendPropteryUpdate_sent header _ _ _ _ _ (by decide) (by decide)
      (by rw [pack_uint8 253 _ (by decide)]; decide)
      (by rw [pack_uint8 253 _ (by decide)]; decide), pack_uint8 253 _ (by decide)]
    simp [NcpBase.call, NcpBase.invoke, SPINEL_NET_STATE_ATTACHING]
  · rw [hset, if_neg he, SendLastStatus_small header _ _ (ThreadErrorToSpinelStatus_small _)]
    by_cases h0 : SPINEL_HEADER_GET_IID header = 0 <;> simp [h0, NcpBase.call, NcpBase.invoke]

theorem HandleCommandPropertySet_NET_STATE_attach_witness :
    HandleCommandPropertySet fixedStack 0x81 SPINEL_PROP_NET_STATE
        [SPINEL_NET_STATE_ATTACHED] (NcpBase.init () 4) =
      { NcpBase.init () 4 with
        stack := (fixedStack.otBecomeRouter (NcpBase.init () 4).stack).2,
        mSending := true,
        trace := (NcpBase.init () 4).trace ++ [Event.Stack StackCall.otGetDeviceRole,
          Event.Stack StackCall.otGetDeviceRole, Event.Stack StackCall.otBecomeRouter,
          Event.Send [0x81 % 256, SPINEL_CMD_PROP_VALUE_IS, SPINEL_PROP_NET_STATE,
            SPINEL_NET_STATE_ATTACHING]] } ∧
    HandleCommandPropertySet (refusingStack kThreadError_Busy) 0x81 SPINEL_PROP_NET_STATE
        [SPINEL_NET_STATE_ATTACHING] (NcpBase.init () 4) =
      { (if SPINEL_HEADER_GET_IID 0x81 = 0 then
          { NcpBase.init () 4 with
            mLastStatus := ThreadErrorToSpinelStatus
              ((refusingStack kThreadError_Busy).otBecomeRouter (NcpBase.init () 4).stack).1 }
          else NcpBase.init () 4) with
        stack := ((refusingStack kThreadError_Busy).otBecomeRouter
          (NcpBase.init () 4).stack).2,
        mSending := true,
        trace := (NcpBase.init () 4).trace ++ [Event.Stack StackCall.otGetDeviceRole,
          Event.Stack StackCall.otGetDeviceRole, Event.Stack StackCall.otBecomeRouter,
          Event.Send [0x81 % 256, SPINEL_CMD_PROP_VALUE_IS, SPINEL_PROP_LAST_STATUS,
            ThreadErrorToSpinelStatus
              ((refusingStack kThreadError_Busy).otBecomeRouter
                (NcpBase.init () 4).stack).1]] } :=
  ⟨(HandleCommandPropertySet_NET_STATE_attach fixedStack 0x81 [SPINEL_NET_STATE_ATTACHED]
      (NcpBase.init () 4) (by decide) (by decide) rfl).1 rfl,
   (HandleCommandPropertySet_NET_STATE_attach (refusingStack kThreadError_Busy) 0x81
      [SPINEL_NET_STATE_ATTACHING] (NcpBase.init () 4) (by decide) (by decide) rfl).2
      (by decide)⟩

/-! ## Property INSERT and REMOVE -/

theorem spinel_packed_uint_decode_aux_consumed (fuel shift : Nat) (data : List Nat)
    (v n : Nat) (h : spinel_packed_uint_decode_aux fuel shift data = some (v, n)) :
    n ≤ data.length := by
  induction fuel generalizing shift data v n with
  | zero => simp [spinel_packed_uint_decode_aux] at h
  | succ k ih =>
    cases data with
    | nil => simp [spinel_packed_uint_decode_aux] at h
    | cons b rest =>
      unfold spinel_packed_uint_decode_aux at h
      split at h
      · simp at h
        simp [← h.2]
      · cases hr : spinel_packed_uint_decode_aux k (shift + 7) rest with
        | none => simp [hr] at h
        | some r =>
          obtain ⟨v2, n2⟩ := r
          simp [hr] at h
          have := ih (shift + 7) rest v2 n2 hr
          simp [← h.2]
          omega

theorem spinel_packed_uint_decode_consumed (data : List Nat) (v n : Nat)
    (h : spinel_packed_uint_decode data = some (v, n)) : n ≤ data.length := by
  unfold spinel_packed_uint_decode at h
  cases hr : spinel_packed_uint_decode_aux 5 0 data with
  | none => simp [hr] at h
  | some r =>
    obtain ⟨v2, n2⟩ := r
    simp [hr] at h
    rw [← h.2]
    exact spinel_packed_uint_decode_aux_consumed 5 0 data v2 n2 hr

/-- A key followed by a payload: once the key decodes, `"iD"` consumes the
whole buffer. -/
theorem unpack_iD_of_key (arg : List Nat) (v n : Nat)
    (h : spinel_packed_uint_decode arg = some (v, n)) :
    spinel_datatype_unpack arg "iD" =
      ⟨arg.length, [spinel_arg.uint v, spinel_arg.bytes (arg.drop n)]⟩ := by
  have hn := spinel_packed_uint_decode_consumed arg v n h
  simp [spinel_datatype_unpack, spinel_datatype_unpack_aux, h, format_ends]
  omega

/-- C19: INSERT and REMOVE are not supported. For every key and payload
`HandleCommandPropertyInsert` and `HandleCommandPropertyRemove` have one
effect, the `LAST_STATUS` reply "unimplemented" under the request header: one
frame added to the log, no stack accessor called (`mLastStatus` records the
status when the header names interface 0). Through `HandleCommand`, every
INSERT or REMOVE frame with an accepted header (flag set, interface 0) whose
key unpacks gets exactly that reply. -/
theorem HandleCommandPropertyInsert_Remove_unimplemented (api : StackApi σ)
    (header key : Nat) (value arg : List Nat) (s : NcpBase σ) :
    HandleCommandPropertyInsert header key value s =
      { (if SPINEL_HEADER_GET_IID header = 0 then
          { s with mLastStatus := SPINEL_STATUS_UNIMPLEMENTED } else s) with
        mSending := true,
        trace := s.trace ++ [Event.Send [header % 256, SPINEL_CMD_PROP_VALUE_IS,
          SPINEL_PROP_LAST_STATUS, SPINEL_STATUS_UNIMPLEMENTED]] } ∧
    HandleCommandPropertyRemove header key value s =
      { (if SPINEL_HEADER_GET_IID header = 0 then
          { s with mLastStatus := SPINEL_STATUS_UNIMPLEMENTED } else s) with
        mSending := true,
        trace := s.trace ++ [Event.Send [header % 256, SPINEL_CMD_PROP_VALUE_IS,
          SPINEL_PROP_LAST_STATUS, SPINEL_STATUS_UNIMPLEMENTED]] } ∧
    (header.testBit 7 = true → SPINEL_HEADER_GET_IID header = 0 →
      spinel_packed_uint_decode arg ≠ none →
      HandleCommand api header SPINEL_CMD_PROP_VALUE_INSERT arg s =
        { s with
          mLastStatus := SPINEL_STATUS_UNIMPLEMENTED,
          mSending := true,
          trace := s.trace ++ [Event.Send [header % 256, SPINEL_CMD_PROP_VALUE_IS,
            SPINEL_PROP_LAST_STATUS, SPINEL_STATUS_UNIMPLEMENTED]] } ∧
      HandleCommand api header SPINEL_CMD_PROP_VALUE_REMOVE arg s =
        { s with
          mLastStatus := SPINEL_STATUS_UNIMPLEMENTED,
          mSending := true,
          trace := s.trace ++ [Event.Send [header % 256, SPINEL_CMD_PROP_VALUE_IS,
            SPINEL_PROP_LAST_STATUS, SPINEL_STATUS_UNIMPLEMENTED]] }) := by
  refine ⟨?_, ?_, fun hflag hiid hkey => ?_⟩
  · unfold HandleCommandPropertyInsert
    rw [SendLastStatus_small header _ s (by decide)]
  · unfold HandleCommandPropertyRemove
    rw [SendLastStatus_small header _ s (by decide)]
  · cases hd : spinel_packed_uint_decode arg with
    | none => exact absurd hd hkey
    | some r =>
      obtain ⟨v, n⟩ := r
      have hu := unpack_iD_of_key arg v n hd
      have hacc := fun c => HandleCommand_accepted api header c arg s hflag hiid
      constructor
      · rw [hacc, hu]
        simp +decide only [if_false, if_true]
        unfold HandleCommandPropertyInsert
        rw [SendLastStatus_iid0 header _ s (by decide) hiid]
      · rw [hacc, hu]
        simp +decide only [if_false, if_true]
        unfold HandleCommandPropertyRemove
        rw [SendLastStatus_iid0 header _ s (by decide) hiid]

theorem HandleCommandPropertyInsert_Remove_unimplemented_witness :
    (0x81 : Nat).testBit 7 = true ∧ SPINEL_HEADER_GET_IID 0x81 = 0 ∧
    spinel_packed_uint_decode [SPINEL_PROP_PHY_CHAN, 15] ≠ none ∧
    HandleCommand fixedStack 0x81 SPINEL_CMD_PROP_VALUE_INSERT [SPINEL_PROP_PHY_CHAN, 15]
        (NcpBase.init () 4) =
      { NcpBase.init () 4 with
        mLastStatus := SPINEL_STATUS_UNIMPLEMENTED,
        mSending := true,
        trace := (NcpBase.init () 4).trace ++ [Event.Send [0x81 % 256,
          SPINEL_CMD_PROP_VALUE_IS, SPINEL_PROP_LAST_STATUS, SPINEL_STATUS_UNIMPLEMENTED]] } ∧
    HandleCommand fixedStack 0x81 SPINEL_CMD_PROP_VALUE_REMOVE [SPINEL_PROP_PHY_CHAN, 15]
        (NcpBase.init () 4) =
      { NcpBase.init () 4 with
        mLastStatus := SPINEL_STATUS_UNIMPLEMENTED,
        mSending := true,
        trace := (NcpBase.init () 4).trace ++ [Event.Send [0x81 % 256,
          SPINEL_CMD_PROP_VALUE_IS, SPINEL_PROP_LAST_STATUS, SPINEL_STATUS_UNIMPLEMENTED]] } :=
  ⟨by decide, by decide, by decide,
    (HandleCommandPropertyInsert_Remove_unimplemented fixedStack 0x81 SPINEL_PROP_PHY_CHAN [15]
      [SPINEL_PROP_PHY_CHAN, 15] (NcpBase.init () 4)).2.2 (by decide) (by decide) (by decide)⟩

/-! ## Property SET: datagrams from the host -/

theorem HandleCommandPropertySet_STREAM_NET (api : StackApi σ) (header : Nat)
    (value : List Nat) (s : NcpBase σ) :
    HandleCommandPropertySet api header SPINEL_PROP_STREAM_NET value s =
      setStreamNet api header value s := by
  unfold HandleCommandPropertySet
  simp +decide only [if_false, if_true, or_self]

/-- C20: SET of `STREAM_NET`. If the message allocation fails, the reply is
the no-memory status and neither `Append` nor the datagram entry point of the
stack is called. If `Append` or `HandleDatagram` fails with `e`, the status
mapped from `e` is sent, whatever the transaction id. If allocation, `Append`
and `HandleDatagram` all succeed, a status-OK reply is sent when the
transaction id (header bits 3–0) is nonzero, and nothing is sent when it is
zero. In every case at most one frame is sent, always a `LAST_STATUS`
reply. -/
theorem HandleCommandPropertySet_STREAM_NET_cases (api : StackApi σ) (header : Nat)
    (value : List Nat) (s : NcpBase σ) :
    (∀ st1, api.NewMessage s.stack = (none, st1) →
      HandleCommandPropertySet api header SPINEL_PROP_STREAM_NET value s =
        { (if SPINEL_HEADER_GET_IID header = 0 then
            { s with mLastStatus := SPINEL_STATUS_NOMEM } else s) with
          stack := st1,
          mSending := true,
          trace := s.trace ++ [Event.Stack StackCall.NewMessage,
            Event.Send [header % 256, SPINEL_CMD_PROP_VALUE_IS, SPINEL_PROP_LAST_STATUS,
              SPINEL_STATUS_NOMEM]] }) ∧
    (∀ m st1 e m2 st2, api.NewMessage s.stack = (some m, st1) →
      api.Append st1 m value = (e, m2, st2) → e ≠ kThreadError_None →
      HandleCommandPropertySet api header SPINEL_PROP_STREAM_NET value s =
        { (if SPINEL_HEADER_GET_IID header = 0 then
            { s with mLastStatus := ThreadErrorToSpinelStatus e } else s) with
          stack := st2,
          mSending := true,
          trace := s.trace ++ [Event.Stack StackCall.NewMessage, Event.Stack StackCall.Append,
            Event.Send [header % 256, SPINEL_CMD_PROP_VALUE_IS, SPINEL_PROP_LAST_STATUS,
              ThreadErrorToSpinelStatus e]] }) ∧
    (∀ m st1 m2 st2 e st3, api.NewMessage s.stack = (some m, st1) →
      api.Append st1 m value = (kThreadError_None, m2, st2) →
      api.HandleDatagram st2 m2 (api.GetInterfaceId st2) = (e, st3) →
      (e ≠ kThreadError_None →
        HandleCommandPropertySet api header SPINEL_PROP_STREAM_NET value s =
          { (if SPINEL_HEADER_GET_IID header = 0 then
              { s with mLastStatus := ThreadErrorToSpinelStatus e } else s) with
            stack := st3,
            mSending := true,
            trace := s.trace ++ [Event.Stack StackCall.NewMessage,
              Event.Stack StackCall.Append, Event.Stack StackCall.GetInterfaceId,
              Event.Stack StackCall.HandleDatagram,
              Event.Send [header % 256, SPINEL_CMD_PROP_VALUE_IS, SPINEL_PROP_LAST_STATUS,
                ThreadErrorToSpinelStatus e]] }) ∧
      (e = kThreadError_None → SPINEL_HEADER_GET_TID header ≠ 0 →
        HandleCommandPropertySet api header SPINEL_PROP_STREAM_NET value s =
          { (if SPINEL_HEADER_GET_IID header = 0 then
              { s with mLastStatus := SPINEL_STATUS_OK } else s) with
            stack := st3,
            mSending := true,
            trace := s.trace ++ [Event.Stack StackCall.NewMessage,
              Event.Stack StackCall.Append, Event.Stack StackCall.GetInterfaceId,
              Event.Stack StackCall.HandleDatagram,
              Event.Send [header % 256, SPINEL_CMD_PROP_VALUE_IS, SPINEL_PROP_LAST_STATUS,
                SPINEL_STATUS_OK]] }) ∧
      (e = kThreadError_None → SPINEL_HEADER_GET_TID header = 0 →
        HandleCommandPropertySet api header SPINEL_PROP_STREAM_NET value s =
          { s with
            stack := st3,
            trace := s.trace ++ [Event.Stack StackCall.NewMessage,
              Event.Stack StackCall.Append, Event.Stack StackCall.GetInterfaceId,
              Event.Stack StackCall.HandleDatagram] })) := by
  rw [HandleCommandPropertySet_STREAM_NET]
  refine ⟨fun st1 hn => ?_, fun m st1 e m2 st2 hn ha he => ?_,
    fun m st1 m2 st2 e st3 hn ha hd => ⟨fun he => ?_, fun he ht => ?_, fun he ht => ?_⟩⟩
  · unfold setStreamNet replyToStreamNet
    simp only [hn]
    rw [if_neg (by decide), SendLastStatus_small header _ _ (ThreadErrorToSpinelStatus_small _)]
    by_cases h0 : SPINEL_HEADER_GET_IID header = 0 <;>
      simp [h0, NcpBase.invoke, ThreadErrorToSpinelStatus]
  · unfold setStreamNet replyToStreamNet
    simp only [hn, ha]
    rw [if_neg he, if_neg he,
      SendLastStatus_small header _ _ (ThreadErrorToSpinelStatus_small _)]
    by_cases h0 : SPINEL_HEADER_GET_IID header = 0 <;> simp [h0, NcpBase.invoke]
  · unfold setStreamNet replyToStreamNet
    simp only [hn, ha, hd, NcpBase.invoke, NcpBase.call, if_true, he, if_false]
    rw [SendLastStatus_small header _ _ (ThreadErrorToSpinelStatus_small _)]
    by_cases h0 : SPINEL_HEADER_GET_IID header = 0 <;> simp [h0]
  · subst he
    unfold setStreamNet replyToStreamNet
    simp only [hn, ha, hd, NcpBase.invoke, NcpBase.call, if_true, ht, ne_eq,
      not_false_eq_true]
    rw [SendLastStatus_small header _ _ (by decide)]
    by_cases h0 : SPINEL_HEADER_GET_IID header = 0 <;> simp [h0]
  · subst he
    unfold setStreamNet replyToStreamNet
    simp only [hn, ha, hd, NcpBase.invoke, NcpBase.call, if_true, ht, ne_eq,
      not_true_eq_false, if_false]
    simp

theorem HandleCommandPropertySet_STREAM_NET_cases_witness :
    (HandleCommandPropertySet exhaustedStack 0x81 SPINEL_PROP_STREAM_NET [7]
        (NcpBase.init () 4)).trace =
      [Event.Stack StackCall.NewMessage,
       Event.Send [0x81, SPINEL_CMD_PROP_VALUE_IS, SPINEL_PROP_LAST_STATUS,
         SPINEL_STATUS_NOMEM]] ∧
    (HandleCommandPropertySet (appendFailingStack kThreadError_Failed) 0x80
        SPINEL_PROP_STREAM_NET [7] (NcpBase.init () 4)).trace =
      [Event.Stack StackCall.NewMessage, Event.Stack StackCall.Append,
       Event.Send [0x80, SPINEL_CMD_PROP_VALUE_IS, SPINEL_PROP_LAST_STATUS,
         SPINEL_STATUS_FAILURE]] ∧
    (HandleCommandPropertySet (refusingStack kThreadError_Drop) 0x80
        SPINEL_PROP_STREAM_NET [7] (NcpBase.init () 4)).trace =
      [Event.Stack StackCall.NewMessage, Event.Stack StackCall.Append,
       Event.Stack StackCall.GetInterfaceId, Event.Stack StackCall.HandleDatagram,
       Event.Send [0x80, SPINEL_CMD_PROP_VALUE_IS, SPINEL_PROP_LAST_STATUS,
         SPINEL_STATUS_DROPPED]] ∧
    (HandleCommandPropertySet fixedStack 0x81 SPINEL_PROP_STREAM_NET [7]
        (NcpBase.init () 4)).trace =
      [Event.Stack StackCall.NewMessage, Event.Stack StackCall.Append,
       Event.Stack StackCall.GetInterfaceId, Event.Stack StackCall.HandleDatagram,
       Event.Send [0x81, SPINEL_CMD_PROP_VALUE_IS, SPINEL_PROP_LAST_STATUS,
         SPINEL_STATUS_OK]] ∧
    (HandleCommandPropertySet fixedStack 0x80 SPINEL_PROP_STREAM_NET [7]
        (NcpBase.init () 4)).trace =
      [Event.Stack StackCall.NewMessage, Event.Stack StackCall.Append,
       Event.Stack StackCall.GetInterfaceId, Event.Stack StackCall.HandleDatagram] :=
  ⟨congrArg NcpBase.trace
      ((HandleCommandPropertySet_STREAM_NET_cases exhaustedStack 0x81 [7]
        (NcpBase.init () 4)).1 () rfl),
   congrArg NcpBase.trace
      ((HandleCommandPropertySet_STREAM_NET_cases (appendFailingStack kThreadError_Failed) 0x80
        [7] (NcpBase.init () 4)).2.1 ⟨0, []⟩ () kThreadError_Failed ⟨0, []⟩ () rfl rfl
        (by decide)),
   congrArg NcpBase.trace
      (((HandleCommandPropertySet_STREAM_NET_cases (refusingStack kThreadError_Drop) 0x80
        [7] (NcpBase.init () 4)).2.2 ⟨0, []⟩ () ⟨0, [7]⟩ () kThreadError_Drop () rfl rfl
        rfl).1 (by decide)),
   congrArg NcpBase.trace
      (((HandleCommandPropertySet_STREAM_NET_cases fixedStack 0x81 [7]
        (NcpBase.init () 4)).2.2 ⟨0, []⟩ () ⟨0, [7]⟩ () kThreadError_None () rfl rfl
        rfl).2.1 rfl (by decide)),
   congrArg NcpBase.trace
      (((HandleCommandPropertySet_STREAM_NET_cases fixedStack 0x80 [7]
        (NcpBase.init () 4)).2.2 ⟨0, []⟩ () ⟨0, [7]⟩ () kThreadError_None () rfl rfl
        rfl).2.2 rfl (by decide))⟩

/-! ## Property SET: the branches of the setters -/

/-- The `IPV6_ML_PREFIX` branch: with a payload that unpacks, the GET path
runs once before the error code of the setter is looked at, and the shared
tail then runs it again or sends the status. -/
theorem HandleCommandPropertySet_IPV6_ML_PREFIX (api : StackApi σ) (header : Nat)
    (value : List Nat) (s : NcpBase σ)
    (hparse : (spinel_datatype_unpack value SPINEL_DATATYPE_IPv6ADDR_S).len > 0) :
    HandleCommandPropertySet api header SPINEL_PROP_IPV6_ML_PREFIX value s =
      replyToSet api header SPINEL_PROP_IPV6_ML_PREFIX
        (api.SetMeshLocalPrefix s.stack
          (((spinel_datatype_unpack value SPINEL_DATATYPE_IPv6ADDR_S).bytesAt 0).getD [])).1
        (HandleCommandPropertyGet api header SPINEL_PROP_IPV6_ML_PREFIX
          (s.invoke StackCall.SetMeshLocalPrefix
            (api.SetMeshLocalPrefix s.stack
              (((spinel_datatype_unpack value SPINEL_DATATYPE_IPv6ADDR_S).bytesAt 0).getD
                [])).2)) := by
  unfold HandleCommandPropertySet
  simp +decide only [if_false, if_true, or_self]
  rw [if_pos hparse]

/-- The `PHY_CHAN` branch: with a payload that unpacks, the setter is called
with the value narrowed to 8 bits and the shared tail runs the GET path once
or sends the status. -/
theorem HandleCommandPropertySet_PHY_CHAN (api : StackApi σ) (header : Nat)
    (value : List Nat) (s : NcpBase σ)
    (hparse : (spinel_datatype_unpack value SPINEL_DATATYPE_UINT_PACKED_S).len > 0) :
    HandleCommandPropertySet api header SPINEL_PROP_PHY_CHAN value s =
      replyToSet api header SPINEL_PROP_PHY_CHAN
        (api.otSetChannel s.stack
          ((spinel_datatype_unpack value SPINEL_DATATYPE_UINT_PACKED_S).uintAt 0 0 % 256)).1
        (s.invoke StackCall.otSetChannel
          (api.otSetChannel s.stack
            ((spinel_datatype_unpack value SPINEL_DATATYPE_UINT_PACKED_S).uintAt 0 0 % 256)).2) := by
  unfold HandleCommandPropertySet
  simp +decide only [if_false, if_true, or_self]
  rw [if_pos hparse]

/-- C21: `ThreadErrorToSpinelStatus` is a total function; it returns OK exactly
for `kThreadError_None`, maps the eight named errors to their own status
codes, and maps every other error value to FAILURE. -/
theorem ThreadErrorToSpinelStatus_table :
    (∀ error, ThreadErrorToSpinelStatus error = SPINEL_STATUS_OK ↔
      error = kThreadError_None) ∧
    ThreadErrorToSpinelStatus kThreadError_Failed = SPINEL_STATUS_FAILURE ∧
    ThreadErrorToSpinelStatus kThreadError_Drop = SPINEL_STATUS_DROPPED ∧
    ThreadErrorToSpinelStatus kThreadError_NoBufs = SPINEL_STATUS_NOMEM ∧
    ThreadErrorToSpinelStatus kThreadError_Busy = SPINEL_STATUS_BUSY ∧
    ThreadErrorToSpinelStatus kThreadError_Parse = SPINEL_STATUS_PARSE_ERROR ∧
    ThreadErrorToSpinelStatus kThreadError_InvalidArgs = SPINEL_STATUS_INVALID_ARGUMENT ∧
    ThreadErrorToSpinelStatus kThreadError_NotImplemented = SPINEL_STATUS_UNIMPLEMENTED ∧
    ThreadErrorToSpinelStatus kThreadError_InvalidState = SPINEL_STATUS_INVALID_STATE ∧
    (∀ code, ThreadErrorToSpinelStatus (kThreadError_Other code) = SPINEL_STATUS_FAILURE) ∧
    (∀ error, ThreadErrorToSpinelStatus error = SPINEL_STATUS_FAILURE ∨
      error ∈ [kThreadError_None, kThreadError_Drop, kThreadError_NoBufs,
        kThreadError_Busy, kThreadError_Parse, kThreadError_InvalidArgs,
        kThreadError_NotImplemented, kThreadError_InvalidState]) := by
  refine ⟨fun error => ?_, rfl, rfl, rfl, rfl, rfl, rfl, rfl, rfl, fun _ => rfl, fun error => ?_⟩
  · cases error <;> simp [ThreadErrorToSpinelStatus] <;> decide
  · cases error <;> simp [ThreadErrorToSpinelStatus]

/-- C25: `RunUpdateAddressesTask` with a send in flight returns the state it
was given: no frame is sent, no stack accessor is invoked, and the pending-GET
slot, the datagram queue and `mLastStatus` are unchanged. -/
theorem RunUpdateAddressesTask_in_flight_noop (api : StackApi σ) (s : NcpBase σ)
    (hs : s.mSending = true) :
    RunUpdateAddressesTask api s = s ∧
    sentFrames (RunUpdateAddressesTask api s).trace = sentFrames s.trace ∧
    stackCalls (RunUpdateAddressesTask api s).trace = stackCalls s.trace ∧
    (RunUpdateAddressesTask api s).mQueuedGetHeader = s.mQueuedGetHeader ∧
    (RunUpdateAddressesTask api s).mQueuedGetKey = s.mQueuedGetKey ∧
    (RunUpdateAddressesTask api s).mSendQueue = s.mSendQueue ∧
    (RunUpdateAddressesTask api s).mLastStatus = s.mLastStatus := by
  rw [RunUpdateAddressesTask_sending api s hs]
  exact ⟨rfl, rfl, rfl, rfl, rfl, rfl, rfl⟩

theorem RunUpdateAddressesTask_in_flight_noop_witness :
    RunUpdateAddressesTask fixedStack (busyEngine [⟨1, [1, 2]⟩] 0 0) =
      busyEngine [⟨1, [1, 2]⟩] 0 0 :=
  (RunUpdateAddressesTask_in_flight_noop fixedStack (busyEngine [⟨1, [1, 2]⟩] 0 0) rfl).1

theorem pack_data (cap : Nat) (b : List Nat) :
    spinel_datatype_pack cap "D" [spinel_arg.bytes b] =
      if b.length ≤ cap then ⟨b.length, b⟩ else ⟨b.length, []⟩ := by
  simp [spinel_datatype_pack, spinel_datatype_pack_aux, format_ends]

/-- C23: in the variadic `SendPropteryUpdate`, when packing the value fails
(negative length) or header length plus value length exceeds the 256-byte
buffer, the state is returned untouched (no Send, `mSending` unchanged); and
whenever the call does change the state, the value was packed, header plus
value fit the buffer, and the one frame sent is the whole header followed by
the whole value. -/
theorem SendPropteryUpdate_overflow_drops (header command key : Nat) (fmt : String)
    (args : List spinel_arg) (s : NcpBase σ) :
    ((spinel_datatype_pack (256 - (spinel_datatype_pack 256 "Cii"
          [spinel_arg.uint header, spinel_arg.uint (command % 256),
           spinel_arg.uint key]).len.toNat) fmt args).len < 0 ∨
      (spinel_datatype_pack 256 "Cii"
          [spinel_arg.uint header, spinel_arg.uint (command % 256),
           spinel_arg.uint key]).len +
        (spinel_datatype_pack (256 - (spinel_datatype_pack 256 "Cii"
          [spinel_arg.uint header, spinel_arg.uint (command % 256),
           spinel_arg.uint key]).len.toNat) fmt args).len > 256 →
      SendPropteryUpdate header command key fmt args s = s) ∧
    (SendPropteryUpdate header command key fmt args s ≠ s →
      0 ≤ (spinel_datatype_pack (256 - (spinel_datatype_pack 256 "Cii"
          [spinel_arg.uint header, spinel_arg.uint (command % 256),
           spinel_arg.uint key]).len.toNat) fmt args).len ∧
      (spinel_datatype_pack 256 "Cii"
          [spinel_arg.uint header, spinel_arg.uint (command % 256),
           spinel_arg.uint key]).len +
        (spinel_datatype_pack (256 - (spinel_datatype_pack 256 "Cii"
          [spinel_arg.uint header, spinel_arg.uint (command % 256),
           spinel_arg.uint key]).len.toNat) fmt args).len ≤ 256 ∧
      SendPropteryUpdate header command key fmt args s =
        { s with
          mSending := true,
          trace := s.trace ++ [Event.Send
            ((spinel_datatype_pack 256 "Cii"
              [spinel_arg.uint header, spinel_arg.uint (command % 256),
               spinel_arg.uint key]).bytes ++
             (spinel_datatype_pack (256 - (spinel_datatype_pack 256 "Cii"
              [spinel_arg.uint header, spinel_arg.uint (command % 256),
               spinel_arg.uint key]).len.toNat) fmt args).bytes)] } ∧
      (((spinel_datatype_pack 256 "Cii"
          [spinel_arg.uint header, spinel_arg.uint (command % 256),
           spinel_arg.uint key]).bytes ++
        (spinel_datatype_pack (256 - (spinel_datatype_pack 256 "Cii"
          [spinel_arg.uint header, spinel_arg.uint (command % 256),
           spinel_arg.uint key]).len.toNat) fmt args).bytes).length : Int) =
        (spinel_datatype_pack 256 "Cii"
          [spinel_arg.uint header, spinel_arg.uint (command % 256),
           spinel_arg.uint key]).len +
        (spinel_datatype_pack (256 - (spinel_datatype_pack 256 "Cii"
          [spinel_arg.uint header, spinel_arg.uint (command % 256),
           spinel_arg.uint key]).len.toNat) fmt args).len) := by
  generalize hh : spinel_datatype_pack 256 "Cii"
    [spinel_arg.uint header, spinel_arg.uint (command % 256), spinel_arg.uint key] = hdr
  have e1 := spinel_datatype_pack_len_eq 256 "Cii"
    [spinel_arg.uint header, spinel_arg.uint (command % 256), spinel_arg.uint key]
  rw [hh] at e1
  have e2 := spinel_datatype_pack_len_eq (256 - hdr.len.toNat) fmt args
  generalize hv : spinel_datatype_pack (256 - hdr.len.toNat) fmt args = value at e2
  have hdef : SendPropteryUpdate header command key fmt args s =
      if hdr.len > 0 then
        if value.len ≥ 0 ∧ hdr.len + value.len ≤ 256 then
          Send (hdr.bytes ++ value.bytes) { s with mSending := true }
        else s
      else s := by
    simp only [SendPropteryUpdate, hh, hv]
  rw [hdef]
  refine ⟨fun h => ?_, fun h => ?_⟩
  · split
    · rw [if_neg (by omega)]
    · rfl
  · by_cases h1 : hdr.len > 0
    · rw [if_pos h1] at h ⊢
      by_cases h2 : value.len ≥ 0 ∧ hdr.len + value.len ≤ 256
      · rw [if_pos h2]
        refine ⟨h2.1, h2.2, by simp [Send], ?_⟩
        rw [List.length_append, Nat.cast_add, ← e1 (by omega) (by omega),
          ← e2 h2.1 (by omega)]
      · rw [if_neg h2] at h
        exact absurd rfl h
    · rw [if_neg h1] at h
      exact absurd rfl h

theorem SendPropteryUpdate_overflow_drops_witness :
    SendPropteryUpdate 0x80 SPINEL_CMD_PROP_VALUE_IS SPINEL_PROP_STREAM_DEBUG "D"
        [spinel_arg.bytes (List.replicate 254 7)] (NcpBase.init () 4) =
      NcpBase.init () 4 :=
  (SendPropteryUpdate_overflow_drops 0x80 SPINEL_CMD_PROP_VALUE_IS SPINEL_PROP_STREAM_DEBUG "D"
    [spinel_arg.bytes (List.replicate 254 7)] (NcpBase.init () 4)).1
    (Or.inr (by
      rw [show SPINEL_CMD_PROP_VALUE_IS % 256 = SPINEL_CMD_PROP_VALUE_IS from rfl,
        pack_header 256 _ _ _ (by decide) (by decide) (by decide)]
      rw [pack_data, List.length_replicate]
      decide))

theorem fixed_octets_length (n : Nat) (b : List Nat) : (fixed_octets n b).length = n := by
  simp [fixed_octets]

theorem pack_beacon (chan panid flags : Nat) (rssi : Int)
    (addr name xpanid : List Nat) (hname : name.length ≤ 217) :
    spinel_datatype_pack 253 "icT(ESSC)T(iCUD.)."
      [spinel_arg.uint chan, spinel_arg.int rssi, spinel_arg.bytes addr,
       spinel_arg.uint 0xFFFF, spinel_arg.uint panid, spinel_arg.uint 0xFF,
       spinel_arg.uint SPINEL_PROTOCOL_TYPE_THREAD, spinel_arg.uint flags, spinel_arg.utf8 name,
       spinel_arg.bytes (fixed_octets 8 xpanid)] =
    ⟨(spinel_packed_uint_encode chan).length + name.length + 31,
      spinel_packed_uint_encode chan ++ [(rssi % 256).toNat] ++ uint16_le 13 ++
        fixed_octets 8 addr ++ uint16_le 0xFFFF ++ uint16_le panid ++ [0xFF] ++
        uint16_le (name.length + 13) ++ [SPINEL_PROTOCOL_TYPE_THREAD, flags % 256] ++
        name ++ [0] ++ uint16_le 8 ++ fixed_octets 8 xpanid⟩ := by
  have h1 := spinel_packed_uint_encode_length chan
  have h3 : spinel_packed_uint_encode 3 = [3] := by decide
  simp only [spinel_datatype_pack]
  simp [spinel_datatype_pack_aux, format_ends, fixed_octets_length, uint16_le, h3,
    SPINEL_PROTOCOL_TYPE_THREAD]
  have e : name.length + 11 + 1 + 1 = name.length + 13 := by omega
  rw [e, if_pos (by omega)]
  simp
  omega

/-- C26: `HandleActiveScanResult` with a send in flight returns the state it
was given; with no send in flight a null result sends exactly one
PROP_VALUE_IS frame for MAC_SCAN_STATE carrying SCAN_STATE_IDLE, and a
non-null result (whose network name is at most 217 octets, which covers every
Thread network name) sends exactly one PROP_VALUE_INSERTED frame for
MAC_SCAN_BEACON, both under the header FLAG|IID_0. -/
theorem HandleActiveScanResult_cases (result : otActiveScanResult) (s : NcpBase σ) :
    (s.mSending = true →
      HandleActiveScanResult (some result) s = s ∧ HandleActiveScanResult none s = s) ∧
    (s.mSending = false →
      HandleActiveScanResult none s =
        { s with
          mSending := true,
          trace := s.trace ++ [Event.Send [SPINEL_HEADER_FLAG ||| SPINEL_HEADER_IID_0,
            SPINEL_CMD_PROP_VALUE_IS, SPINEL_PROP_MAC_SCAN_STATE, SPINEL_SCAN_STATE_IDLE]] }) ∧
    (s.mSending = false → result.mNetworkName.length ≤ 217 →
      HandleActiveScanResult (some result) s =
        { s with
          mSending := true,
          trace := s.trace ++ [Event.Send ([SPINEL_HEADER_FLAG ||| SPINEL_HEADER_IID_0,
            SPINEL_CMD_PROP_VALUE_INSERTED, SPINEL_PROP_MAC_SCAN_BEACON] ++
            (spinel_packed_uint_encode result.mChannel ++ [(result.mRssi % 256).toNat] ++
              uint16_le 13 ++ fixed_octets 8 result.mExtAddress ++ uint16_le 0xFFFF ++
              uint16_le result.mPanId ++ [0xFF] ++
              uint16_le (result.mNetworkName.length + 13) ++
              [SPINEL_PROTOCOL_TYPE_THREAD,
                ((result.mVersion <<< SPINEL_BEACON_THREAD_FLAG_VERSION_SHIFT) |||
                  (if result.mIsJoinable then SPINEL_BEACON_THREAD_FLAG_JOINABLE else 0) |||
                  (if result.mIsNative then SPINEL_BEACON_THREAD_FLAG_NATIVE else 0)) % 256] ++
              result.mNetworkName ++ [0] ++ uint16_le 8 ++
              fixed_octets 8 result.mExtPanId))] }) := by
  refine ⟨fun hs => ⟨HandleActiveScanResult_sending _ s hs,
    HandleActiveScanResult_sending _ s hs⟩, fun hs => ?_, fun hs hname => ?_⟩
  · simp only [HandleActiveScanResult, hs, if_true]
    rw [SendPropteryUpdate_sent _ _ _ _ _ _ (by decide) (by decide)
      (by rw [pack_uint8 253 _ (by decide)]; decide)
      (by rw [pack_uint8 253 _ (by decide)]; decide), pack_uint8 253 _ (by decide)]
    rfl
  · have hp := pack_beacon result.mChannel result.mPanId
      (((result.mVersion <<< SPINEL_BEACON_THREAD_FLAG_VERSION_SHIFT) |||
        (if result.mIsJoinable then SPINEL_BEACON_THREAD_FLAG_JOINABLE else 0) |||
        (if result.mIsNative then SPINEL_BEACON_THREAD_FLAG_NATIVE else 0)) % 256)
      result.mRssi result.mExtAddress result.mNetworkName result.mExtPanId hname
    have h1 := spinel_packed_uint_encode_length result.mChannel
    simp only [HandleActiveScanResult, hs, if_true, sizeof_spinel_net_xpanid_t]
    rw [SendPropteryUpdate_sent _ _ _ _ _ _ (by decide) (by decide)
      (by rw [hp]; simp only; omega) (by rw [hp]; simp only; omega), hp]
    simp
    decide

theorem HandleActiveScanResult_cases_witness :
    HandleActiveScanResult none (NcpBase.init () 4) =
      { NcpBase.init () 4 with
        mSending := true,
        trace := [Event.Send [0x80, 6, 48, 0]] } ∧
    sentFrames (HandleActiveScanResult
      (some ⟨[79, 84], [1, 2, 3, 4, 5, 6, 7, 8], [8, 7, 6, 5, 4, 3, 2, 1], 0x1234, 15, -60,
        2, true, false⟩) (NcpBase.init () 4)).trace =
      [[0x80, 7, 51, 15, 196, 13, 0, 8, 7, 6, 5, 4, 3, 2, 1, 255, 255, 0x34, 0x12, 255,
        15, 0, 3, 33, 79, 84, 0, 8, 0, 1, 2, 3, 4, 5, 6, 7, 8]] :=
  ⟨(HandleActiveScanResult_cases
      ⟨[79, 84], [1, 2, 3, 4, 5, 6, 7, 8], [8, 7, 6, 5, 4, 3, 2, 1], 0x1234, 15, -60,
        2, true, false⟩ (NcpBase.init () 4)).2.1 rfl,
    by
      rw [(HandleActiveScanResult_cases
        ⟨[79, 84], [1, 2, 3, 4, 5, 6, 7, 8], [8, 7, 6, 5, 4, 3, 2, 1], 0x1234, 15, -60,
          2, true, false⟩ (NcpBase.init () 4)).2.2 rfl (by decide)]
      decide⟩

theorem SendPropteryUpdate_mLastStatus (header command key : Nat) (fmt : String)
    (args : List spinel_arg) (s : NcpBase σ) :
    (SendPropteryUpdate header command key fmt args s).mLastStatus = s.mLastStatus := by
  unfold SendPropteryUpdate
  simp only
  split
  · split
    · simp [Send]
    · rfl
  · rfl

theorem HandleCommandPropertyGet_switch_LAST_STATUS (api : StackApi σ) (header : Nat)
    (s : NcpBase σ) :
    HandleCommandPropertyGet_switch api header SPINEL_PROP_LAST_STATUS s =
      SendPropteryUpdate header SPINEL_CMD_PROP_VALUE_IS SPINEL_PROP_LAST_STATUS
        SPINEL_DATATYPE_UINT_PACKED_S [spinel_arg.uint s.mLastStatus] s := by
  unfold HandleCommandPropertyGet_switch
  simp +decide only [if_false, if_true]

theorem HandleCommand_GET (api : StackApi σ) (header key : Nat) (s : NcpBase σ)
    (hflag : header.testBit 7 = true) (hiid : SPINEL_HEADER_GET_IID header = 0)
    (hk : key < 128) :
    HandleCommand api header SPINEL_CMD_PROP_VALUE_GET [key] s =
      HandleCommandPropertyGet api header key s := by
  rw [HandleCommand_accepted api header _ _ s hflag hiid]
  have hu := unpack_one_key key hk
  simp +decide only [if_false, if_true, hu, spinel_unpacked.uintAt]
  rfl

/-- C22 (as stated, refuted): on the idle engine an unknown command (status
"invalid command") is followed, after its completion, by a successful GET of
PHY_CHAN answered with a VALUE_IS reply; the GET of LAST_STATUS that comes
next still reports "invalid command", not OK, and `mLastStatus` is still the
earlier failure. -/
theorem mLastStatus_not_overwritten_by_value_reply :
    sentFrames (run fixedStack (NcpBase.init () 4)
        [Notification.Receive [0x81, 9], Notification.SendDone,
         Notification.Receive [0x82, SPINEL_CMD_PROP_VALUE_GET, SPINEL_PROP_PHY_CHAN],
         Notification.SendDone,
         Notification.Receive [0x83, SPINEL_CMD_PROP_VALUE_GET, SPINEL_PROP_LAST_STATUS]]).trace =
      [[0x81, SPINEL_CMD_PROP_VALUE_IS, SPINEL_PROP_LAST_STATUS, SPINEL_STATUS_INVALID_COMMAND],
       [0x82, SPINEL_CMD_PROP_VALUE_IS, SPINEL_PROP_PHY_CHAN, 15],
       [0x83, SPINEL_CMD_PROP_VALUE_IS, SPINEL_PROP_LAST_STATUS,
        SPINEL_STATUS_INVALID_COMMAND]] ∧
    (run fixedStack (NcpBase.init () 4)
        [Notification.Receive [0x81, 9], Notification.SendDone,
         Notification.Receive [0x82, SPINEL_CMD_PROP_VALUE_GET, SPINEL_PROP_PHY_CHAN],
         Notification.SendDone]).mLastStatus ≠ SPINEL_STATUS_OK := by
  decide

/-- C22 (amended): `mLastStatus` is overwritten by status replies only. A
status reply under a header that names interface 0 leaves `mLastStatus` equal
to the status sent; a property update sent by `SendPropteryUpdate` leaves it
as it was. Hence, on an accepted header, a GET of PHY_CHAN (answered with a
VALUE_IS reply, or deferred) does not change `mLastStatus`, a SET of PHY_CHAN
that the stack accepts and that is answered with a VALUE_IS reply does not
change it either, and a GET of LAST_STATUS with no send in flight reports the
status recorded by the last status reply. -/
theorem mLastStatus_overwritten_by_status_replies (api : StackApi σ) (header : Nat)
    (s : NcpBase σ) (hflag : header.testBit 7 = true)
    (hiid : SPINEL_HEADER_GET_IID header = 0) :
    (∀ status, (SendLastStatus header status s).mLastStatus = status) ∧
    (∀ command key fmt args,
      (SendPropteryUpdate header command key fmt args s).mLastStatus = s.mLastStatus) ∧
    (HandleCommand api header SPINEL_CMD_PROP_VALUE_GET [SPINEL_PROP_PHY_CHAN] s).mLastStatus =
      s.mLastStatus ∧
    (s.mSending = false →
      HandleCommand api header SPINEL_CMD_PROP_VALUE_GET [SPINEL_PROP_PHY_CHAN] s =
        { s with
          mSending := true,
          trace := s.trace ++ [Event.Stack StackCall.otGetChannel,
            Event.Send ([header % 256, SPINEL_CMD_PROP_VALUE_IS, SPINEL_PROP_PHY_CHAN] ++
              spinel_packed_uint_encode (api.otGetChannel s.stack))] }) ∧
    (∀ value, s.mSending = false →
      (spinel_datatype_unpack value SPINEL_DATATYPE_UINT_PACKED_S).len > 0 →
      (api.otSetChannel s.stack
        ((spinel_datatype_unpack value SPINEL_DATATYPE_UINT_PACKED_S).uintAt 0 0 % 256)).1 =
        kThreadError_None →
      (HandleCommandPropertySet api header SPINEL_PROP_PHY_CHAN value s).mLastStatus =
        s.mLastStatus) ∧
    (s.mSending = false →
      HandleCommand api header SPINEL_CMD_PROP_VALUE_GET [SPINEL_PROP_LAST_STATUS] s =
        { s with
          mSending := true,
          trace := s.trace ++ [Event.Send ([header % 256, SPINEL_CMD_PROP_VALUE_IS,
            SPINEL_PROP_LAST_STATUS] ++ spinel_packed_uint_encode s.mLastStatus)] }) := by
  have hfmt : SPINEL_DATATYPE_UINT_PACKED_S = "i" := rfl
  have hget : ∀ t : NcpBase σ,
      (HandleCommandPropertyGet api header SPINEL_PROP_PHY_CHAN t).mLastStatus =
        t.mLastStatus := by
    intro t
    unfold HandleCommandPropertyGet
    split
    · split <;> rfl
    · rw [HandleCommandPropertyGet_switch_PHY_CHAN, SendPropteryUpdate_mLastStatus]
      rfl
  refine ⟨fun status => ?_, fun command key fmt args => SendPropteryUpdate_mLastStatus _ _ _ _ _ _,
    ?_, fun hs => ?_, fun value hs hparse hset => ?_, fun hs => ?_⟩
  · unfold SendLastStatus
    rw [SendPropteryUpdate_mLastStatus, if_pos hiid]
  · rw [HandleCommand_GET api header _ s hflag hiid (by decide)]
    exact hget s
  · have hv := pack_packed_uint 253 (api.otGetChannel s.stack) (by decide)
    rw [HandleCommand_GET api header _ s hflag hiid (by decide),
      HandleCommandPropertyGet_idle api header _ s hs,
      HandleCommandPropertyGet_switch_PHY_CHAN, hfmt,
      SendPropteryUpdate_sent header _ _ "i" _ _ (by decide) (by decide)
        (by rw [hv]; simp)
        (by rw [hv]; have := spinel_packed_uint_encode_length (api.otGetChannel s.stack)
            simp only; omega), hv]
    simp [NcpBase.call]
  · rw [HandleCommandPropertySet_PHY_CHAN api header value s hparse, hset]
    unfold replyToSet
    rw [if_pos rfl, hget]
    rfl
  · have hv := pack_packed_uint 253 s.mLastStatus (by decide)
    rw [HandleCommand_GET api header _ s hflag hiid (by decide),
      HandleCommandPropertyGet_idle api header _ s hs,
      HandleCommandPropertyGet_switch_LAST_STATUS, hfmt,
      SendPropteryUpdate_sent header _ _ "i" _ _ (by decide) (by decide)
        (by rw [hv]; simp)
        (by rw [hv]; have := spinel_packed_uint_encode_length s.mLastStatus
            simp only; omega), hv]

theorem mLastStatus_overwritten_by_status_replies_witness :
    (HandleCommand fixedStack 0x82 SPINEL_CMD_PROP_VALUE_GET [SPINEL_PROP_PHY_CHAN]
      { NcpBase.init () 4 with mLastStatus := SPINEL_STATUS_INVALID_COMMAND }).mLastStatus =
      SPINEL_STATUS_INVALID_COMMAND :=
  (mLastStatus_overwritten_by_status_replies fixedStack 0x82
    { NcpBase.init () 4 with mLastStatus := SPINEL_STATUS_INVALID_COMMAND }
    (by decide) (by decide)).2.2.1

theorem packedNetifAddress_length (address : otNetifAddress) :
    (packedNetifAddress address).length = 27 := by
  simp [packedNetifAddress, uint16_le, uint32_le, fixed_octets]

theorem pack_address (cap : Nat) (address : otNetifAddress) :
    spinel_datatype_pack cap "T(6CLL)."
      [spinel_arg.bytes address.mAddress, spinel_arg.uint address.mPrefixLength,
       spinel_arg.uint address.mPreferredLifetime, spinel_arg.uint address.mValidLifetime] =
      if 27 ≤ cap then ⟨27, packedNetifAddress address⟩ else ⟨27, []⟩ := by
  simp only [spinel_datatype_pack]
  simp [spinel_datatype_pack_aux, format_ends, packedNetifAddress, uint16_le, uint32_le,
    fixed_octets]

/-- The loop of the address-list getter appends whole entries while 27 more
octets fit, and stops at the first entry that does not fit. -/
theorem addressListLoop_take (addresses : List otNetifAddress) (header_len : Nat)
    (buf : List Nat) (hlen : header_len ≤ 256) :
    addressListLoop addresses header_len buf =
      some (header_len + 27 * min addresses.length ((256 - header_len) / 27),
        buf ++ ((addresses.take ((256 - header_len) / 27)).map packedNetifAddress).flatten) := by
  induction addresses generalizing header_len buf with
  | nil => simp [addressListLoop]
  | cons address next ih =>
    unfold addressListLoop
    simp only [pack_address]
    by_cases hfit : 27 ≤ 256 - header_len
    · rw [if_pos hfit]
      simp only
      rw [if_neg (by decide), if_neg (by omega)]
      rw [ih _ _ (by simp; omega)]
      have e : (256 - header_len) / 27 = (256 - (header_len + (27 : Int).toNat)) / 27 + 1 := by
        simp; omega
      rw [e]
      simp [List.take_succ_cons]
      omega
    · rw [if_neg hfit]
      simp only
      rw [if_neg (by decide), if_pos (by omega)]
      have e : (256 - header_len) / 27 = 0 := by omega
      simp [e]

theorem packedNetifAddress_flatten_length (addresses : List otNetifAddress) :
    ((addresses.map packedNetifAddress).flatten).length = 27 * addresses.length := by
  induction addresses with
  | nil => rfl
  | cons address next ih =>
    simp [packedNetifAddress_length, ih]
    omega

theorem HandleCommandPropertyGetAddressList_sent (api : StackApi σ) (header : Nat)
    (s : NcpBase σ) :
    HandleCommandPropertyGetAddressList api header s =
      { s with
        mSending := true,
        trace := s.trace ++ [Event.Stack StackCall.otGetUnicastAddresses,
          Event.Send ([header % 256, SPINEL_CMD_PROP_VALUE_IS, SPINEL_PROP_IPV6_ADDRESS_TABLE] ++
            (((api.otGetUnicastAddresses s.stack).take 9).map packedNetifAddress).flatten)] } := by
  have hp := pack_header 256 header SPINEL_CMD_PROP_VALUE_IS SPINEL_PROP_IPV6_ADDRESS_TABLE
    (by decide) (by decide) (by decide)
  unfold HandleCommandPropertyGetAddressList
  rw [hp]
  simp only [show ((3 : Int).toNat) = 3 from rfl]
  rw [if_pos (by decide), addressListLoop_take _ 3 _ (by decide)]
  simp [Send, NcpBase.call]

/-- C24 (as stated, refuted): with ten unicast addresses on the interface the
GET of the address table on the idle engine does transmit an address-table
frame: 246 octets that begin with the header of the reply, that is the header
and the nine entries that fit, the tenth being left out. -/
theorem HandleCommandPropertyGetAddressList_sends_truncated :
    (sentFrames (HandleCommandPropertyGetAddressList (crowdedStack 10) 0x81
        (NcpBase.init () 4)).trace).map (fun frame => (frame.take 3, frame.length)) =
      [([0x81, SPINEL_CMD_PROP_VALUE_IS, SPINEL_PROP_IPV6_ADDRESS_TABLE], 246)] ∧
    sentFrames (HandleCommandPropertyGetAddressList (crowdedStack 10) 0x81
        (NcpBase.init () 4)).trace =
      sentFrames (HandleCommandPropertyGetAddressList (crowdedStack 9) 0x81
        (NcpBase.init () 4)).trace := by
  have h10 : ((crowdedStack 10).otGetUnicastAddresses ()).take 9 =
      (crowdedStack 9).otGetUnicastAddresses () := by decide
  have h9 : ((crowdedStack 9).otGetUnicastAddresses ()).take 9 =
      (crowdedStack 9).otGetUnicastAddresses () := by decide
  have hl : ((crowdedStack 9).otGetUnicastAddresses ()).length = 9 := by decide
  rw [HandleCommandPropertyGetAddressList_sent, HandleCommandPropertyGetAddressList_sent]
  simp only [NcpBase.init, h10, h9]
  refine ⟨?_, trivial⟩
  simp only [List.nil_append, sentFrames, List.map_cons, List.map_nil, List.length_append,
    packedNetifAddress_flatten_length, hl]
  rfl

/-- C24 (amended): `HandleCommandPropertyGetAddressList` always transmits
exactly one address-table frame. The frame is the three-octet reply header
followed by the leading entries of the address list that fit whole into the
256-octet buffer, at most nine of them; it is never longer than the buffer.
When the list has more than nine entries the frame carries the first nine
(246 octets) and the rest of the list is left out; no partial entry is
sent. -/
theorem HandleCommandPropertyGetAddressList_leading_entries (api : StackApi σ)
    (header : Nat) (s : NcpBase σ) :
    HandleCommandPropertyGetAddressList api header s =
      { s with
        mSending := true,
        trace := s.trace ++ [Event.Stack StackCall.otGetUnicastAddresses,
          Event.Send ([header % 256, SPINEL_CMD_PROP_VALUE_IS, SPINEL_PROP_IPV6_ADDRESS_TABLE] ++
            (((api.otGetUnicastAddresses s.stack).take 9).map packedNetifAddress).flatten)] } ∧
    ([header % 256, SPINEL_CMD_PROP_VALUE_IS, SPINEL_PROP_IPV6_ADDRESS_TABLE] ++
      (((api.otGetUnicastAddresses s.stack).take 9).map packedNetifAddress).flatten).length =
      3 + 27 * min 9 (api.otGetUnicastAddresses s.stack).length ∧
    ((api.otGetUnicastAddresses s.stack).length ≤ 9 →
      (api.otGetUnicastAddresses s.stack).take 9 = api.otGetUnicastAddresses s.stack) ∧
    (9 < (api.otGetUnicastAddresses s.stack).length →
      ([header % 256, SPINEL_CMD_PROP_VALUE_IS, SPINEL_PROP_IPV6_ADDRESS_TABLE] ++
        (((api.otGetUnicastAddresses s.stack).take 9).map packedNetifAddress).flatten).length =
        246 ∧
      (api.otGetUnicastAddresses s.stack).take 9 ≠ api.otGetUnicastAddresses s.stack) := by
  refine ⟨HandleCommandPropertyGetAddressList_sent api header s, ?_, fun h => ?_, fun h => ⟨?_, ?_⟩⟩
  · rw [List.length_append, packedNetifAddress_flatten_length, List.length_take]
    rfl
  · exact List.take_of_length_le h
  · rw [List.length_append, packedNetifAddress_flatten_length, List.length_take,
      Nat.min_eq_left (by omega)]
    rfl
  · intro he
    have := congrArg List.length he
    rw [List.length_take] at this
    omega

theorem HandleCommandPropertyGetAddressList_leading_entries_witness :
    9 < ((crowdedStack 10).otGetUnicastAddresses (NcpBase.init () 4).stack).length ∧
    ([0x81 % 256, SPINEL_CMD_PROP_VALUE_IS, SPINEL_PROP_IPV6_ADDRESS_TABLE] ++
      ((((crowdedStack 10).otGetUnicastAddresses (NcpBase.init () 4).stack).take 9).map
        packedNetifAddress).flatten).length = 246 :=
  ⟨by decide,
    ((HandleCommandPropertyGetAddressList_leading_entries (crowdedStack 10) 0x81
      (NcpBase.init () 4)).2.2.2 (by decide)).1⟩

/-- C27 (the code at the failing input): starting idle, two NOOP frames are
answered back to back (the second reply is sent while the first is in flight),
the first completion arrives and clears `mSending`, and a datagram `m` is then
sent at once and recorded in `mSendMessage`: it is the third frame handed to
the driver, and one completion has been signalled. The second completion,
which belongs to the second status reply, frees `m` and clears `mSendMessage`
although the frame that carries `m` has not completed; its own completion,
the third, finds nothing to free. -/
theorem SendDoneTask_frees_message_in_flight :
    sentMessages (signals fixedStack (NcpBase.init () 4)
        [NcpSignal.Frame [0x81, SPINEL_CMD_NOOP], NcpSignal.Frame [0x82, SPINEL_CMD_NOOP],
         NcpSignal.SendDone, NcpSignal.Datagram ⟨1, [7]⟩]).trace =
      [none, none, some ⟨1, [7]⟩] ∧
    (signals fixedStack (NcpBase.init () 4)
        [NcpSignal.Frame [0x81, SPINEL_CMD_NOOP], NcpSignal.Frame [0x82, SPINEL_CMD_NOOP],
         NcpSignal.SendDone, NcpSignal.Datagram ⟨1, [7]⟩]).mSendMessage = some ⟨1, [7]⟩ ∧
    freedMessages (signals fixedStack (NcpBase.init () 4)
        [NcpSignal.Frame [0x81, SPINEL_CMD_NOOP], NcpSignal.Frame [0x82, SPINEL_CMD_NOOP],
         NcpSignal.SendDone, NcpSignal.Datagram ⟨1, [7]⟩]).trace = [] ∧
    freedMessages (signals fixedStack (NcpBase.init () 4)
        [NcpSignal.Frame [0x81, SPINEL_CMD_NOOP], NcpSignal.Frame [0x82, SPINEL_CMD_NOOP],
         NcpSignal.SendDone, NcpSignal.Datagram ⟨1, [7]⟩, NcpSignal.SendDone]).trace =
      [⟨1, [7]⟩] ∧
    (signals fixedStack (NcpBase.init () 4)
        [NcpSignal.Frame [0x81, SPINEL_CMD_NOOP], NcpSignal.Frame [0x82, SPINEL_CMD_NOOP],
         NcpSignal.SendDone, NcpSignal.Datagram ⟨1, [7]⟩, NcpSignal.SendDone]).mSendMessage =
      none ∧
    sentMessages (signals fixedStack (NcpBase.init () 4)
        [NcpSignal.Frame [0x81, SPINEL_CMD_NOOP], NcpSignal.Frame [0x82, SPINEL_CMD_NOOP],
         NcpSignal.SendDone, NcpSignal.Datagram ⟨1, [7]⟩, NcpSignal.SendDone]).trace =
      [none, none, some ⟨1, [7]⟩] ∧
    (signals fixedStack (NcpBase.init () 4)
        [NcpSignal.Frame [0x81, SPINEL_CMD_NOOP], NcpSignal.Frame [0x82, SPINEL_CMD_NOOP],
         NcpSignal.SendDone, NcpSignal.Datagram ⟨1, [7]⟩, NcpSignal.SendDone,
         NcpSignal.SendDone]).trace =
      (signals fixedStack (NcpBase.init () 4)
        [NcpSignal.Frame [0x81, SPINEL_CMD_NOOP], NcpSignal.Frame [0x82, SPINEL_CMD_NOOP],
         NcpSignal.SendDone, NcpSignal.Datagram ⟨1, [7]⟩, NcpSignal.SendDone]).trace := by
  decide

theorem spinel_packed_uint_decode_aux_encode (n : Nat) :
    ∀ (v shift : Nat) (rest : List Nat), v < 128 ^ (n + 1) →
      spinel_packed_uint_decode_aux (n + 1) shift
          (spinel_packed_uint_encode_aux (n + 1) v ++ rest) =
        some (v * 2 ^ shift, (spinel_packed_uint_encode_aux (n + 1) v).length) := by
  induction n with
  | zero =>
    intro v shift rest h
    have hv : v < 128 := by simpa using h
    have h1 : v % 256 < 128 := by omega
    have h2 : v % 128 = v := Nat.mod_eq_of_lt hv
    simp [spinel_packed_uint_encode_aux, spinel_packed_uint_decode_aux, hv, h1, h2]
  | succ n ih =>
    intro v shift rest h
    rw [spinel_packed_uint_encode_aux]
    by_cases hv : v < 128
    · rw [if_pos hv]
      have h1 : v % 256 < 128 := by omega
      have h2 : v % 128 = v := Nat.mod_eq_of_lt hv
      simp [spinel_packed_uint_decode_aux, h1, h2]
    · rw [if_neg hv]
      have h1 : ¬ (v % 128 + 128) % 256 < 128 := by omega
      have h2 : (v % 128 + 128) % 128 = v % 128 := by omega
      have h3 : v / 128 < 128 ^ (n + 1) := by
        rw [Nat.div_lt_iff_lt_mul (by decide)]
        rw [pow_succ] at h
        exact h
      rw [List.cons_append, spinel_packed_uint_decode_aux, if_neg h1, ih _ _ _ h3, h2]
      simp only [List.length_cons, Option.some.injEq, Prod.mk.injEq, and_true]
      rw [pow_add]
      have := Nat.div_add_mod v 128
      calc v % 128 * 2 ^ shift + v / 128 * (2 ^ shift * 2 ^ 7)
          = (128 * (v / 128) + v % 128) * 2 ^ shift := by ring
        _ = v * 2 ^ shift := by rw [this]

theorem spinel_packed_uint_decode_encode (v : Nat) (rest : List Nat) (hv : v < 2 ^ 32) :
    spinel_packed_uint_decode (spinel_packed_uint_encode v ++ rest) =
      some (v, (spinel_packed_uint_encode v).length) := by
  have hm : v % 2 ^ 32 = v := Nat.mod_eq_of_lt hv
  have h := spinel_packed_uint_decode_aux_encode 4 v 0 rest (by
    calc v < 2 ^ 32 := hv
      _ ≤ 128 ^ (4 + 1) := by decide)
  unfold spinel_packed_uint_decode spinel_packed_uint_encode
  rw [hm, h]
  simp only [pow_zero, mul_one, hm]

theorem le_value_uint16_le (v : Nat) (hv : v < 65536) : le_value (uint16_le v) = v := by
  simp [le_value, uint16_le]
  omega

theorem le_value_uint32_le (v : Nat) (hv : v < 2 ^ 32) : le_value (uint32_le v) = v := by
  have hv2 : v < 4294967296 := by simpa using hv
  simp [le_value, uint32_le]
  omega

theorem fixed_octets_of_length {n : Nat} {b : List Nat} (h : b.length = n) :
    fixed_octets n b = b := by
  subst h
  simp [fixed_octets]

theorem pack_fits (cap : Nat) (fmt : String) (args : List spinel_arg) (out : List Nat)
    (hp : spinel_datatype_pack_aux fmt.toList args [] [] = some out)
    (hle : (spinel_datatype_pack cap fmt args).len ≤ cap) :
    spinel_datatype_pack cap fmt args = ⟨out.length, out⟩ := by
  unfold spinel_datatype_pack at hle ⊢
  rw [hp] at hle ⊢
  by_cases h : out.length ≤ cap
  · simp [h]
  · simp [h] at hle

theorem round_trip_C (cap v : Nat) (hv : v < 256)
    (hle : (spinel_datatype_pack cap "C" [spinel_arg.uint v]).len ≤ cap) :
    spinel_datatype_unpack (spinel_datatype_pack cap "C" [spinel_arg.uint v]).bytes "C" =
      ⟨(spinel_datatype_pack cap "C" [spinel_arg.uint v]).len, [spinel_arg.uint v]⟩ := by
  have hm : v % 256 = v := Nat.mod_eq_of_lt hv
  rw [pack_fits cap _ _ [v] (by simp [spinel_datatype_pack_aux, hm]) hle]
  simp [spinel_datatype_unpack, spinel_datatype_unpack_aux, hm]

theorem round_trip_S (cap v : Nat) (hv : v < 65536)
    (hle : (spinel_datatype_pack cap "S" [spinel_arg.uint v]).len ≤ cap) :
    spinel_datatype_unpack (spinel_datatype_pack cap "S" [spinel_arg.uint v]).bytes "S" =
      ⟨(spinel_datatype_pack cap "S" [spinel_arg.uint v]).len, [spinel_arg.uint v]⟩ := by
  rw [pack_fits cap _ _ (uint16_le v) (by simp [spinel_datatype_pack_aux]) hle]
  have h := le_value_uint16_le v hv
  have hl : (uint16_le v).length = 2 := rfl
  have ht : (uint16_le v).take 2 = uint16_le v := rfl
  simp [spinel_datatype_unpack, spinel_datatype_unpack_aux, hl, ht, h]

theorem round_trip_L (cap v : Nat) (hv : v < 2 ^ 32)
    (hle : (spinel_datatype_pack cap "L" [spinel_arg.uint v]).len ≤ cap) :
    spinel_datatype_unpack (spinel_datatype_pack cap "L" [spinel_arg.uint v]).bytes "L" =
      ⟨(spinel_datatype_pack cap "L" [spinel_arg.uint v]).len, [spinel_arg.uint v]⟩ := by
  rw [pack_fits cap _ _ (uint32_le v) (by simp [spinel_datatype_pack_aux]) hle]
  have h := le_value_uint32_le v hv
  have hl : (uint32_le v).length = 4 := rfl
  have ht : (uint32_le v).take 4 = uint32_le v := rfl
  simp [spinel_datatype_unpack, spinel_datatype_unpack_aux, hl, ht, h]

theorem round_trip_i (cap v : Nat) (hv : v < 2 ^ 32)
    (hle : (spinel_datatype_pack cap "i" [spinel_arg.uint v]).len ≤ cap) :
    spinel_datatype_unpack (spinel_datatype_pack cap "i" [spinel_arg.uint v]).bytes "i" =
      ⟨(spinel_datatype_pack cap "i" [spinel_arg.uint v]).len, [spinel_arg.uint v]⟩ := by
  rw [pack_fits cap _ _ (spinel_packed_uint_encode v) (by simp [spinel_datatype_pack_aux]) hle]
  have h := spinel_packed_uint_decode_encode v [] hv
  rw [List.append_nil] at h
  simp [spinel_datatype_unpack, spinel_datatype_unpack_aux, h]

theorem round_trip_Cii (cap a b c : Nat) (ha : a < 256) (hb : b < 2 ^ 32) (hc : c < 2 ^ 32)
    (hle : (spinel_datatype_pack cap "Cii"
      [spinel_arg.uint a, spinel_arg.uint b, spinel_arg.uint c]).len ≤ cap) :
    spinel_datatype_unpack (spinel_datatype_pack cap "Cii"
        [spinel_arg.uint a, spinel_arg.uint b, spinel_arg.uint c]).bytes "Cii" =
      ⟨(spinel_datatype_pack cap "Cii"
        [spinel_arg.uint a, spinel_arg.uint b, spinel_arg.uint c]).len,
        [spinel_arg.uint a, spinel_arg.uint b, spinel_arg.uint c]⟩ := by
  have hm : a % 256 = a := Nat.mod_eq_of_lt ha
  rw [pack_fits cap _ _ ([a] ++ spinel_packed_uint_encode b ++ spinel_packed_uint_encode c)
    (by simp [spinel_datatype_pack_aux, hm]) hle]
  have h1 := spinel_packed_uint_decode_encode b (spinel_packed_uint_encode c) hb
  have h2 := spinel_packed_uint_decode_encode c [] hc
  rw [List.append_nil] at h2
  simp [spinel_datatype_unpack, spinel_datatype_unpack_aux, h1, h2, hm]
  omega

theorem round_trip_iD (cap v : Nat) (b : List Nat) (hv : v < 2 ^ 32)
    (hle : (spinel_datatype_pack cap "iD" [spinel_arg.uint v, spinel_arg.bytes b]).len ≤ cap) :
    spinel_datatype_unpack (spinel_datatype_pack cap "iD"
        [spinel_arg.uint v, spinel_arg.bytes b]).bytes "iD" =
      ⟨(spinel_datatype_pack cap "iD" [spinel_arg.uint v, spinel_arg.bytes b]).len,
        [spinel_arg.uint v, spinel_arg.bytes b]⟩ := by
  rw [pack_fits cap _ _ (spinel_packed_uint_encode v ++ b)
    (by simp [spinel_datatype_pack_aux, format_ends]) hle]
  have h1 := spinel_packed_uint_decode_encode v b hv
  simp [spinel_datatype_unpack, spinel_datatype_unpack_aux, h1, format_ends]

theorem round_trip_D (cap : Nat) (b : List Nat)
    (hle : (spinel_datatype_pack cap "D" [spinel_arg.bytes b]).len ≤ cap) :
    spinel_datatype_unpack (spinel_datatype_pack cap "D" [spinel_arg.bytes b]).bytes "D" =
      ⟨(spinel_datatype_pack cap "D" [spinel_arg.bytes b]).len, [spinel_arg.bytes b]⟩ := by
  rw [pack_fits cap _ _ b (by simp [spinel_datatype_pack_aux, format_ends]) hle]
  simp [spinel_datatype_unpack, spinel_datatype_unpack_aux, format_ends]

theorem round_trip_6 (cap : Nat) (b : List Nat) (hb : b.length = 16)
    (hle : (spinel_datatype_pack cap "6" [spinel_arg.bytes b]).len ≤ cap) :
    spinel_datatype_unpack (spinel_datatype_pack cap "6" [spinel_arg.bytes b]).bytes "6" =
      ⟨(spinel_datatype_pack cap "6" [spinel_arg.bytes b]).len, [spinel_arg.bytes b]⟩ := by
  have hf : fixed_octets 16 b = b := fixed_octets_of_length hb
  have h1 : 16 ≤ b.length := by omega
  have h2 : b.take 16 = b := List.take_of_length_le (by omega)
  have h3 : b.drop 16 = [] := List.drop_of_length_le (by omega)
  rw [pack_fits cap _ _ b (by simp [spinel_datatype_pack_aux, hf]) hle]
  simp [spinel_datatype_unpack, spinel_datatype_unpack_aux, h1, h2, h3, hb]

theorem round_trip_E (cap : Nat) (b : List Nat) (hb : b.length = 8)
    (hle : (spinel_datatype_pack cap "E" [spinel_arg.bytes b]).len ≤ cap) :
    spinel_datatype_unpack (spinel_datatype_pack cap "E" [spinel_arg.bytes b]).bytes "E" =
      ⟨(spinel_datatype_pack cap "E" [spinel_arg.bytes b]).len, [spinel_arg.bytes b]⟩ := by
  have hf : fixed_octets 8 b = b := fixed_octets_of_length hb
  have h1 : 8 ≤ b.length := by omega
  have h2 : b.take 8 = b := List.take_of_length_le (by omega)
  have h3 : b.drop 8 = [] := List.drop_of_length_le (by omega)
  rw [pack_fits cap _ _ b (by simp [spinel_datatype_pack_aux, hf]) hle]
  simp [spinel_datatype_unpack, spinel_datatype_unpack_aux, h1, h2, h3, hb]

theorem takeWhile_terminated (t : List Nat) (ht : ∀ b ∈ t, b % 256 ≠ 0) :
    (t ++ [0]).takeWhile (fun b => b % 256 != 0) = t := by
  induction t with
  | nil => simp
  | cons b t ih =>
    have hb : b % 256 ≠ 0 := ht b (List.mem_cons_self _ _)
    have ih2 := ih (fun c hc => ht c (List.mem_cons_of_mem _ hc))
    simp [List.takeWhile_cons, hb, ih2]

theorem round_trip_U (cap : Nat) (t : List Nat) (ht : ∀ b ∈ t, b % 256 ≠ 0)
    (hle : (spinel_datatype_pack cap "U" [spinel_arg.utf8 t]).len ≤ cap) :
    spinel_datatype_unpack (spinel_datatype_pack cap "U" [spinel_arg.utf8 t]).bytes "U" =
      ⟨(spinel_datatype_pack cap "U" [spinel_arg.utf8 t]).len, [spinel_arg.utf8 t]⟩ := by
  rw [pack_fits cap _ _ (t ++ [0]) (by simp [spinel_datatype_pack_aux]) hle]
  have h := takeWhile_terminated t ht
  simp [spinel_datatype_unpack, spinel_datatype_unpack_aux, h]

theorem round_trip_address (cap p a b : Nat) (addr : List Nat) (haddr : addr.length = 16)
    (hp : p < 256) (ha : a < 2 ^ 32) (hb : b < 2 ^ 32)
    (hle : (spinel_datatype_pack cap "T(6CLL)."
      [spinel_arg.bytes addr, spinel_arg.uint p, spinel_arg.uint a, spinel_arg.uint b]).len ≤
        cap) :
    spinel_datatype_unpack (spinel_datatype_pack cap "T(6CLL)."
        [spinel_arg.bytes addr, spinel_arg.uint p, spinel_arg.uint a, spinel_arg.uint b]).bytes
        "T(6CLL)." =
      ⟨(spinel_datatype_pack cap "T(6CLL)."
        [spinel_arg.bytes addr, spinel_arg.uint p, spinel_arg.uint a, spinel_arg.uint b]).len,
        [spinel_arg.bytes addr, spinel_arg.uint p, spinel_arg.uint a, spinel_arg.uint b]⟩ := by
  have hf : fixed_octets 16 addr = addr := fixed_octets_of_length haddr
  have hm : p % 256 = p := Nat.mod_eq_of_lt hp
  rw [pack_fits cap _ _ (uint16_le 25 ++ (addr ++ [p] ++ uint32_le a ++ uint32_le b))
    (by simp [spinel_datatype_pack_aux, format_ends, hf, hm, uint32_le, haddr]) hle]
  have h1 := le_value_uint32_le a ha
  have h2 := le_value_uint32_le b hb
  have hla : (uint32_le a).length = 4 := rfl
  have hlb : (uint32_le b).length = 4 := rfl
  have hw : List.take 25 (addr ++ p :: (uint32_le a ++ uint32_le b)) =
      addr ++ p :: (uint32_le a ++ uint32_le b) :=
    List.take_of_length_le (by simp [haddr, hla, hlb])
  have hta : List.take 4 (uint32_le a ++ uint32_le b) = uint32_le a := List.take_left' hla
  have hda : List.drop 4 (uint32_le a ++ uint32_le b) = uint32_le b := List.drop_left' hla
  have htb : List.take 4 (uint32_le b) = uint32_le b := rfl
  simp [spinel_datatype_unpack, spinel_datatype_unpack_aux, format_ends, struct_tail,
    uint16_le, le_value, haddr, hw, List.take_left' haddr, List.drop_left' haddr, hla, hlb,
    hta, hda, htb, h1, h2, hm]
  have ha2 : a < 4294967296 := by simpa using ha
  have hb2 : b < 4294967296 := by simpa using hb
  constructor <;> omega

/-- C28: round trip of the wire codec. For each format string of the engine
(`C`, `i`, `Cii`, `iD`, `S`, `L`, `U`, `6`, `E`, `D`, `T(6CLL).`), every
destination capacity and every tuple of values of the matching types (an
unsigned value within its width, a text without a NUL octet, an address of 16
octets, an extended address of 8 octets, any blob) whose packed form fits the
destination, unpacking the packed octets with the same format returns the
same values, and the count of octets consumed is the length that pack
returned. -/
theorem spinel_datatype_round_trip (cap : Nat) :
    (∀ (v : Nat), v < 256 → (spinel_datatype_pack cap "C" [spinel_arg.uint v]).len ≤ cap →
      spinel_datatype_unpack (spinel_datatype_pack cap "C" [spinel_arg.uint v]).bytes "C" =
        ⟨(spinel_datatype_pack cap "C" [spinel_arg.uint v]).len, [spinel_arg.uint v]⟩) ∧
    (∀ (v : Nat), v < 2 ^ 32 → (spinel_datatype_pack cap "i" [spinel_arg.uint v]).len ≤ cap →
      spinel_datatype_unpack (spinel_datatype_pack cap "i" [spinel_arg.uint v]).bytes "i" =
        ⟨(spinel_datatype_pack cap "i" [spinel_arg.uint v]).len, [spinel_arg.uint v]⟩) ∧
    (∀ (a b c : Nat), a < 256 → b < 2 ^ 32 → c < 2 ^ 32 → (spinel_datatype_pack cap "Cii" [spinel_arg.uint a, spinel_arg.uint b, spinel_arg.uint c]).len ≤ cap →
      spinel_datatype_unpack (spinel_datatype_pack cap "Cii" [spinel_arg.uint a, spinel_arg.uint b, spinel_arg.uint c]).bytes "Cii" =
        ⟨(spinel_datatype_pack cap "Cii" [spinel_arg.uint a, spinel_arg.uint b, spinel_arg.uint c]).len, [spinel_arg.uint a, spinel_arg.uint b, spinel_arg.uint c]⟩) ∧
    (∀ (v : Nat) (b : List Nat), v < 2 ^ 32 → (spinel_datatype_pack cap "iD" [spinel_arg.uint v, spinel_arg.bytes b]).len ≤ cap →
      spinel_datatype_unpack (spinel_datatype_pack cap "iD" [spinel_arg.uint v, spinel_arg.bytes b]).bytes "iD" =
        ⟨(spinel_datatype_pack cap "iD" [spinel_arg.uint v, spinel_arg.bytes b]).len, [spinel_arg.uint v, spinel_arg.bytes b]⟩) ∧
    (∀ (v : Nat), v < 65536 → (spinel_datatype_pack cap "S" [spinel_arg.uint v]).len ≤ cap →
      spinel_datatype_unpack (spinel_datatype_pack cap "S" [spinel_arg.uint v]).bytes "S" =
        ⟨(spinel_datatype_pack cap "S" [spinel_arg.uint v]).len, [spinel_arg.uint v]⟩) ∧
    (∀ (v : Nat), v < 2 ^ 32 → (spinel_datatype_pack cap "L" [spinel_arg.uint v]).len ≤ cap →
      spinel_datatype_unpack (spinel_datatype_pack cap "L" [spinel_arg.uint v]).bytes "L" =
        ⟨(spinel_datatype_pack cap "L" [spinel_arg.uint v]).len, [spinel_arg.uint v]⟩) ∧
    (∀ (t : List Nat), (∀ b ∈ t, b % 256 ≠ 0) → (spinel_datatype_pack cap "U" [spinel_arg.utf8 t]).len ≤ cap →
      spinel_datatype_unpack (spinel_datatype_pack cap "U" [spinel_arg.utf8 t]).bytes "U" =
        ⟨(spinel_datatype_pack cap "U" [spinel_arg.utf8 t]).len, [spinel_arg.utf8 t]⟩) ∧
    (∀ (b : List Nat), b.length = 16 → (spinel_datatype_pack cap "6" [spinel_arg.bytes b]).len ≤ cap →
      spinel_datatype_unpack (spinel_datatype_pack cap "6" [spinel_arg.bytes b]).bytes "6" =
        ⟨(spinel_datatype_pack cap "6" [spinel_arg.bytes b]).len, [spinel_arg.bytes b]⟩) ∧
    (∀ (b : List Nat), b.length = 8 → (spinel_datatype_pack cap "E" [spinel_arg.bytes b]).len ≤ cap →
      spinel_datatype_unpack (spinel_datatype_pack cap "E" [spinel_arg.bytes b]).bytes "E" =
        ⟨(spinel_datatype_pack cap "E" [spinel_arg.bytes b]).len, [spinel_arg.bytes b]⟩) ∧
    (∀ (b : List Nat), (spinel_datatype_pack cap "D" [spinel_arg.bytes b]).len ≤ cap →
      spinel_datatype_unpack (spinel_datatype_pack cap "D" [spinel_arg.bytes b]).bytes "D" =
        ⟨(spinel_datatype_pack cap "D" [spinel_arg.bytes b]).len, [spinel_arg.bytes b]⟩) ∧
    (∀ (addr : List Nat) (p a b : Nat), addr.length = 16 → p < 256 → a < 2 ^ 32 → b < 2 ^ 32 → (spinel_datatype_pack cap "T(6CLL)." [spinel_arg.bytes addr, spinel_arg.uint p, spinel_arg.uint a, spinel_arg.uint b]).len ≤ cap →
      spinel_datatype_unpack (spinel_datatype_pack cap "T(6CLL)." [spinel_arg.bytes addr, spinel_arg.uint p, spinel_arg.uint a, spinel_arg.uint b]).bytes "T(6CLL)." =
        ⟨(spinel_datatype_pack cap "T(6CLL)." [spinel_arg.bytes addr, spinel_arg.uint p, spinel_arg.uint a, spinel_arg.uint b]).len, [spinel_arg.bytes addr, spinel_arg.uint p, spinel_arg.uint a, spinel_arg.uint b]⟩) := by
  exact ⟨fun v h hle => round_trip_C cap v h hle,
    fun v h hle => round_trip_i cap v h hle,
    fun a b c ha hb hc hle => round_trip_Cii cap a b c ha hb hc hle,
    fun v b h hle => round_trip_iD cap v b h hle,
    fun v h hle => round_trip_S cap v h hle,
    fun v h hle => round_trip_L cap v h hle,
    fun t h hle => round_trip_U cap t h hle,
    fun b h hle => round_trip_6 cap b h hle,
    fun b h hle => round_trip_E cap b h hle,
    fun b hle => round_trip_D cap b hle,
    fun addr p a b h1 h2 h3 h4 hle => round_trip_address cap p a b addr h1 h2 h3 h4 hle⟩

theorem spinel_datatype_round_trip_witness :
    (300 < 2 ^ 32 ∧ [1, 2, 3].length = 3) ∧
    (spinel_datatype_pack 256 "iD" [spinel_arg.uint 300, spinel_arg.bytes [1, 2, 3]]).len ≤
      256 ∧
    spinel_datatype_unpack
      (spinel_datatype_pack 256 "iD" [spinel_arg.uint 300, spinel_arg.bytes [1, 2, 3]]).bytes
      "iD" =
      ⟨(spinel_datatype_pack 256 "iD" [spinel_arg.uint 300, spinel_arg.bytes [1, 2, 3]]).len,
        [spinel_arg.uint 300, spinel_arg.bytes [1, 2, 3]]⟩ ∧
    spinel_datatype_pack 256 "iD" [spinel_arg.uint 300, spinel_arg.bytes [1, 2, 3]] =
      ⟨5, [172, 2, 1, 2, 3]⟩ :=
  ⟨⟨by decide, rfl⟩, by decide,
    (spinel_datatype_round_trip 256).2.2.2.1 300 [1, 2, 3] (by decide) (by decide),
    by decide⟩

theorem seedRound_even (hw : Cc2538) (index : Nat) :
    ∀ reads seed, seedRound hw (index + 1) reads seed % 2 = 0 := by
  induction index with
  | zero =>
    intro reads seed
    simp only [seedRound, Nat.shiftLeft_eq]
    omega
  | succ n ih =>
    intro reads seed
    rw [seedRound]
    exact ih _ _

theorem seedRound_ne_0x8003 (hw : Cc2538) (reads seed : Nat) :
    seedRound hw 16 reads seed ≠ 0x8003 := by
  have h : seedRound hw 16 reads seed % 2 = 0 := seedRound_even hw 15 reads seed
  omega

theorem seedLoop_mono (hw : Cc2538) (fuel : Nat) :
    ∀ reads seed result, seedLoop hw fuel reads seed = some result →
      ∀ more, seedLoop hw (fuel + more) reads seed = some result := by
  induction fuel with
  | zero => intro reads seed result h; simp [seedLoop] at h
  | succ n ih =>
    intro reads seed result h more
    rw [show n + 1 + more = (n + more) + 1 from by omega]
    rw [seedLoop] at h ⊢
    by_cases hc : seed = 0x0000 ∨ seed = 0x8003
    · rw [if_pos hc] at h ⊢
      exact ih _ _ _ h more
    · rw [if_neg hc] at h ⊢
      exact h

theorem header_mod_ne_zero (header : Nat) (hflag : header.testBit 7 = true) :
    header % 256 ≠ 0 := by
  intro h0
  have h1 : (header % 2 ^ 8).testBit 7 = header.testBit 7 := by
    rw [Nat.testBit_mod_two_pow]
    simp
  rw [show (2 : Nat) ^ 8 = 256 from rfl, h0, hflag] at h1
  simp at h1

/-- C38: the reply to RESET does not echo the request. For every accepted
header `h` (flag set, interface 0), `HandleCommand` answers RESET with exactly
one frame, `LAST_STATUS` = software reset, whose header octet is 0 (flag bit
clear, interface 0, transaction id 0) and therefore differs from `h`, and
`mLastStatus` becomes the software-reset status. -/
theorem HandleCommand_RESET_header_zero (api : StackApi σ) (header : Nat) (arg : List Nat)
    (s : NcpBase σ) (hflag : header.testBit 7 = true)
    (hiid : SPINEL_HEADER_GET_IID header = 0) :
    HandleCommand api header SPINEL_CMD_RESET arg s =
      { s with
        mLastStatus := SPINEL_STATUS_RESET_SOFTWARE,
        mSending := true,
        trace := s.trace ++ [Event.Send [0, SPINEL_CMD_PROP_VALUE_IS,
          SPINEL_PROP_LAST_STATUS, SPINEL_STATUS_RESET_SOFTWARE]] } ∧
    (HandleCommand api header SPINEL_CMD_RESET arg s).mLastStatus =
      SPINEL_STATUS_RESET_SOFTWARE ∧
    sentFrames (HandleCommand api header SPINEL_CMD_RESET arg s).trace =
      sentFrames s.trace ++ [[0, SPINEL_CMD_PROP_VALUE_IS, SPINEL_PROP_LAST_STATUS,
        SPINEL_STATUS_RESET_SOFTWARE]] ∧
    (0 : Nat).testBit 7 = false ∧ SPINEL_HEADER_GET_TID 0 = 0 ∧ header % 256 ≠ 0 := by
  have hacc := HandleCommand_accepted api header SPINEL_CMD_RESET arg s hflag hiid
  have hr : HandleCommand api header SPINEL_CMD_RESET arg s =
      { s with
        mLastStatus := SPINEL_STATUS_RESET_SOFTWARE,
        mSending := true,
        trace := s.trace ++ [Event.Send [0, SPINEL_CMD_PROP_VALUE_IS,
          SPINEL_PROP_LAST_STATUS, SPINEL_STATUS_RESET_SOFTWARE]] } := by
    rw [hacc, if_neg (by decide), if_pos rfl, SendLastStatus_iid0 _ _ _ (by decide) (by decide)]
  refine ⟨hr, by rw [hr], ?_, by decide, by decide, header_mod_ne_zero header hflag⟩
  rw [hr]
  simp [sentFrames_append, sentFrames]

theorem HandleCommand_RESET_header_zero_witness :
    HandleCommand fixedStack 0x83 SPINEL_CMD_RESET [] (NcpBase.init () 4) =
      { NcpBase.init () 4 with
        mLastStatus := SPINEL_STATUS_RESET_SOFTWARE,
        mSending := true,
        trace := [Event.Send [0, SPINEL_CMD_PROP_VALUE_IS,
          SPINEL_PROP_LAST_STATUS, SPINEL_STATUS_RESET_SOFTWARE]] } :=
  (HandleCommand_RESET_header_zero fixedStack 0x83 [] (NcpBase.init () 4)
    (by decide) (by decide)).1

theorem unpack_packed_uint (v : Nat) :
    spinel_datatype_unpack (spinel_packed_uint_encode v) SPINEL_DATATYPE_UINT_PACKED_S =
      ⟨(spinel_packed_uint_encode v).length, [spinel_arg.uint (v % 2 ^ 32)]⟩ := by
  have hlt : v % 2 ^ 32 < 2 ^ 32 := Nat.mod_lt _ (by decide)
  have he : spinel_packed_uint_encode (v % 2 ^ 32) = spinel_packed_uint_encode v := by
    simp [spinel_packed_uint_encode]
  have h := spinel_packed_uint_decode_encode (v % 2 ^ 32) [] hlt
  rw [List.append_nil, he] at h
  simp [spinel_datatype_unpack, spinel_datatype_unpack_aux, SPINEL_DATATYPE_UINT_PACKED_S, h]

theorem spinel_packed_uint_encode_pos (v : Nat) : 0 < (spinel_packed_uint_encode v).length := by
  unfold spinel_packed_uint_encode spinel_packed_uint_encode_aux
  split <;> simp

/-- C36: SET PHY_CHAN hands the host's value to the stack truncated to eight
bits. For every value `v` sent as a packed varint, the setter calls
`otSetChannel(v mod 256)` and replies according to what the stack returns for
that octet. On a stack that rejects channels outside [11, 26], as
`otSetChannel` is documented, the value 267 is therefore accepted and sets
channel 11 (the reply is the value reply for channel 11), whereas 27 is
answered "invalid argument" and leaves the channel as it was. -/
theorem HandleCommandPropertySet_PHY_CHAN_truncated (api : StackApi σ) (header v : Nat)
    (s : NcpBase σ) :
    HandleCommandPropertySet api header SPINEL_PROP_PHY_CHAN (spinel_packed_uint_encode v) s =
      replyToSet api header SPINEL_PROP_PHY_CHAN (api.otSetChannel s.stack (v % 256)).1
        (s.invoke StackCall.otSetChannel (api.otSetChannel s.stack (v % 256)).2) ∧
    (HandleReceive channelStack
        ([0x81, SPINEL_CMD_PROP_VALUE_SET, SPINEL_PROP_PHY_CHAN] ++ spinel_packed_uint_encode 267)
        (NcpBase.init 15 4)).stack = 11 ∧
    (HandleReceive channelStack
        ([0x81, SPINEL_CMD_PROP_VALUE_SET, SPINEL_PROP_PHY_CHAN] ++ spinel_packed_uint_encode 267)
        (NcpBase.init 15 4)).trace =
      [Event.Stack StackCall.otSetChannel, Event.Stack StackCall.otGetChannel,
       Event.Send [0x81, SPINEL_CMD_PROP_VALUE_IS, SPINEL_PROP_PHY_CHAN, 11]] ∧
    (HandleReceive channelStack
        ([0x81, SPINEL_CMD_PROP_VALUE_SET, SPINEL_PROP_PHY_CHAN] ++ spinel_packed_uint_encode 27)
        (NcpBase.init 15 4)).stack = 15 ∧
    (HandleReceive channelStack
        ([0x81, SPINEL_CMD_PROP_VALUE_SET, SPINEL_PROP_PHY_CHAN] ++ spinel_packed_uint_encode 27)
        (NcpBase.init 15 4)).trace =
      [Event.Stack StackCall.otSetChannel,
       Event.Send [0x81, SPINEL_CMD_PROP_VALUE_IS, SPINEL_PROP_LAST_STATUS,
         SPINEL_STATUS_INVALID_ARGUMENT]] := by
  refine ⟨?_, by decide, by decide, by decide, by decide⟩
  have hu := unpack_packed_uint v
  have hpos := spinel_packed_uint_encode_pos v
  have hmod : v % 2 ^ 32 % 256 = v % 256 := by
    have : (256 : Nat) ∣ 2 ^ 32 := ⟨2 ^ 24, by decide⟩
    exact Nat.mod_mod_of_dvd v this
  rw [HandleCommandPropertySet_PHY_CHAN api header _ s (by rw [hu]; simp only; omega), hu]
  simp only [spinel_unpacked.uintAt, List.get?, hmod]

theorem HandleCommandPropertySet_NET_ROLE (api : StackApi σ) (header : Nat)
    (value : List Nat) (s : NcpBase σ) :
    HandleCommandPropertySet api header SPINEL_PROP_NET_ROLE value s =
      if (spinel_datatype_unpack value SPINEL_DATATYPE_UINT_PACKED_S).len > 0 then
        setNetRole api header SPINEL_PROP_NET_ROLE
          ((spinel_datatype_unpack value SPINEL_DATATYPE_UINT_PACKED_S).uintAt 0 0) s
      else SendLastStatus header SPINEL_STATUS_PARSE_ERROR s := by
  unfold HandleCommandPropertySet
  simp +decide only [if_false, if_true, or_self]

theorem HandleCommandPropertySet_MAC_SCAN_STATE (api : StackApi σ) (header : Nat)
    (value : List Nat) (s : NcpBase σ) :
    HandleCommandPropertySet api header SPINEL_PROP_MAC_SCAN_STATE value s =
      if (spinel_datatype_unpack value SPINEL_DATATYPE_UINT_PACKED_S).len > 0 then
        setScanState api header SPINEL_PROP_MAC_SCAN_STATE
          ((spinel_datatype_unpack value SPINEL_DATATYPE_UINT_PACKED_S).uintAt 0 0) s
      else SendLastStatus header SPINEL_STATUS_PARSE_ERROR s := by
  unfold HandleCommandPropertySet
  simp +decide only [if_false, if_true, or_self]

theorem HandleCommandPropertyGet_switch_NET_STATE (api : StackApi σ) (header : Nat)
    (s : NcpBase σ) :
    HandleCommandPropertyGet_switch api header SPINEL_PROP_NET_STATE s =
      SendPropteryUpdate header SPINEL_CMD_PROP_VALUE_IS SPINEL_PROP_NET_STATE
        SPINEL_DATATYPE_UINT8_S
        [spinel_arg.uint
          (match api.otGetDeviceRole s.stack with
           | kDeviceRoleDisabled => SPINEL_NET_STATE_OFFLINE
           | kDeviceRoleDetached => SPINEL_NET_STATE_DETACHED
           | kDeviceRoleChild => SPINEL_NET_STATE_ATTACHED
           | kDeviceRoleRouter => SPINEL_NET_STATE_ATTACHED
           | kDeviceRoleLeader => SPINEL_NET_STATE_ATTACHED)]
        (s.call StackCall.otGetDeviceRole) := by
  unfold HandleCommandPropertyGet_switch
  simp +decide only [if_false, if_true]

theorem HandleCommandPropertyGet_switch_NET_ROLE (api : StackApi σ) (header : Nat)
    (s : NcpBase σ) :
    HandleCommandPropertyGet_switch api header SPINEL_PROP_NET_ROLE s =
      SendPropteryUpdate header SPINEL_CMD_PROP_VALUE_IS SPINEL_PROP_NET_ROLE
        SPINEL_DATATYPE_UINT8_S
        [spinel_arg.uint
          (match api.otGetDeviceRole s.stack with
           | kDeviceRoleDisabled => SPINEL_NET_ROLE_NONE
           | kDeviceRoleDetached => SPINEL_NET_ROLE_NONE
           | kDeviceRoleChild => SPINEL_NET_ROLE_CHILD
           | kDeviceRoleRouter => SPINEL_NET_ROLE_ROUTER
           | kDeviceRoleLeader => SPINEL_NET_ROLE_LEADER)]
        (s.call StackCall.otGetDeviceRole) := by
  unfold HandleCommandPropertyGet_switch
  simp +decide only [if_false, if_true]

/-- C37: a SET of NET_STATE or NET_ROLE whose value parses to a number that is
none of the enumerators of the setter's `switch` runs no case of it, so no
role command of the stack is invoked, and the request ends in the GET path
for the same key, as for a successful SET: with no send in flight the only
stack accessor called is `otGetDeviceRole` and the one frame sent is the value
reply with the current state or role, not a status. A SET of MAC_SCAN_STATE
with a value that is none of its enumerators is answered with the status
"invalid argument" instead. -/
theorem HandleCommandPropertySet_unrecognised_value (api : StackApi σ) (header : Nat)
    (value : List Nat) (s : NcpBase σ)
    (hparse : (spinel_datatype_unpack value SPINEL_DATATYPE_UINT_PACKED_S).len > 0) :
    ((spinel_datatype_unpack value SPINEL_DATATYPE_UINT_PACKED_S).uintAt 0 0 ∉
        [SPINEL_NET_STATE_OFFLINE, SPINEL_NET_STATE_DETACHED, SPINEL_NET_STATE_ATTACHING,
         SPINEL_NET_STATE_ATTACHED] →
      HandleCommandPropertySet api header SPINEL_PROP_NET_STATE value s =
        HandleCommandPropertyGet api header SPINEL_PROP_NET_STATE s ∧
      (s.mSending = false →
        HandleCommandPropertySet api header SPINEL_PROP_NET_STATE value s =
          { s with
            mSending := true,
            trace := s.trace ++ [Event.Stack StackCall.otGetDeviceRole,
              Event.Send [header % 256, SPINEL_CMD_PROP_VALUE_IS, SPINEL_PROP_NET_STATE,
                match api.otGetDeviceRole s.stack with
                | kDeviceRoleDisabled => SPINEL_NET_STATE_OFFLINE
                | kDeviceRoleDetached => SPINEL_NET_STATE_DETACHED
                | kDeviceRoleChild => SPINEL_NET_STATE_ATTACHED
                | kDeviceRoleRouter => SPINEL_NET_STATE_ATTACHED
                | kDeviceRoleLeader => SPINEL_NET_STATE_ATTACHED]] })) ∧
    ((spinel_datatype_unpack value SPINEL_DATATYPE_UINT_PACKED_S).uintAt 0 0 ∉
        [SPINEL_NET_ROLE_NONE, SPINEL_NET_ROLE_ROUTER, SPINEL_NET_ROLE_LEADER,
         SPINEL_NET_ROLE_CHILD] →
      HandleCommandPropertySet api header SPINEL_PROP_NET_ROLE value s =
        HandleCommandPropertyGet api header SPINEL_PROP_NET_ROLE s ∧
      (s.mSending = false →
        HandleCommandPropertySet api header SPINEL_PROP_NET_ROLE value s =
          { s with
            mSending := true,
            trace := s.trace ++ [Event.Stack StackCall.otGetDeviceRole,
              Event.Send [header % 256, SPINEL_CMD_PROP_VALUE_IS, SPINEL_PROP_NET_ROLE,
                match api.otGetDeviceRole s.stack with
                | kDeviceRoleDisabled => SPINEL_NET_ROLE_NONE
                | kDeviceRoleDetached => SPINEL_NET_ROLE_NONE
                | kDeviceRoleChild => SPINEL_NET_ROLE_CHILD
                | kDeviceRoleRouter => SPINEL_NET_ROLE_ROUTER
                | kDeviceRoleLeader => SPINEL_NET_ROLE_LEADER]] })) ∧
    ((spinel_datatype_unpack value SPINEL_DATATYPE_UINT_PACKED_S).uintAt 0 0 ∉
        [SPINEL_SCAN_STATE_IDLE, SPINEL_SCAN_STATE_BEACON, SPINEL_SCAN_STATE_ENERGY] →
      HandleCommandPropertySet api header SPINEL_PROP_MAC_SCAN_STATE value s =
        SendLastStatus header SPINEL_STATUS_INVALID_ARGUMENT s) := by
  refine ⟨fun hi => ?_, fun hi => ?_, fun hi => ?_⟩
  · simp only [List.mem_cons, List.mem_nil_iff, or_false, not_or] at hi
    have hset : HandleCommandPropertySet api header SPINEL_PROP_NET_STATE value s =
        HandleCommandPropertyGet api header SPINEL_PROP_NET_STATE s := by
      rw [HandleCommandPropertySet_NET_STATE, if_pos hparse]
      unfold setNetState
      rw [if_neg hi.1, if_neg hi.2.1, if_neg (by simp [hi.2.2.1, hi.2.2.2])]
      simp [replyToSet]
    refine ⟨hset, fun hs => ?_⟩
    rw [hset, HandleCommandPropertyGet_idle api header _ s hs,
      HandleCommandPropertyGet_switch_NET_STATE,
      SendPropteryUpdate_sent header _ _ _ _ _ (by decide) (by decide)
        (by rw [pack_uint8 253 _ (by decide)]; simp)
        (by rw [pack_uint8 253 _ (by decide)]; simp), pack_uint8 253 _ (by decide)]
    cases api.otGetDeviceRole s.stack <;> simp [NcpBase.call] <;> decide
  · simp only [List.mem_cons, List.mem_nil_iff, or_false, not_or] at hi
    have hset : HandleCommandPropertySet api header SPINEL_PROP_NET_ROLE value s =
        HandleCommandPropertyGet api header SPINEL_PROP_NET_ROLE s := by
      rw [HandleCommandPropertySet_NET_ROLE, if_pos hparse]
      unfold setNetRole
      rw [if_neg hi.1, if_neg hi.2.1, if_neg hi.2.2.1, if_neg hi.2.2.2]
      simp [replyToSet]
    refine ⟨hset, fun hs => ?_⟩
    rw [hset, HandleCommandPropertyGet_idle api header _ s hs,
      HandleCommandPropertyGet_switch_NET_ROLE,
      SendPropteryUpdate_sent header _ _ _ _ _ (by decide) (by decide)
        (by rw [pack_uint8 253 _ (by decide)]; simp)
        (by rw [pack_uint8 253 _ (by decide)]; simp), pack_uint8 253 _ (by decide)]
    cases api.otGetDeviceRole s.stack <;> simp [NcpBase.call] <;> decide
  · simp only [List.mem_cons, List.mem_nil_iff, or_false, not_or] at hi
    rw [HandleCommandPropertySet_MAC_SCAN_STATE, if_pos hparse]
    unfold setScanState
    rw [if_neg hi.1, if_neg hi.2.1, if_neg hi.2.2]
    simp [replyToSet]
    rfl

theorem HandleCommandPropertySet_unrecognised_value_witness :
    HandleCommandPropertySet fixedStack 0x81 SPINEL_PROP_NET_STATE [7] (NcpBase.init () 4) =
      { NcpBase.init () 4 with
        mSending := true,
        trace := [Event.Stack StackCall.otGetDeviceRole,
          Event.Send [0x81, SPINEL_CMD_PROP_VALUE_IS, SPINEL_PROP_NET_STATE,
            SPINEL_NET_STATE_DETACHED]] } ∧
    HandleCommandPropertySet fixedStack 0x81 SPINEL_PROP_NET_ROLE [7] (NcpBase.init () 4) =
      HandleCommandPropertyGet fixedStack 0x81 SPINEL_PROP_NET_ROLE (NcpBase.init () 4) ∧
    HandleCommandPropertySet fixedStack 0x81 SPINEL_PROP_MAC_SCAN_STATE [7]
        (NcpBase.init () 4) =
      SendLastStatus 0x81 SPINEL_STATUS_INVALID_ARGUMENT (NcpBase.init () 4) :=
  ⟨((HandleCommandPropertySet_unrecognised_value fixedStack 0x81 [7] (NcpBase.init () 4)
      (by decide)).1 (by decide)).2 rfl,
    ((HandleCommandPropertySet_unrecognised_value fixedStack 0x81 [7] (NcpBase.init () 4)
      (by decide)).2.1 (by decide)).1,
    (HandleCommandPropertySet_unrecognised_value fixedStack 0x81 [7] (NcpBase.init () 4)
      (by decide)).2.2 (by decide)⟩

theorem HandleCommandPropertyGet_switch_IPV6_ADDRESS_TABLE (api : StackApi σ) (header : Nat)
    (s : NcpBase σ) :
    HandleCommandPropertyGet_switch api header SPINEL_PROP_IPV6_ADDRESS_TABLE s =
      HandleCommandPropertyGetAddressList api header s := by
  unfold HandleCommandPropertyGet_switch
  simp +decide only [if_false, if_true]

/-- C34: `RunUpdateAddressesTask` with no send in flight transmits exactly one
frame, the `IPV6_ADDRESS_TABLE` reply under the header FLAG|IID_0 (the
unicast addresses are read once), and leaves `mSending` true. The GET of
`NET_STATE` that follows is not transmitted: with an empty Pending-Get Slot it
is recorded there as (FLAG|IID_0, NET_STATE); with an occupied slot it is
discarded and the slot keeps what it held. -/
theorem RunUpdateAddressesTask_idle (api : StackApi σ) (s : NcpBase σ)
    (hs : s.mSending = false) :
    (s.mQueuedGetHeader = 0 →
      RunUpdateAddressesTask api s =
        { s with
          mSending := true,
          mQueuedGetHeader := SPINEL_HEADER_FLAG ||| SPINEL_HEADER_IID_0,
          mQueuedGetKey := SPINEL_PROP_NET_STATE,
          trace := s.trace ++ [Event.Stack StackCall.otGetUnicastAddresses,
            Event.Send ([SPINEL_HEADER_FLAG ||| SPINEL_HEADER_IID_0, SPINEL_CMD_PROP_VALUE_IS,
              SPINEL_PROP_IPV6_ADDRESS_TABLE] ++
              (((api.otGetUnicastAddresses s.stack).take 9).map packedNetifAddress).flatten)] }) ∧
    (s.mQueuedGetHeader ≠ 0 →
      RunUpdateAddressesTask api s =
        { s with
          mSending := true,
          trace := s.trace ++ [Event.Stack StackCall.otGetUnicastAddresses,
            Event.Send ([SPINEL_HEADER_FLAG ||| SPINEL_HEADER_IID_0, SPINEL_CMD_PROP_VALUE_IS,
              SPINEL_PROP_IPV6_ADDRESS_TABLE] ++
              (((api.otGetUnicastAddresses s.stack).take 9).map packedNetifAddress).flatten)] }) ∧
    (sentFrames (RunUpdateAddressesTask api s).trace).length =
      (sentFrames s.trace).length + 1 := by
  have hrun : RunUpdateAddressesTask api s =
      HandleCommandPropertyGet api (SPINEL_HEADER_FLAG ||| SPINEL_HEADER_IID_0)
        SPINEL_PROP_NET_STATE
        { s with
          mSending := true,
          trace := s.trace ++ [Event.Stack StackCall.otGetUnicastAddresses,
            Event.Send ([SPINEL_HEADER_FLAG ||| SPINEL_HEADER_IID_0, SPINEL_CMD_PROP_VALUE_IS,
              SPINEL_PROP_IPV6_ADDRESS_TABLE] ++
              (((api.otGetUnicastAddresses s.stack).take 9).map
                packedNetifAddress).flatten)] } := by
    unfold RunUpdateAddressesTask
    rw [if_pos hs, HandleCommandPropertyGet_idle api _ SPINEL_PROP_IPV6_ADDRESS_TABLE s hs,
      HandleCommandPropertyGet_switch_IPV6_ADDRESS_TABLE,
      HandleCommandPropertyGetAddressList_sent]
    rfl
  have h0 : s.mQueuedGetHeader = 0 →
      RunUpdateAddressesTask api s =
        { s with
          mSending := true,
          mQueuedGetHeader := SPINEL_HEADER_FLAG ||| SPINEL_HEADER_IID_0,
          mQueuedGetKey := SPINEL_PROP_NET_STATE,
          trace := s.trace ++ [Event.Stack StackCall.otGetUnicastAddresses,
            Event.Send ([SPINEL_HEADER_FLAG ||| SPINEL_HEADER_IID_0, SPINEL_CMD_PROP_VALUE_IS,
              SPINEL_PROP_IPV6_ADDRESS_TABLE] ++
              (((api.otGetUnicastAddresses s.stack).take 9).map
                packedNetifAddress).flatten)] } := by
    intro h
    rw [hrun]
    simp [HandleCommandPropertyGet, h]
  have h1 : s.mQueuedGetHeader ≠ 0 →
      RunUpdateAddressesTask api s =
        { s with
          mSending := true,
          trace := s.trace ++ [Event.Stack StackCall.otGetUnicastAddresses,
            Event.Send ([SPINEL_HEADER_FLAG ||| SPINEL_HEADER_IID_0, SPINEL_CMD_PROP_VALUE_IS,
              SPINEL_PROP_IPV6_ADDRESS_TABLE] ++
              (((api.otGetUnicastAddresses s.stack).take 9).map
                packedNetifAddress).flatten)] } := by
    intro h
    rw [hrun]
    simp [HandleCommandPropertyGet, h]
  refine ⟨h0, h1, ?_⟩
  by_cases h : s.mQueuedGetHeader = 0
  · rw [h0 h]
    simp [sentFrames_append, sentFrames]
  · rw [h1 h]
    simp [sentFrames_append, sentFrames]

theorem RunUpdateAddressesTask_idle_witness :
    RunUpdateAddressesTask (crowdedStack 1) (NcpBase.init () 4) =
      { NcpBase.init () 4 with
        mSending := true,
        mQueuedGetHeader := 0x80,
        mQueuedGetKey := SPINEL_PROP_NET_STATE,
        trace := [Event.Stack StackCall.otGetUnicastAddresses,
          Event.Send ([0x80, SPINEL_CMD_PROP_VALUE_IS, SPINEL_PROP_IPV6_ADDRESS_TABLE] ++
            [25, 0, 0xfe, 0x80, 0, 0, 0, 0, 0, 0, 0, 0, 0, 0, 0, 0, 0, 1, 64,
             255, 255, 255, 255, 255, 255, 255, 255])] } :=
  (RunUpdateAddressesTask_idle (crowdedStack 1) (NcpBase.init () 4) rfl).1 rfl

theorem sendsAndFlags_refl (s : NcpBase σ) : sendsAndFlags s s :=
  ⟨[], by simp, Or.inl ⟨rfl, rfl⟩⟩

theorem sendsAndFlags_call (s t : NcpBase σ) (c : StackCall)
    (h : sendsAndFlags (s.call c) t) : sendsAndFlags s t := by
  obtain ⟨evs, h1, h2⟩ := h
  refine ⟨Event.Stack c :: evs, ?_, ?_⟩
  · simp [h1, NcpBase.call]
  · simpa [sentFrames, NcpBase.call] using h2

theorem sendsAndFlags_ite (s a b : NcpBase σ) (c : Prop) [Decidable c]
    (ha : sendsAndFlags s a) (hb : sendsAndFlags s b) :
    sendsAndFlags s (if c then a else b) := by
  split <;> assumption

theorem SendPropteryUpdate_sendsAndFlags (header command key : Nat) (fmt : String)
    (args : List spinel_arg) (s : NcpBase σ) :
    sendsAndFlags s (SendPropteryUpdate header command key fmt args s) := by
  unfold SendPropteryUpdate
  simp only
  split
  · split
    · exact ⟨_, rfl, Or.inr ⟨by simp [sentFrames], rfl⟩⟩
    · exact sendsAndFlags_refl s
  · exact sendsAndFlags_refl s

theorem SendLastStatus_sendsAndFlags (header status : Nat) (s : NcpBase σ) :
    sendsAndFlags s (SendLastStatus header status s) := by
  unfold SendLastStatus
  split
  · obtain ⟨evs, h1, h2⟩ := SendPropteryUpdate_sendsAndFlags header SPINEL_CMD_PROP_VALUE_IS
      SPINEL_PROP_LAST_STATUS "i" [spinel_arg.uint status] { s with mLastStatus := status }
    exact ⟨evs, h1, h2⟩
  · exact SendPropteryUpdate_sendsAndFlags _ _ _ _ _ _

theorem HandleCommandPropertyGetAddressList_sendsAndFlags (api : StackApi σ) (header : Nat)
    (s : NcpBase σ) : sendsAndFlags s (HandleCommandPropertyGetAddressList api header s) := by
  rw [HandleCommandPropertyGetAddressList_sent]
  exact ⟨_, rfl, Or.inr ⟨by simp [sentFrames], rfl⟩⟩

/-- Every getter either sends nothing and leaves the flag alone or sends one
frame and sets the flag. -/
theorem HandleCommandPropertyGet_switch_sendsAndFlags (api : StackApi σ) (header key : Nat)
    (s : NcpBase σ) : sendsAndFlags s (HandleCommandPropertyGet_switch api header key s) := by
  unfold HandleCommandPropertyGet_switch HandleCommandPropertyGetRoutingTable
  repeat' first
    | with_reducible apply sendsAndFlags_ite
    | with_reducible exact SendPropteryUpdate_sendsAndFlags _ _ _ _ _ _
    | with_reducible exact sendsAndFlags_call _ _ _ (SendPropteryUpdate_sendsAndFlags _ _ _ _ _ _)
    | with_reducible exact SendLastStatus_sendsAndFlags _ _ _
    | with_reducible exact sendsAndFlags_call _ _ _ (SendLastStatus_sendsAndFlags _ _ _)
    | with_reducible exact HandleCommandPropertyGetAddressList_sendsAndFlags _ _ _
    | split

/-- C33: a single `HandleSendDone` hands at most one frame to the transport,
whatever the datagram queue and the Pending-Get Slot hold, and `mSending` is
true afterwards exactly when a frame was handed over. -/
theorem HandleSendDone_at_most_one_send (api : StackApi σ) (s : NcpBase σ) :
    ∃ evs, (HandleSendDone api s).trace = s.trace ++ evs ∧
      (sentFrames evs).length ≤ 1 ∧
      ((HandleSendDone api s).mSending = true ↔ (sentFrames evs).length = 1) := by
  cases hq : s.mSendQueue.items with
  | nil =>
    by_cases h0 : s.mQueuedGetHeader = 0
    · refine ⟨[], ?_, by simp [sentFrames], ?_⟩
      · simp [HandleSendDone, HandleSendDone_queue_empty s hq, h0]
      · simp [HandleSendDone, HandleSendDone_queue_empty s hq, h0, sentFrames]
    · rw [HandleSendDone_pending_get api s hq h0]
      obtain ⟨evs, h1, h2⟩ := HandleCommandPropertyGet_switch_sendsAndFlags api
        s.mQueuedGetHeader s.mQueuedGetKey { s with mSending := false }
      refine ⟨evs, h1, ?_, ?_⟩
      · rcases h2 with ⟨h3, _⟩ | ⟨h3, _⟩
        · simp [h3]
        · omega
      · rcases h2 with ⟨h3, h4⟩ | ⟨h3, h4⟩
        · simp only [h3, List.length_nil]
          constructor
          · intro h
            rw [show ({ HandleCommandPropertyGet_switch api s.mQueuedGetHeader s.mQueuedGetKey
                { s with mSending := false } with mQueuedGetHeader := 0 } : NcpBase σ).mSending =
              (HandleCommandPropertyGet_switch api s.mQueuedGetHeader s.mQueuedGetKey
                { s with mSending := false }).mSending from rfl, h4] at h
            simp at h
          · intro h
            omega
        · exact ⟨fun _ => h3, fun _ => h4⟩
  | cons m rest =>
    rw [HandleSendDone_queue_head api s m rest hq]
    exact ⟨[Event.SendMessage streamNetHeader m], rfl, by simp [sentFrames],
      by simp [sentFrames]⟩

theorem slot_ite (Q : Nat → Prop) (a b : NcpBase σ) (c : Prop) [Decidable c]
    (ha : Q a.mQueuedGetHeader) (hb : Q b.mQueuedGetHeader) :
    Q (if c then a else b).mQueuedGetHeader := by
  split <;> assumption

theorem SendPropteryUpdate_slot (Q : Nat → Prop) (header command key : Nat) (fmt : String)
    (args : List spinel_arg) (s : NcpBase σ) (hs : Q s.mQueuedGetHeader) :
    Q (SendPropteryUpdate header command key fmt args s).mQueuedGetHeader := by
  unfold SendPropteryUpdate
  simp only
  split
  · split
    · exact hs
    · exact hs
  · exact hs

theorem SendLastStatus_slot (Q : Nat → Prop) (header status : Nat) (s : NcpBase σ)
    (hs : Q s.mQueuedGetHeader) : Q (SendLastStatus header status s).mQueuedGetHeader := by
  unfold SendLastStatus
  apply SendPropteryUpdate_slot
  split
  · exact hs
  · exact hs

theorem HandleCommandPropertyGetAddressList_slot (Q : Nat → Prop) (api : StackApi σ)
    (header : Nat) (s : NcpBase σ) (hs : Q s.mQueuedGetHeader) :
    Q (HandleCommandPropertyGetAddressList api header s).mQueuedGetHeader := by
  rw [HandleCommandPropertyGetAddressList_sent]
  exact hs

theorem HandleCommandPropertyGet_switch_slot (Q : Nat → Prop) (api : StackApi σ)
    (header key : Nat) (s : NcpBase σ) (hs : Q s.mQueuedGetHeader) :
    Q (HandleCommandPropertyGet_switch api header key s).mQueuedGetHeader := by
  unfold HandleCommandPropertyGet_switch HandleCommandPropertyGetRoutingTable
  repeat' first
    | with_reducible apply slot_ite Q
    | with_reducible apply SendPropteryUpdate_slot Q
    | with_reducible apply SendLastStatus_slot Q
    | with_reducible apply HandleCommandPropertyGetAddressList_slot Q
    | exact hs
    | split

theorem HandleCommandPropertyGet_slot (Q : Nat → Prop) (api : StackApi σ) (header key : Nat)
    (s : NcpBase σ) (hh : Q header) (hs : Q s.mQueuedGetHeader) :
    Q (HandleCommandPropertyGet api header key s).mQueuedGetHeader := by
  unfold HandleCommandPropertyGet
  split
  · split
    · exact hh
    · exact hs
  · exact HandleCommandPropertyGet_switch_slot Q api header key s hs

theorem replyToSet_slot (Q : Nat → Prop) (api : StackApi σ) (header key : Nat)
    (errorCode : ThreadError) (s : NcpBase σ) (hh : Q header) (hs : Q s.mQueuedGetHeader) :
    Q (replyToSet api header key errorCode s).mQueuedGetHeader := by
  unfold replyToSet
  split
  · exact HandleCommandPropertyGet_slot Q api header key s hh hs
  · exact SendLastStatus_slot Q _ _ s hs

theorem replyToStreamNet_slot (Q : Nat → Prop) (header : Nat) (errorCode : ThreadError)
    (s : NcpBase σ) (hs : Q s.mQueuedGetHeader) :
    Q (replyToStreamNet header errorCode s).mQueuedGetHeader := by
  unfold replyToStreamNet
  split
  · split
    · exact SendLastStatus_slot Q _ _ s hs
    · exact hs
  · exact SendLastStatus_slot Q _ _ s hs

theorem setNetState_slot (Q : Nat → Prop) (api : StackApi σ) (header key i : Nat)
    (s : NcpBase σ) (hh : Q header) (hs : Q s.mQueuedGetHeader) :
    Q (setNetState api header key i s).mQueuedGetHeader := by
  unfold setNetState
  simp only
  repeat' first
    | with_reducible apply slot_ite Q
    | with_reducible apply replyToSet_slot Q
    | with_reducible apply SendPropteryUpdate_slot Q
    | exact hh
    | exact hs
    | split

theorem setNetRole_slot (Q : Nat → Prop) (api : StackApi σ) (header key i : Nat)
    (s : NcpBase σ) (hh : Q header) (hs : Q s.mQueuedGetHeader) :
    Q (setNetRole api header key i s).mQueuedGetHeader := by
  unfold setNetRole
  repeat' first
    | with_reducible apply slot_ite Q
    | with_reducible apply replyToSet_slot Q
    | exact hh
    | exact hs

theorem setScanState_slot (Q : Nat → Prop) (api : StackApi σ) (header key i : Nat)
    (s : NcpBase σ) (hh : Q header) (hs : Q s.mQueuedGetHeader) :
    Q (setScanState api header key i s).mQueuedGetHeader := by
  unfold setScanState
  repeat' first
    | with_reducible apply slot_ite Q
    | with_reducible apply replyToSet_slot Q
    | exact hh
    | exact hs

theorem setStreamNet_slot (Q : Nat → Prop) (api : StackApi σ) (header : Nat)
    (value : List Nat) (s : NcpBase σ) (hs : Q s.mQueuedGetHeader) :
    Q (setStreamNet api header value s).mQueuedGetHeader := by
  unfold setStreamNet
  split
  · exact replyToStreamNet_slot Q _ _ _ hs
  · simp only
    split
    · exact replyToStreamNet_slot Q _ _ _ hs
    · exact replyToStreamNet_slot Q _ _ _ hs

theorem HandleCommandPropertySet_slot (Q : Nat → Prop) (api : StackApi σ) (header key : Nat)
    (value : List Nat) (s : NcpBase σ) (hh : Q header) (hs : Q s.mQueuedGetHeader) :
    Q (HandleCommandPropertySet api header key value s).mQueuedGetHeader := by
  unfold HandleCommandPropertySet
  simp only
  repeat' first
    | with_reducible apply slot_ite Q
    | with_reducible apply SendLastStatus_slot Q
    | with_reducible apply replyToSet_slot Q
    | with_reducible apply HandleCommandPropertyGet_slot Q
    | with_reducible apply setNetState_slot Q
    | with_reducible apply setNetRole_slot Q
    | with_reducible apply setScanState_slot Q
    | with_reducible apply setStreamNet_slot Q
    | exact hh
    | exact hs
    | split

theorem HandleCommand_slot (Q : Nat → Prop) (api : StackApi σ) (header command : Nat)
    (arg : List Nat) (s : NcpBase σ) (hQ : ∀ h : Nat, h.testBit 7 = true → Q h)
    (hs : Q s.mQueuedGetHeader) :
    Q (HandleCommand api header command arg s).mQueuedGetHeader := by
  unfold HandleCommand
  by_cases hf : SPINEL_HEADER_FLAG &&& header ≠ SPINEL_HEADER_FLAG
  · rw [if_pos hf]
    exact hs
  · rw [if_neg hf]
    have hh : Q header := hQ header ((flag_of_testBit header).1 (not_not.1 hf))
    unfold HandleCommandPropertyInsert HandleCommandPropertyRemove
    repeat' first
      | with_reducible apply slot_ite Q
      | with_reducible apply SendLastStatus_slot Q
      | with_reducible apply HandleCommandPropertyGet_slot Q
      | with_reducible apply HandleCommandPropertySet_slot Q
      | exact hh
      | exact hs

theorem HandleReceive_slot (Q : Nat → Prop) (api : StackApi σ) (buf : List Nat)
    (s : NcpBase σ) (hQ : ∀ h : Nat, h.testBit 7 = true → Q h)
    (hs : Q s.mQueuedGetHeader) :
    Q (HandleReceive api buf s).mQueuedGetHeader := by
  unfold HandleReceive
  split
  · exact HandleCommand_slot Q api _ _ _ s hQ hs
  · exact SendLastStatus_slot Q _ _ s hs

theorem HandleReceivedDatagram_slot (Q : Nat → Prop) (message : Message) (s : NcpBase σ)
    (hs : Q s.mQueuedGetHeader) :
    Q (HandleReceivedDatagram message s).mQueuedGetHeader := by
  unfold HandleReceivedDatagram
  split
  · rw [SendPropteryUpdateMessage_stream_net]
    exact hs
  · split
    · exact hs
    · exact hs

theorem HandleActiveScanResult_slot (Q : Nat → Prop) (result : Option otActiveScanResult)
    (s : NcpBase σ) (hs : Q s.mQueuedGetHeader) :
    Q (HandleActiveScanResult result s).mQueuedGetHeader := by
  unfold HandleActiveScanResult
  split
  · split
    · exact SendPropteryUpdate_slot Q _ _ _ _ _ s hs
    · exact SendPropteryUpdate_slot Q _ _ _ _ _ s hs
  · exact hs

theorem RunUpdateAddressesTask_slot (Q : Nat → Prop) (api : StackApi σ) (s : NcpBase σ)
    (hh : Q (SPINEL_HEADER_FLAG ||| SPINEL_HEADER_IID_0)) (hs : Q s.mQueuedGetHeader) :
    Q (RunUpdateAddressesTask api s).mQueuedGetHeader := by
  unfold RunUpdateAddressesTask
  split
  · exact HandleCommandPropertyGet_slot Q api _ _ _ hh
      (HandleCommandPropertyGet_slot Q api _ _ _ hh hs)
  · exact hs

theorem HandleSendDone_slot (api : StackApi σ) (s : NcpBase σ) :
    (HandleSendDone api s).mQueuedGetHeader = 0 := by
  unfold HandleSendDone
  simp only
  split
  · rfl
  · rename_i h
    exact not_not.1 h

theorem step_slotUnambiguous (api : StackApi σ) (s : NcpBase σ) (n : Notification)
    (hs : slotUnambiguous s) : slotUnambiguous (step api s n) := by
  have hQ : ∀ h : Nat, h.testBit 7 = true → (fun h : Nat => h = 0 ∨ h.testBit 7 = true) h :=
    fun h hh => Or.inr hh
  cases n with
  | Receive buf =>
    exact HandleReceive_slot (fun h : Nat => h = 0 ∨ h.testBit 7 = true) api buf s hQ hs
  | Command header command arg =>
    exact HandleCommand_slot (fun h : Nat => h = 0 ∨ h.testBit 7 = true) api header command
      arg s hQ hs
  | ReceivedDatagram message =>
    exact HandleReceivedDatagram_slot (fun h : Nat => h = 0 ∨ h.testBit 7 = true) message s hs
  | ActiveScanResult result =>
    exact HandleActiveScanResult_slot (fun h : Nat => h = 0 ∨ h.testBit 7 = true) result s hs
  | ActiveScanResult_Jump result =>
    simp only [step, HandleActiveScanResult_Jump]
    split
    · exact HandleActiveScanResult_slot (fun h : Nat => h = 0 ∨ h.testBit 7 = true) result s hs
    · exact hs
  | UpdateAddressesTask =>
    exact RunUpdateAddressesTask_slot (fun h : Nat => h = 0 ∨ h.testBit 7 = true) api s
      (Or.inr (by decide)) hs
  | SendDone => exact Or.inl (HandleSendDone_slot api s)

theorem run_slotUnambiguous (api : StackApi σ) (ns : List Notification) :
    ∀ s : NcpBase σ, slotUnambiguous s → slotUnambiguous (run api s ns) := by
  induction ns with
  | nil => intro s hs; exact hs
  | cons n ns ih =>
    intro s hs
    exact ih (step api s n) (step_slotUnambiguous api s n hs)

theorem step_slot (api : StackApi σ) (s : NcpBase σ) (n : Notification) :
    (step api s n).mQueuedGetHeader = s.mQueuedGetHeader ∨
      (step api s n).mQueuedGetHeader = 0 ∨
      (step api s n).mQueuedGetHeader.testBit 7 = true := by
  have hQ : ∀ h : Nat, h.testBit 7 = true →
      (fun h : Nat => h = s.mQueuedGetHeader ∨ h = 0 ∨ h.testBit 7 = true) h :=
    fun h hh => Or.inr (Or.inr hh)
  cases n with
  | Receive buf =>
    exact HandleReceive_slot
      (fun h : Nat => h = s.mQueuedGetHeader ∨ h = 0 ∨ h.testBit 7 = true) api buf s hQ
      (Or.inl rfl)
  | Command header command arg =>
    exact HandleCommand_slot
      (fun h : Nat => h = s.mQueuedGetHeader ∨ h = 0 ∨ h.testBit 7 = true) api header command
      arg s hQ (Or.inl rfl)
  | ReceivedDatagram message =>
    exact HandleReceivedDatagram_slot
      (fun h : Nat => h = s.mQueuedGetHeader ∨ h = 0 ∨ h.testBit 7 = true) message s
      (Or.inl rfl)
  | ActiveScanResult result =>
    exact HandleActiveScanResult_slot
      (fun h : Nat => h = s.mQueuedGetHeader ∨ h = 0 ∨ h.testBit 7 = true) result s
      (Or.inl rfl)
  | ActiveScanResult_Jump result =>
    simp only [step, HandleActiveScanResult_Jump]
    split
    · exact HandleActiveScanResult_slot
        (fun h : Nat => h = s.mQueuedGetHeader ∨ h = 0 ∨ h.testBit 7 = true) result s
        (Or.inl rfl)
    · exact Or.inl rfl
  | UpdateAddressesTask =>
    exact RunUpdateAddressesTask_slot
      (fun h : Nat => h = s.mQueuedGetHeader ∨ h = 0 ∨ h.testBit 7 = true) api s
      (Or.inr (Or.inr (by decide))) (Or.inl rfl)
  | SendDone => exact Or.inr (Or.inl (HandleSendDone_slot api s))

/-- C35: the Pending-Get Slot is unambiguous. A header with the valid-flag bit
set is not 0; the header that `RunUpdateAddressesTask` uses has the bit set,
and `HandleCommand` passes on only headers with the bit set. Hence every
notification leaves the slot header as it was, or 0, or a header with the bit
set, and in every state reachable from the initial one the slot header is 0
or has the bit set. A GET that is deferred into the empty slot under such a
header leaves the slot header nonzero (the request is seen as pending), and
every `HandleSendDone` leaves it 0 (nothing is pending any more). -/
theorem pending_get_slot_unambiguous (api : StackApi σ) (stack : σ) (capacity : Nat)
    (ns : List Notification) :
    slotUnambiguous (run api (NcpBase.init stack capacity) ns) ∧
    (∀ (s : NcpBase σ) (n : Notification),
      (step api s n).mQueuedGetHeader = s.mQueuedGetHeader ∨
        (step api s n).mQueuedGetHeader = 0 ∨
        (step api s n).mQueuedGetHeader.testBit 7 = true) ∧
    (∀ (s : NcpBase σ) (n : Notification), slotUnambiguous s →
      slotUnambiguous (step api s n)) ∧
    (∀ header : Nat, header.testBit 7 = true → header ≠ 0) ∧
    (SPINEL_HEADER_FLAG ||| SPINEL_HEADER_IID_0).testBit 7 = true ∧
    (∀ (header command : Nat) (arg : List Nat) (s : NcpBase σ),
      header.testBit 7 = false → HandleCommand api header command arg s = s) ∧
    (∀ (header key : Nat) (s : NcpBase σ), header.testBit 7 = true → s.mSending = true →
      s.mQueuedGetHeader = 0 →
      (HandleCommandPropertyGet api header key s).mQueuedGetHeader = header ∧
      (HandleCommandPropertyGet api header key s).mQueuedGetKey = key ∧
      (HandleCommandPropertyGet api header key s).mQueuedGetHeader ≠ 0) ∧
    (∀ s : NcpBase σ, (HandleSendDone api s).mQueuedGetHeader = 0) := by
  have hne : ∀ header : Nat, header.testBit 7 = true → header ≠ 0 := by
    intro header h h0
    rw [h0] at h
    simp at h
  refine ⟨run_slotUnambiguous api ns _ (Or.inl rfl), step_slot api,
    step_slotUnambiguous api, hne, by decide, fun header command arg s h => ?_,
    fun header key s hh hs h0 => ?_, HandleSendDone_slot api⟩
  · have hf : SPINEL_HEADER_FLAG &&& header ≠ SPINEL_HEADER_FLAG := by
      intro hc
      rw [(flag_of_testBit header).1 hc] at h
      exact Bool.noConfusion h
    unfold HandleCommand
    rw [if_pos hf]
  · have hr : HandleCommandPropertyGet api header key s =
        { s with mQueuedGetHeader := header, mQueuedGetKey := key } := by
      simp [HandleCommandPropertyGet, hs, h0]
    rw [hr]
    exact ⟨rfl, rfl, hne header hh⟩

theorem pending_get_slot_unambiguous_witness :
    (HandleCommandPropertyGet fixedStack 0x81 SPINEL_PROP_PHY_CHAN
        (busyEngine [] 0 0)).mQueuedGetHeader = 0x81 ∧
    (HandleCommandPropertyGet fixedStack 0x81 SPINEL_PROP_PHY_CHAN
        (busyEngine [] 0 0)).mQueuedGetKey = SPINEL_PROP_PHY_CHAN ∧
    (HandleCommandPropertyGet fixedStack 0x81 SPINEL_PROP_PHY_CHAN
        (busyEngine [] 0 0)).mQueuedGetHeader ≠ 0 :=
  (pending_get_slot_unambiguous fixedStack () 4 []).2.2.2.2.2.2.1 0x81 SPINEL_PROP_PHY_CHAN
    (busyEngine [] 0 0) (by decide) rfl rfl

theorem or_bit_of_even (e b : Nat) (he : e % 2 = 0) (hb : b ≤ 1) : e ||| b = e + b := by
  interval_cases b
  · simp
  · obtain ⟨k, rfl⟩ : ∃ k, e = 2 * k := ⟨e / 2, by omega⟩
    have h1 : 2 * k = Nat.bit false k := by simp [Nat.bit_val]
    have h2 : (1 : Nat) = Nat.bit true 0 := by simp [Nat.bit_val]
    have h3 : 2 * k + 1 = Nat.bit true k := by simp [Nat.bit_val]
    rw [h3]
    conv_lhs => rw [h1, h2]
    rw [Nat.lor_bit]
    simp

theorem randomBit_le (hw : Cc2538) (hmask : hw.RFCORE_XREG_RFRND_IRND = 1) (k : Nat) :
    randomBit hw k ≤ 1 := by
  unfold randomBit
  rw [hmask, Nat.and_one_is_mod]
  omega

theorem seedRound_succ (hw : Cc2538) (index reads seed : Nat) :
    seedRound hw (index + 1) reads seed =
      seedRound hw index (reads + 1) ((((seed ||| randomBit hw reads) % 65536) * 2) % 65536) := by
  rw [seedRound, Nat.shiftLeft_eq]
  rfl

theorem seedRound_lt (hw : Cc2538) (index : Nat) :
    ∀ reads seed, seedRound hw (index + 1) reads seed < 65536 := by
  induction index with
  | zero =>
    intro reads seed
    rw [seedRound_succ, seedRound]
    omega
  | succ n ih =>
    intro reads seed
    rw [seedRound_succ]
    exact ih _ _

theorem seedRound_modEq (hw : Cc2538) (hmask : hw.RFCORE_XREG_RFRND_IRND = 1) (index : Nat) :
    ∀ reads seed, seed % 2 = 0 →
      seedRound hw index reads seed ≡ seed * 2 ^ index + shiftedBits hw index reads
        [MOD 65536] := by
  induction index with
  | zero =>
    intro reads seed _
    simp [seedRound, shiftedBits, Nat.ModEq]
  | succ n ih =>
    intro reads seed he
    have hb := randomBit_le hw hmask reads
    rw [seedRound_succ, or_bit_of_even seed _ he hb]
    have hstep : ((seed + randomBit hw reads) % 65536 * 2) % 65536 % 2 = 0 := by omega
    have h1 := ih (reads + 1) (((seed + randomBit hw reads) % 65536 * 2) % 65536) hstep
    have h2 : ((seed + randomBit hw reads) % 65536 * 2) % 65536 ≡
        (seed + randomBit hw reads) * 2 [MOD 65536] := by
      unfold Nat.ModEq
      omega
    have h3 := (h2.mul_right (2 ^ n)).add_right (shiftedBits hw n (reads + 1))
    refine h1.trans (h3.trans ?_)
    rw [shiftedBits]
    have : (seed + randomBit hw reads) * 2 * 2 ^ n + shiftedBits hw n (reads + 1) =
        seed * 2 ^ (n + 1) + (randomBit hw reads * 2 ^ (n + 1) + shiftedBits hw n (reads + 1)) := by
      ring
    rw [this]

theorem shiftedBits_le (hw : Cc2538) (hmask : hw.RFCORE_XREG_RFRND_IRND = 1) (count : Nat) :
    ∀ reads, shiftedBits hw count reads + 2 ≤ 2 ^ (count + 1) := by
  induction count with
  | zero => intro reads; simp [shiftedBits]
  | succ n ih =>
    intro reads
    have hb := randomBit_le hw hmask reads
    have h := ih (reads + 1)
    rw [shiftedBits]
    have hp : 2 ^ (n + 1 + 1) = 2 ^ (n + 1) + 2 ^ (n + 1) := by ring
    have hm : randomBit hw reads * 2 ^ (n + 1) ≤ 2 ^ (n + 1) := by
      calc randomBit hw reads * 2 ^ (n + 1) ≤ 1 * 2 ^ (n + 1) := Nat.mul_le_mul_right _ hb
        _ = 2 ^ (n + 1) := one_mul _
    omega

theorem shiftedBits_eq_zero (hw : Cc2538) (count : Nat) :
    ∀ reads, shiftedBits hw count reads = 0 ↔ ∀ i, i < count → randomBit hw (reads + i) = 0 := by
  induction count with
  | zero => intro reads; simp [shiftedBits]
  | succ n ih =>
    intro reads
    rw [shiftedBits, Nat.add_eq_zero_iff, ih (reads + 1)]
    have hpos : 0 < 2 ^ (n + 1) := Nat.two_pow_pos (n + 1)
    constructor
    · rintro ⟨h1, h2⟩ i hi
      cases i with
      | zero =>
        rcases Nat.mul_eq_zero.1 h1 with h | h
        · exact h
        · omega
      | succ j =>
        have := h2 j (by omega)
        rw [show reads + 1 + j = reads + (j + 1) from by omega] at this
        exact this
    · intro h
      refine ⟨?_, fun i hi => ?_⟩
      · have := h 0 (by omega)
        rw [Nat.add_zero] at this
        rw [this, Nat.zero_mul]
      · have := h (i + 1) (by omega)
        rw [show reads + (i + 1) = reads + 1 + i from by omega] at this
        exact this

theorem seedRound_sixteen (hw : Cc2538) (hmask : hw.RFCORE_XREG_RFRND_IRND = 1)
    (reads seed : Nat) :
    seedRound hw 16 reads seed = shiftedBits hw 15 (reads + 1) := by
  have hlt := seedRound_lt hw 15 reads seed
  have hS := shiftedBits_le hw hmask 15 (reads + 1)
  rw [seedRound_succ] at hlt ⊢
  have he : (seed ||| randomBit hw reads) % 65536 * 2 % 65536 % 2 = 0 := by omega
  have h := seedRound_modEq hw hmask 15 (reads + 1) _ he
  generalize (seed ||| randomBit hw reads) % 65536 * 2 % 65536 = e1 at hlt he h ⊢
  unfold Nat.ModEq at h
  rw [show (2 : Nat) ^ 15 = 32768 from by norm_num] at h
  rw [show (2 : Nat) ^ (15 + 1) = 65536 from by norm_num] at hS
  omega

theorem seedRound_ne_zero_iff (hw : Cc2538) (hmask : hw.RFCORE_XREG_RFRND_IRND = 1)
    (reads seed : Nat) :
    seedRound hw 16 reads seed ≠ 0 ↔
      ∃ i, 1 ≤ i ∧ i ≤ 15 ∧ randomBit hw (reads + i) = 1 := by
  rw [seedRound_sixteen hw hmask, Ne, shiftedBits_eq_zero]
  constructor
  · intro h
    by_contra hne
    apply h
    intro i hi
    have hb := randomBit_le hw hmask (reads + 1 + i)
    have : randomBit hw (reads + 1 + i) ≠ 1 := by
      intro h1
      apply hne
      exact ⟨i + 1, by omega, by omega, by
        rw [show reads + (i + 1) = reads + 1 + i from by omega]
        exact h1⟩
    omega
  · rintro ⟨i, h1, h2, h3⟩ hall
    have := hall (i - 1) (by omega)
    rw [show reads + 1 + (i - 1) = reads + i from by omega, h3] at this
    exact absurd this (by decide)

/-- C39: the seed of `generateRandom`, for a random data register whose random
bit is bit 0. For every sequence of register reads and every seed the pass
starts from, after the sixteen iterations of the inner loop the seed is the
number spelled by the last fifteen bits read, followed by a zero: its least
significant bit is 0 and neither the first bit read nor the old seed is left
in it. It is never 0x8003, and it is nonzero exactly when at least one of the
last fifteen bits read was 1; so a pass of the outer loop that starts from
seed 0 ends the loop exactly in that case, and otherwise leaves seed 0 for
the next pass. -/
theorem generateRandom_seed (hw : Cc2538) (hmask : hw.RFCORE_XREG_RFRND_IRND = 1)
    (reads seed : Nat) :
    seedRound hw 16 reads seed % 2 = 0 ∧
    seedRound hw 16 reads seed = shiftedBits hw 15 (reads + 1) ∧
    seedRound hw 16 reads seed ≠ 0x8003 ∧
    (seedRound hw 16 reads seed ≠ 0 ↔
      ∃ i, 1 ≤ i ∧ i ≤ 15 ∧ randomBit hw (reads + i) = 1) ∧
    (∀ fuel, (∃ i, 1 ≤ i ∧ i ≤ 15 ∧ randomBit hw (reads + i) = 1) →
      seedLoop hw (fuel + 2) reads 0 = some (seedRound hw 16 reads 0, reads + 16)) ∧
    (∀ fuel, (¬ ∃ i, 1 ≤ i ∧ i ≤ 15 ∧ randomBit hw (reads + i) = 1) →
      seedLoop hw (fuel + 2) reads 0 = seedLoop hw (fuel + 1) (reads + 16) 0) := by
  have heven : seedRound hw 16 reads seed % 2 = 0 := seedRound_even hw 15 reads seed
  refine ⟨heven, seedRound_sixteen hw hmask reads seed, seedRound_ne_0x8003 hw reads seed,
    seedRound_ne_zero_iff hw hmask reads seed, fun fuel h => ?_, fun fuel h => ?_⟩
  · have hne := (seedRound_ne_zero_iff hw hmask reads 0).2 h
    have h2 := seedRound_ne_0x8003 hw reads 0
    rw [seedLoop, if_pos (Or.inl rfl), seedLoop, if_neg (by simp [hne, h2])]
  · have hz : seedRound hw 16 reads 0 = 0 := by
      by_contra hne
      exact h ((seedRound_ne_zero_iff hw hmask reads 0).1 hne)
    rw [seedLoop, if_pos (Or.inl rfl), hz]

theorem generateRandom_seed_witness :
    seedRound steadyCc2538 16 0 0 = 0xFFFE ∧
    seedRound steadyCc2538 16 0 0 = shiftedBits steadyCc2538 15 1 ∧
    seedLoop steadyCc2538 2 0 0 = some (0xFFFE, 16) ∧
    seedLoop silentCc2538 2 0 0 = seedLoop silentCc2538 1 16 0 :=
  ⟨by decide, (generateRandom_seed steadyCc2538 rfl 0 0).2.1,
    (by decide : seedRound steadyCc2538 16 0 0 = 0xFFFE) ▸
      (generateRandom_seed steadyCc2538 rfl 0 0).2.2.2.2.1 0 ⟨1, by decide, by decide, by decide⟩,
    (generateRandom_seed silentCc2538 rfl 0 0).2.2.2.2.2 0 (by
      rintro ⟨i, _, _, h⟩
      simp [randomBit, silentCc2538, steadyCc2538] at h)⟩

/-! ## The three waits of `generateRandom` -/

theorem busyWait_mono (again : Nat → Bool) (fuel : Nat) :
    ∀ reads result, busyWait again fuel reads = some result →
      ∀ more, busyWait again (fuel + more) reads = some result := by
  induction fuel with
  | zero => intro reads result h; simp [busyWait] at h
  | succ n ih =>
    intro reads result h more
    rw [show n + 1 + more = (n + more) + 1 from by omega]
    rw [busyWait] at h ⊢
    by_cases hc : again reads = true
    · rw [if_pos hc] at h ⊢
      exact ih _ _ h more
    · rw [if_neg hc] at h ⊢
      exact h

theorem busyWait_returns (again : Nat → Bool) (j : Nat) :
    ∀ reads, again (reads + j) = false → ∃ fuel result, busyWait again fuel reads = some result := by
  induction j with
  | zero =>
    intro reads h
    refine ⟨1, reads + 1, ?_⟩
    simp only [Nat.add_zero] at h
    simp [busyWait, h]
  | succ j ih =>
    intro reads h
    obtain ⟨fuel, result, hr⟩ := ih (reads + 1) (by
      rw [show reads + 1 + j = reads + (j + 1) from by omega]
      exact h)
    by_cases hc : again reads = true
    · refine ⟨fuel + 1, result, ?_⟩
      rw [busyWait, if_pos hc]
      exact hr
    · refine ⟨1, reads + 1, ?_⟩
      simp [busyWait, hc]

theorem busyWait_stuck (again : Nat → Bool) (hstuck : ∀ k, again k = true) (fuel : Nat) :
    ∀ reads, busyWait again fuel reads = none := by
  induction fuel with
  | zero => intro reads; rfl
  | succ n ih =>
    intro reads
    rw [busyWait, if_pos (hstuck reads)]
    exact ih _

theorem seedLoop_returns (hw : Cc2538) (k : Nat) :
    ∀ reads, seedRound hw 16 (reads + 16 * k) 0 ≠ 0 →
      ∃ fuel result, seedLoop hw fuel reads 0 = some result := by
  induction k with
  | zero =>
    intro reads h
    refine ⟨2, (seedRound hw 16 reads 0, reads + 16), ?_⟩
    have h2 := seedRound_ne_0x8003 hw reads 0
    simp only [Nat.mul_zero, Nat.add_zero] at h
    simp [seedLoop, h, h2]
  | succ k ih =>
    intro reads h
    by_cases h0 : seedRound hw 16 reads 0 = 0
    · obtain ⟨fuel, result, hr⟩ := ih (reads + 16) (by
        rw [show reads + 16 + 16 * k = reads + 16 * (k + 1) from by omega]
        exact h)
      cases fuel with
      | zero => simp [seedLoop] at hr
      | succ fuel =>
        refine ⟨fuel + 2, result, ?_⟩
        rw [seedLoop, if_pos (Or.inl rfl), h0]
        exact hr
    · refine ⟨2, (seedRound hw 16 reads 0, reads + 16), ?_⟩
      have h2 := seedRound_ne_0x8003 hw reads 0
      simp [seedLoop, h0, h2]

theorem seedLoop_silent (hw : Cc2538) (hsilent : ∀ k, randomBit hw k = 0) (fuel : Nat) :
    ∀ reads, seedLoop hw fuel reads 0 = none := by
  have hround : ∀ index reads, seedRound hw index reads 0 = 0 := by
    intro index
    induction index with
    | zero => intro reads; rfl
    | succ n ih =>
      intro reads
      have hb : hw.RFCORE_XREG_RFRND reads &&& hw.RFCORE_XREG_RFRND_IRND = 0 := hsilent reads
      rw [seedRound, hb]
      exact ih _
  induction fuel with
  | zero => intro reads; rfl
  | succ n ih =>
    intro reads
    rw [seedLoop, if_pos (Or.inl rfl), hround]
    exact ih _

theorem generateRandom_returns (hw : Cc2538) (platform : Cc2538Platform)
    (hclock : ∀ k, ∃ j, platform.SYS_CTRL_RCGCRFC (k + j) = platform.SYS_CTRL_RCGCRFC_RFC0)
    (hrssi : ∀ k, ∃ j,
      (if platform.RFCORE_XREG_RSSISTAT (k + j) = 0 then 1 else 0) &&&
        platform.RFCORE_XREG_RSSISTAT_RSSI_VALID = 0)
    (hmask : hw.RFCORE_XREG_RFRND_IRND = 1)
    (hbits : ∀ k, ∃ p i, 1 ≤ i ∧ i ≤ 15 ∧ randomBit hw (k + 16 * p + i) = 1)
    (st : Cc2538State) :
    ∃ fuel value st', ∀ more, generateRandom hw platform (fuel + more) st = some (value, st') := by
  obtain ⟨j1, hj1⟩ := hclock st.RCGCRFC_reads
  obtain ⟨f1, r1, h1⟩ := busyWait_returns (RCGCRFC_pending platform) j1 st.RCGCRFC_reads
    (by simp [RCGCRFC_pending, hj1])
  obtain ⟨j2, hj2⟩ := hrssi st.RSSISTAT_reads
  obtain ⟨f2, r2, h2⟩ := busyWait_returns (RSSISTAT_pending platform) j2 st.RSSISTAT_reads
    (by simp [RSSISTAT_pending, hj2])
  obtain ⟨p, i, hi1, hi2, hb⟩ := hbits st.RFRND_reads
  obtain ⟨f3, ⟨seed, reads⟩, h3⟩ := seedLoop_returns hw p st.RFRND_reads
    ((seedRound_ne_zero_iff hw hmask _ 0).2 ⟨i, hi1, hi2, hb⟩)
  have e1 : ∀ more, busyWait (RCGCRFC_pending platform) (f1 + f2 + f3 + more) st.RCGCRFC_reads =
      some r1 := fun more => by
    rw [show f1 + f2 + f3 + more = f1 + (f2 + f3 + more) from by omega]
    exact busyWait_mono _ _ _ _ h1 _
  have e2 : ∀ more, busyWait (RSSISTAT_pending platform) (f1 + f2 + f3 + more) st.RSSISTAT_reads =
      some r2 := fun more => by
    rw [show f1 + f2 + f3 + more = f2 + (f1 + f3 + more) from by omega]
    exact busyWait_mono _ _ _ _ h2 _
  have e3 : ∀ more, seedLoop hw (f1 + f2 + f3 + more) st.RFRND_reads 0 = some (seed, reads) :=
    fun more => by
      rw [show f1 + f2 + f3 + more = f3 + (f1 + f2 + more) from by omega]
      exact seedLoop_mono _ _ _ _ _ h3 _
  have hsame : ∀ more, generateRandom hw platform (f1 + f2 + f3 + more) st =
      generateRandom hw platform (f1 + f2 + f3 + 0) st := fun more => by
    simp only [generateRandom, e1, e2, e3]
  have hsome : generateRandom hw platform (f1 + f2 + f3 + 0) st ≠ none := by
    simp only [generateRandom, e1, e2, e3]
    exact Option.some_ne_none _
  cases hr : generateRandom hw platform (f1 + f2 + f3 + 0) st with
  | none => exact absurd hr hsome
  | some r => exact ⟨f1 + f2 + f3, r.1, r.2, fun more => by rw [hsame more, hr]⟩

theorem generateRandom_lt (hw : Cc2538) (platform : Cc2538Platform) (fuel : Nat)
    (st st' : Cc2538State) (value : Nat)
    (h : generateRandom hw platform fuel st = some (value, st')) : value < 65536 := by
  unfold generateRandom at h
  split at h
  · exact absurd h (by simp)
  · split at h
    · exact absurd h (by simp)
    · split at h
      · exact absurd h (by simp)
      · simp only [Option.some.injEq, Prod.mk.injEq] at h
        rw [← h.1]
        exact Nat.mod_lt _ (by decide)

theorem otPlatSecureRandomGet_loop_returns (hw : Cc2538) (platform : Cc2538Platform)
    (hclock : ∀ k, ∃ j, platform.SYS_CTRL_RCGCRFC (k + j) = platform.SYS_CTRL_RCGCRFC_RFC0)
    (hrssi : ∀ k, ∃ j,
      (if platform.RFCORE_XREG_RSSISTAT (k + j) = 0 then 1 else 0) &&&
        platform.RFCORE_XREG_RSSISTAT_RSSI_VALID = 0)
    (hmask : hw.RFCORE_XREG_RFRND_IRND = 1)
    (hbits : ∀ k, ∃ p i, 1 ≤ i ∧ i ≤ 15 ∧ randomBit hw (k + 16 * p + i) = 1)
    (count : Nat) :
    ∀ (length : Nat) (aOutput : Nat → Nat) (st : Cc2538State),
      ∃ fuel output st',
        (∀ more, otPlatSecureRandomGet_loop hw platform (fuel + more) count length aOutput st =
          some (output, st')) ∧
        (∀ offset, offset < length ∨ length + count ≤ offset → output offset = aOutput offset) ∧
        (∀ offset, length ≤ offset → offset < length + count →
          ∃ fuel' at_st value after,
            generateRandom hw platform fuel' at_st = some (value, after) ∧
            output offset = value % 256) := by
  induction count with
  | zero =>
    intro length aOutput st
    exact ⟨0, aOutput, st, fun _ => rfl, fun _ _ => rfl, fun offset h1 h2 => by omega⟩
  | succ n ih =>
    intro length aOutput st
    obtain ⟨fuel1, value, st1, hg⟩ := generateRandom_returns hw platform hclock hrssi hmask hbits st
    obtain ⟨fuel2, output, st2, hl, hout, hin⟩ := ih (length + 1)
      (fun offset => if offset = length then value % 256 else aOutput offset) st1
    refine ⟨fuel1 + fuel2, output, st2, fun more => ?_, fun offset h => ?_,
      fun offset h1 h2 => ?_⟩
    · rw [otPlatSecureRandomGet_loop]
      rw [show fuel1 + fuel2 + more = fuel1 + (fuel2 + more) from by omega, hg]
      simp only
      rw [show fuel1 + (fuel2 + more) = fuel2 + (fuel1 + more) from by omega]
      exact hl _
    · rw [hout offset (by omega)]
      have : offset ≠ length := by omega
      simp [this]
    · by_cases he : offset = length
      · refine ⟨fuel1, st, value, st1, by simpa using hg 0, ?_⟩
        rw [hout offset (by omega)]
        simp [he]
      · exact hin offset (by omega) (by omega)

theorem otPlatSecureRandomGet_loop_stuck (hw : Cc2538) (platform : Cc2538Platform)
    (hstuck : ∀ fuel st, generateRandom hw platform fuel st = none)
    (fuel count length : Nat) (aOutput : Nat → Nat) (st : Cc2538State) :
    otPlatSecureRandomGet_loop hw platform fuel (count + 1) length aOutput st = none := by
  rw [otPlatSecureRandomGet_loop, hstuck]

/-- The values that `generateRandom` and `otPlatSecureRandomGet` deliver on a
random data register that always reads 1, with the radio enabled on channel
15: the seed is 0xFFFE, and the radio is stopped before and started again
after the measurement. -/
theorem generateRandom_steady :
    generateRandom steadyCc2538 readyPlatform 2 Cc2538State.reset =
      some (0xFFFE,
        { RCGCRFC_reads := 1, RSSISTAT_reads := 1, RFRND_reads := 16,
          log :=
            [Cc2538Event.otPlatRadioSleep, Cc2538Event.otPlatRadioDisable,
              Cc2538Event.ADCCON1_clear_RCTRL, Cc2538Event.RCGCRFC_write_RFC0,
              Cc2538Event.FRMCTRL0_write_INFINITY_RX, Cc2538Event.RFST_write_INSTR_RXON,
              Cc2538Event.SOC_ADC_RNDL_write 0xFF, Cc2538Event.SOC_ADC_RNDL_write 0xFE,
              Cc2538Event.RFST_write_INSTR_RFOFF, Cc2538Event.ADCCON1_set_RCTRL0,
              Cc2538Event.cc2538RadioInit, Cc2538Event.otPlatRadioEnable,
              Cc2538Event.otPlatRadioReceive 15] }) ∧
    (otPlatSecureRandomGet steadyCc2538 readyPlatform 2 2 (some fun _ => 0xAA) (some 0)
        Cc2538State.reset).map
      (fun r => (r.error, r.aOutput.map (fun out => [out 0, out 1, out 2]), r.aOutputLength,
        r.platform.RFRND_reads)) =
      some (kThreadError_None, some [0xFE, 0xFE, 0xAA], some 2, 32) := by
  constructor
  · decide
  · decide

theorem generateRandom_unclocked (hw : Cc2538) (platform : Cc2538Platform)
    (hstuck : ∀ k, platform.SYS_CTRL_RCGCRFC k ≠ platform.SYS_CTRL_RCGCRFC_RFC0)
    (fuel : Nat) (st : Cc2538State) : generateRandom hw platform fuel st = none := by
  have h := busyWait_stuck (RCGCRFC_pending platform)
    (fun k => by simp [RCGCRFC_pending, hstuck k]) fuel st.RCGCRFC_reads
  simp only [generateRandom, h]

theorem generateRandom_deaf (hw : Cc2538) (platform : Cc2538Platform)
    (hstuck : ∀ k, (if platform.RFCORE_XREG_RSSISTAT k = 0 then 1 else 0) &&&
      platform.RFCORE_XREG_RSSISTAT_RSSI_VALID ≠ 0)
    (fuel : Nat) (st : Cc2538State) : generateRandom hw platform fuel st = none := by
  have h := busyWait_stuck (RSSISTAT_pending platform)
    (fun k => by simp [RSSISTAT_pending, hstuck k]) fuel st.RSSISTAT_reads
  simp only [generateRandom, h]
  split <;> rfl

theorem generateRandom_silent (hw : Cc2538) (platform : Cc2538Platform)
    (hsilent : ∀ k, randomBit hw k = 0)
    (fuel : Nat) (st : Cc2538State) : generateRandom hw platform fuel st = none := by
  have h := seedLoop_silent hw hsilent fuel st.RFRND_reads
  simp only [generateRandom, h]
  split
  · rfl
  · split <;> rfl

/-- C29, as stated, fails: with both pointers valid and `n = 1` the call does
not return on a platform whose random data register reads 0 for ever (no
amount of fuel yields a result), and neither on one whose radio clock never
reads back as requested, nor on one whose RSSI status register reads 0 for
ever. On these platforms nothing is returned and `*outLen` is never set. -/
theorem otPlatSecureRandomGet_never_returns :
    (∀ fuel, otPlatSecureRandomGet silentCc2538 readyPlatform fuel 1 (some fun _ => 0) (some 0)
      Cc2538State.reset = none) ∧
    (∀ fuel, otPlatSecureRandomGet steadyCc2538 unclockedPlatform fuel 1 (some fun _ => 0)
      (some 0) Cc2538State.reset = none) ∧
    (∀ fuel, otPlatSecureRandomGet steadyCc2538 deafPlatform fuel 1 (some fun _ => 0) (some 0)
      Cc2538State.reset = none) := by
  refine ⟨fun fuel => ?_, fun fuel => ?_, fun fuel => ?_⟩
  · have h := otPlatSecureRandomGet_loop_stuck silentCc2538 readyPlatform
      (generateRandom_silent silentCc2538 readyPlatform
        (fun k => by simp [randomBit, silentCc2538, steadyCc2538]))
      fuel 0 0 (fun _ => 0) Cc2538State.reset
    simp only [otPlatSecureRandomGet]
    rw [show 1 % 65536 = 0 + 1 from rfl, h]
  · have h := otPlatSecureRandomGet_loop_stuck steadyCc2538 unclockedPlatform
      (generateRandom_unclocked steadyCc2538 unclockedPlatform
        (fun k => by simp [unclockedPlatform, readyPlatform]))
      fuel 0 0 (fun _ => 0) Cc2538State.reset
    simp only [otPlatSecureRandomGet]
    rw [show 1 % 65536 = 0 + 1 from rfl, h]
  · have h := otPlatSecureRandomGet_loop_stuck steadyCc2538 deafPlatform
      (generateRandom_deaf steadyCc2538 deafPlatform
        (fun k => by simp [deafPlatform, readyPlatform]))
      fuel 0 0 (fun _ => 0) Cc2538State.reset
    simp only [otPlatSecureRandomGet]
    rw [show 1 % 65536 = 0 + 1 from rfl, h]

/-- C29, amended: `otPlatSecureRandomGet(n, out, outLen)`. If `out` or
`outLen` is null the call returns `kThreadError_InvalidArgs`, leaves both
buffers as they were and does not touch the platform, whatever the registers
read. If both pointers are valid and `n` is 0 the call returns
`kThreadError_None` with `*outLen = 0`, `out` unchanged and the platform
untouched, again whatever the registers read. If both pointers are valid, for
every `n` in 0..65535 and every platform on which each wait of
`generateRandom` ends (from every point on, the radio clock register reads
back `SYS_CTRL_RCGCRFC_RFC0` at some later read, the RSSI status register
ends its wait at some later read, and some later pass of sixteen reads of the
random data register has a 1 among its last fifteen random bits, the random
bit being bit 0), the call returns (enough fuel, and any more, gives the
result) with `kThreadError_None`, `*outLen = n`, each of `out[0..n-1]` holding
the low octet of a value returned by `generateRandom`, and every octet of
`out` from offset `n` on unchanged. -/
theorem otPlatSecureRandomGet_live (hw : Cc2538) (platform : Cc2538Platform)
    (aInputLength : Nat) (st : Cc2538State)
    (aOutput : Option (Nat → Nat)) (aOutputLength : Option Nat) :
    (aOutput = none ∨ aOutputLength = none →
      ∀ fuel, otPlatSecureRandomGet hw platform fuel aInputLength aOutput aOutputLength st =
        some ⟨kThreadError_InvalidArgs, aOutput, aOutputLength, st⟩) ∧
    (∀ output len, aOutput = some output → aOutputLength = some len → aInputLength = 0 →
      ∀ fuel, otPlatSecureRandomGet hw platform fuel aInputLength aOutput aOutputLength st =
        some ⟨kThreadError_None, some output, some 0, st⟩) ∧
    (∀ output len, aOutput = some output → aOutputLength = some len →
      aInputLength < 65536 →
      (∀ k, ∃ j, platform.SYS_CTRL_RCGCRFC (k + j) = platform.SYS_CTRL_RCGCRFC_RFC0) →
      (∀ k, ∃ j,
        (if platform.RFCORE_XREG_RSSISTAT (k + j) = 0 then 1 else 0) &&&
          platform.RFCORE_XREG_RSSISTAT_RSSI_VALID = 0) →
      hw.RFCORE_XREG_RFRND_IRND = 1 →
      (∀ k, ∃ p i, 1 ≤ i ∧ i ≤ 15 ∧ randomBit hw (k + 16 * p + i) = 1) →
      ∃ fuel written st',
        (∀ more, otPlatSecureRandomGet hw platform (fuel + more) aInputLength aOutput
            aOutputLength st =
          some ⟨kThreadError_None, some written, some aInputLength, st'⟩) ∧
        (∀ offset, aInputLength ≤ offset → written offset = output offset) ∧
        (∀ offset, offset < aInputLength →
          ∃ fuel' at_st value after,
            generateRandom hw platform fuel' at_st = some (value, after) ∧
            value < 65536 ∧ written offset = value % 256)) := by
  refine ⟨fun h fuel => ?_, fun output len ho hl hn fuel => ?_,
    fun output len ho hl hn hclock hrssi hmask hbits => ?_⟩
  · rcases h with h | h
    · subst h
      rfl
    · subst h
      cases aOutput <;> rfl
  · subst ho hl hn
    rfl
  · subst ho hl
    obtain ⟨fuel, written, st', hloop, hout, hin⟩ :=
      otPlatSecureRandomGet_loop_returns hw platform hclock hrssi hmask hbits aInputLength 0
        output st
    have hm : aInputLength % 65536 = aInputLength := Nat.mod_eq_of_lt hn
    refine ⟨fuel, written, st', fun more => ?_, fun offset h => hout offset (by omega),
      fun offset h => ?_⟩
    · simp only [otPlatSecureRandomGet, hm, hloop more]
    · obtain ⟨fuel', at_st, value, after, hg, hw'⟩ := hin offset (by omega) (by omega)
      exact ⟨fuel', at_st, value, after, hg, generateRandom_lt _ _ _ _ _ _ hg, hw'⟩

theorem otPlatSecureRandomGet_live_witness :
    (∀ fuel, otPlatSecureRandomGet silentCc2538 deafPlatform fuel 2 none (some 0)
        Cc2538State.reset =
      some ⟨kThreadError_InvalidArgs, none, some 0, Cc2538State.reset⟩) ∧
    (∀ fuel, otPlatSecureRandomGet silentCc2538 deafPlatform fuel 0 (some fun _ => 0xAA) (some 7)
        Cc2538State.reset =
      some ⟨kThreadError_None, some fun _ => 0xAA, some 0, Cc2538State.reset⟩) ∧
    ∃ fuel written st',
      (∀ more, otPlatSecureRandomGet steadyCc2538 readyPlatform (fuel + more) 2
          (some fun _ => 0xAA) (some 0) Cc2538State.reset =
        some ⟨kThreadError_None, some written, some 2, st'⟩) ∧
      (∀ offset, 2 ≤ offset → written offset = 0xAA) ∧
      (∀ offset, offset < 2 →
        ∃ fuel' at_st value after,
          generateRandom steadyCc2538 readyPlatform fuel' at_st = some (value, after) ∧
          value < 65536 ∧ written offset = value % 256) :=
  ⟨(otPlatSecureRandomGet_live silentCc2538 deafPlatform 2 Cc2538State.reset none (some 0)).1
      (Or.inl rfl),
    (otPlatSecureRandomGet_live silentCc2538 deafPlatform 0 Cc2538State.reset
      (some fun _ => 0xAA) (some 7)).2.1 (fun _ => 0xAA) 7 rfl rfl rfl,
    (otPlatSecureRandomGet_live steadyCc2538 readyPlatform 2 Cc2538State.reset
      (some fun _ => 0xAA) (some 0)).2.2 (fun _ => 0xAA) 0 rfl rfl (by decide)
      (fun _ => ⟨0, rfl⟩) (fun _ => ⟨0, by simp [readyPlatform]⟩) rfl
      (fun _ => ⟨0, 1, by decide, by decide, by simp [randomBit, steadyCc2538]⟩)⟩

/-! ## Every getter replies -/

theorem repliesTo_call (header key : Nat) (s t : NcpBase σ) (c : StackCall)
    (h : repliesTo header key (s.call c) t) : repliesTo header key s t := by
  obtain ⟨evs, prop, value, h1, h2, h3, h4⟩ := h
  refine ⟨Event.Stack c :: evs, prop, value, ?_, ?_, h3, h4⟩
  · simp [h1, NcpBase.call]
  · simpa [sentFrames] using h2

theorem repliesTo_ite (header key : Nat) (s a b : NcpBase σ) (c : Prop) [Decidable c]
    (ha : c → repliesTo header key s a) (hb : ¬ c → repliesTo header key s b) :
    repliesTo header key s (if c then a else b) := by
  split
  · exact ha ‹_›
  · exact hb ‹_›

theorem SendPropteryUpdate_repliesTo (header key : Nat) (fmt : String)
    (args : List spinel_arg) (s : NcpBase σ) (hk : key < 128)
    (hfit : 0 ≤ (spinel_datatype_pack 253 fmt args).len ∧
      (spinel_datatype_pack 253 fmt args).len ≤ 253) :
    repliesTo header key s
      (SendPropteryUpdate header SPINEL_CMD_PROP_VALUE_IS key fmt args s) := by
  rw [SendPropteryUpdate_sent header SPINEL_CMD_PROP_VALUE_IS key fmt args s (by decide) hk
    hfit.1 hfit.2]
  exact ⟨[Event.Send ([header % 256, SPINEL_CMD_PROP_VALUE_IS, key] ++
      (spinel_datatype_pack 253 fmt args).bytes)], key, (spinel_datatype_pack 253 fmt args).bytes,
    rfl, by simp [sentFrames], Or.inl rfl, rfl⟩

theorem SendLastStatus_repliesTo (header key status : Nat) (s : NcpBase σ)
    (hs : status < 128) : repliesTo header key s (SendLastStatus header status s) := by
  rw [SendLastStatus_small header status s hs]
  exact ⟨[Event.Send [header % 256, SPINEL_CMD_PROP_VALUE_IS, SPINEL_PROP_LAST_STATUS, status]],
    SPINEL_PROP_LAST_STATUS, [status], rfl, by simp [sentFrames], Or.inr rfl, rfl⟩

theorem HandleCommandPropertyGetAddressList_repliesTo (api : StackApi σ) (header : Nat)
    (s : NcpBase σ) :
    repliesTo header SPINEL_PROP_IPV6_ADDRESS_TABLE s
      (HandleCommandPropertyGetAddressList api header s) := by
  rw [HandleCommandPropertyGetAddressList_sent]
  exact ⟨[Event.Stack StackCall.otGetUnicastAddresses,
      Event.Send ([header % 256, SPINEL_CMD_PROP_VALUE_IS, SPINEL_PROP_IPV6_ADDRESS_TABLE] ++
        (((api.otGetUnicastAddresses s.stack).take 9).map packedNetifAddress).flatten)],
    SPINEL_PROP_IPV6_ADDRESS_TABLE,
    (((api.otGetUnicastAddresses s.stack).take 9).map packedNetifAddress).flatten,
    rfl, by simp [sentFrames], Or.inl rfl, rfl⟩

theorem pack_fits_of_aux (cap : Nat) (fmt : String) (args : List spinel_arg) (out : List Nat)
    (hp : spinel_datatype_pack_aux fmt.toList args [] [] = some out) (hl : out.length ≤ cap) :
    0 ≤ (spinel_datatype_pack cap fmt args).len ∧ (spinel_datatype_pack cap fmt args).len ≤ cap := by
  unfold spinel_datatype_pack
  rw [hp]
  simp only [if_pos hl]
  exact ⟨by simp, by simpa using hl⟩

theorem fits_UINT_PACKED (v : Nat) :
    0 ≤ (spinel_datatype_pack 253 SPINEL_DATATYPE_UINT_PACKED_S [spinel_arg.uint v]).len ∧
      (spinel_datatype_pack 253 SPINEL_DATATYPE_UINT_PACKED_S [spinel_arg.uint v]).len ≤ 253 := by
  have h := spinel_packed_uint_encode_length v
  exact pack_fits_of_aux 253 _ _ (spinel_packed_uint_encode v)
    (by simp [spinel_datatype_pack_aux, SPINEL_DATATYPE_UINT_PACKED_S]) (by omega)

theorem fits_PROTOCOL_VERSION (a b c : Nat) :
    0 ≤ (spinel_datatype_pack 253
        (SPINEL_DATATYPE_UINT_PACKED_S ++ SPINEL_DATATYPE_UINT_PACKED_S ++
          SPINEL_DATATYPE_UINT_PACKED_S)
        [spinel_arg.uint a, spinel_arg.uint b, spinel_arg.uint c]).len ∧
      (spinel_datatype_pack 253
        (SPINEL_DATATYPE_UINT_PACKED_S ++ SPINEL_DATATYPE_UINT_PACKED_S ++
          SPINEL_DATATYPE_UINT_PACKED_S)
        [spinel_arg.uint a, spinel_arg.uint b, spinel_arg.uint c]).len ≤ 253 := by
  have ha := spinel_packed_uint_encode_length a
  have hb := spinel_packed_uint_encode_length b
  have hc := spinel_packed_uint_encode_length c
  refine pack_fits_of_aux 253 _ _
    (spinel_packed_uint_encode a ++ spinel_packed_uint_encode b ++ spinel_packed_uint_encode c)
    ?_ (by simp only [List.length_append]; omega)
  have hf : (SPINEL_DATATYPE_UINT_PACKED_S ++ SPINEL_DATATYPE_UINT_PACKED_S ++
      SPINEL_DATATYPE_UINT_PACKED_S).toList = ['i', 'i', 'i'] := by decide
  rw [hf]
  simp [spinel_datatype_pack_aux]

theorem fits_UTF8 (t : List Nat) (h : t.length ≤ 252) :
    0 ≤ (spinel_datatype_pack 253 SPINEL_DATATYPE_UTF8_S [spinel_arg.utf8 t]).len ∧
      (spinel_datatype_pack 253 SPINEL_DATATYPE_UTF8_S [spinel_arg.utf8 t]).len ≤ 253 :=
  pack_fits_of_aux 253 _ _ (t ++ [0])
    (by simp [spinel_datatype_pack_aux, SPINEL_DATATYPE_UTF8_S]) (by simp; omega)

theorem fits_UINT8 (v : Nat) :
    0 ≤ (spinel_datatype_pack 253 SPINEL_DATATYPE_UINT8_S [spinel_arg.uint v]).len ∧
      (spinel_datatype_pack 253 SPINEL_DATATYPE_UINT8_S [spinel_arg.uint v]).len ≤ 253 :=
  pack_fits_of_aux 253 _ _ [v % 256]
    (by simp [spinel_datatype_pack_aux, SPINEL_DATATYPE_UINT8_S]) (by simp)

theorem fits_INT8 (v : Int) :
    0 ≤ (spinel_datatype_pack 253 SPINEL_DATATYPE_INT8_S [spinel_arg.int v]).len ∧
      (spinel_datatype_pack 253 SPINEL_DATATYPE_INT8_S [spinel_arg.int v]).len ≤ 253 :=
  pack_fits_of_aux 253 _ _ [(v % 256).toNat]
    (by simp [spinel_datatype_pack_aux, SPINEL_DATATYPE_INT8_S]) (by simp)

theorem fits_UINT16 (v : Nat) :
    0 ≤ (spinel_datatype_pack 253 SPINEL_DATATYPE_UINT16_S [spinel_arg.uint v]).len ∧
      (spinel_datatype_pack 253 SPINEL_DATATYPE_UINT16_S [spinel_arg.uint v]).len ≤ 253 :=
  pack_fits_of_aux 253 _ _ (uint16_le v)
    (by simp [spinel_datatype_pack_aux, SPINEL_DATATYPE_UINT16_S]) (by simp [uint16_le])

theorem fits_UINT32 (v : Nat) :
    0 ≤ (spinel_datatype_pack 253 SPINEL_DATATYPE_UINT32_S [spinel_arg.uint v]).len ∧
      (spinel_datatype_pack 253 SPINEL_DATATYPE_UINT32_S [spinel_arg.uint v]).len ≤ 253 :=
  pack_fits_of_aux 253 _ _ (uint32_le v)
    (by simp [spinel_datatype_pack_aux, SPINEL_DATATYPE_UINT32_S]) (by simp [uint32_le])

theorem fits_EUI64 (b : List Nat) :
    0 ≤ (spinel_datatype_pack 253 SPINEL_DATATYPE_EUI64_S [spinel_arg.bytes b]).len ∧
      (spinel_datatype_pack 253 SPINEL_DATATYPE_EUI64_S [spinel_arg.bytes b]).len ≤ 253 :=
  pack_fits_of_aux 253 _ _ (fixed_octets 8 b)
    (by simp [spinel_datatype_pack_aux, SPINEL_DATATYPE_EUI64_S])
    (by rw [fixed_octets_length]; decide)

theorem fits_IPv6ADDR (b : List Nat) :
    0 ≤ (spinel_datatype_pack 253 SPINEL_DATATYPE_IPv6ADDR_S [spinel_arg.bytes b]).len ∧
      (spinel_datatype_pack 253 SPINEL_DATATYPE_IPv6ADDR_S [spinel_arg.bytes b]).len ≤ 253 :=
  pack_fits_of_aux 253 _ _ (fixed_octets 16 b)
    (by simp [spinel_datatype_pack_aux, SPINEL_DATATYPE_IPv6ADDR_S])
    (by rw [fixed_octets_length]; decide)

theorem fits_ML_PREFIX (b : List Nat) (v : Nat) :
    0 ≤ (spinel_datatype_pack 253 (SPINEL_DATATYPE_IPv6ADDR_S ++ SPINEL_DATATYPE_UINT8_S)
        [spinel_arg.bytes b, spinel_arg.uint v]).len ∧
      (spinel_datatype_pack 253 (SPINEL_DATATYPE_IPv6ADDR_S ++ SPINEL_DATATYPE_UINT8_S)
        [spinel_arg.bytes b, spinel_arg.uint v]).len ≤ 253 := by
  refine pack_fits_of_aux 253 _ _ (fixed_octets 16 b ++ [v % 256]) ?_
    (by rw [List.length_append, fixed_octets_length]; simp)
  have hf : (SPINEL_DATATYPE_IPv6ADDR_S ++ SPINEL_DATATYPE_UINT8_S).toList = ['6', 'C'] := by
    decide
  rw [hf]
  simp [spinel_datatype_pack_aux]

theorem fits_VOID :
    0 ≤ (spinel_datatype_pack 253 SPINEL_DATATYPE_VOID_S []).len ∧
      (spinel_datatype_pack 253 SPINEL_DATATYPE_VOID_S []).len ≤ 253 := by
  decide

theorem fits_DATA (b : List Nat) (h : b.length ≤ 253) :
    0 ≤ (spinel_datatype_pack 253 SPINEL_DATATYPE_DATA_S [spinel_arg.bytes b]).len ∧
      (spinel_datatype_pack 253 SPINEL_DATATYPE_DATA_S [spinel_arg.bytes b]).len ≤ 253 :=
  pack_fits_of_aux 253 _ _ b
    (by simp [spinel_datatype_pack_aux, SPINEL_DATATYPE_DATA_S, format_ends]) h

/-- Every getter replies: whatever the key, the `switch (key)` hands exactly
one `VALUE_IS` frame under the header of the request to the transport and
sets `mSending`, provided the two values of unbounded length fit the frame
buffer of 256 octets: the network name (with its terminator) and the master
key have 253 octets left after the three octets of header, command and key. -/
theorem HandleCommandPropertyGet_switch_repliesTo (api : StackApi σ) (header key : Nat)
    (s : NcpBase σ)
    (hname : key = SPINEL_PROP_NET_NETWORK_NAME → (api.otGetNetworkName s.stack).length ≤ 252)
    (hkey : key = SPINEL_PROP_NET_MASTER_KEY → (api.otGetMasterKey s.stack).length ≤ 253) :
    repliesTo header key s (HandleCommandPropertyGet_switch api header key s) := by
  unfold HandleCommandPropertyGet_switch HandleCommandPropertyGetRoutingTable
  repeat' first
    | with_reducible apply repliesTo_ite
    | (intro h; first | subst h | (rcases h with h | h <;> subst h) | skip)
    | with_reducible refine SendLastStatus_repliesTo _ _ _ _ ?_
    | with_reducible refine repliesTo_call _ _ _ _ _ (SendLastStatus_repliesTo _ _ _ _ ?_)
    | with_reducible exact HandleCommandPropertyGetAddressList_repliesTo _ _ _
    | with_reducible refine SendPropteryUpdate_repliesTo _ _ _ _ _ ?_ ?_
    | with_reducible refine repliesTo_call _ _ _ _ _ (SendPropteryUpdate_repliesTo _ _ _ _ _ ?_ ?_)
    | with_reducible exact fits_UINT_PACKED _
    | with_reducible exact fits_PROTOCOL_VERSION _ _ _
    | with_reducible refine fits_UTF8 _ ?_
    | with_reducible exact fits_UINT8 _
    | with_reducible exact fits_INT8 _
    | with_reducible exact fits_UINT16 _
    | with_reducible exact fits_UINT32 _
    | with_reducible exact fits_EUI64 _
    | with_reducible exact fits_IPv6ADDR _
    | with_reducible exact fits_ML_PREFIX _ _
    | with_reducible exact fits_VOID
    | with_reducible refine fits_DATA _ ?_
    | exact hname rfl
    | exact hkey rfl
    | exact ThreadErrorToSpinelStatus_small _
    | (rw [fixed_octets_length]; decide)
    | decide
    | split

/-- C4: `HandleSendDone` with an empty datagram queue. If the Pending-Get Slot
holds (h, k), the result is that of the GET of (h, k) run with the in-flight
flag clear, which goes through the getter of k instead of being deferred
again, followed by emptying the slot; and the reply is transmitted now:
exactly one frame is handed to the transport, a `VALUE_IS` frame under header
h for property k (or for `LAST_STATUS` where the getter of k answers with a
status), and `mSending` is true afterwards. The transmission is shown for
every key and every answer of the stack that fits the frame buffer of 256
octets: a network name of at most 252 octets and a master key of at most 253
octets, the only two values whose length the stack decides. If the slot is
empty, the only change is `mSending = false`: nothing is added to the log,
the transport is idle. -/
theorem HandleSendDone_empty_queue (api : StackApi σ) (s : NcpBase σ)
    (hq : s.mSendQueue.items = []) :
    (s.mQueuedGetHeader ≠ 0 →
      HandleSendDone api s =
        { HandleCommandPropertyGet api s.mQueuedGetHeader s.mQueuedGetKey
            { s with mSending := false } with mQueuedGetHeader := 0 } ∧
      HandleCommandPropertyGet api s.mQueuedGetHeader s.mQueuedGetKey
          { s with mSending := false } =
        HandleCommandPropertyGet_switch api s.mQueuedGetHeader s.mQueuedGetKey
          { s with mSending := false } ∧
      (HandleSendDone api s).mQueuedGetHeader = 0 ∧
      ((s.mQueuedGetKey = SPINEL_PROP_NET_NETWORK_NAME →
          (api.otGetNetworkName s.stack).length ≤ 252) →
        (s.mQueuedGetKey = SPINEL_PROP_NET_MASTER_KEY →
          (api.otGetMasterKey s.stack).length ≤ 253) →
        ∃ evs prop value,
          (HandleSendDone api s).trace = s.trace ++ evs ∧
          sentFrames evs =
            [[s.mQueuedGetHeader % 256, SPINEL_CMD_PROP_VALUE_IS, prop] ++ value] ∧
          (prop = s.mQueuedGetKey ∨ prop = SPINEL_PROP_LAST_STATUS) ∧
          (HandleSendDone api s).mSending = true)) ∧
    (s.mQueuedGetHeader = 0 →
      HandleSendDone api s = { s with mSending := false } ∧
      (HandleSendDone api s).trace = s.trace ∧
      (HandleSendDone api s).mSending = false) := by
  refine ⟨fun h => ⟨?_, ?_, ?_, fun hname hkey => ?_⟩, fun h => ?_⟩
  · simp [HandleSendDone, HandleSendDone_queue_empty s hq, h, HandleCommandPropertyGet]
  · simp [HandleCommandPropertyGet]
  · simp [HandleSendDone, HandleSendDone_queue_empty s hq, h]
  · rw [HandleSendDone_pending_get api s hq h]
    exact HandleCommandPropertyGet_switch_repliesTo api s.mQueuedGetHeader s.mQueuedGetKey
      { s with mSending := false } hname hkey
  · have he : HandleSendDone api s = { s with mSending := false } := by
      simp [HandleSendDone, HandleSendDone_queue_empty s hq, h]
    rw [he]
    exact ⟨rfl, rfl, rfl⟩

theorem HandleSendDone_empty_queue_witness :
    (∃ evs prop value,
      (HandleSendDone fixedStack (busyEngine [] 0x81 SPINEL_PROP_PHY_CHAN)).trace =
        (busyEngine [] 0x81 SPINEL_PROP_PHY_CHAN).trace ++ evs ∧
      sentFrames evs = [[0x81 % 256, SPINEL_CMD_PROP_VALUE_IS, prop] ++ value] ∧
      (prop = SPINEL_PROP_PHY_CHAN ∨ prop = SPINEL_PROP_LAST_STATUS) ∧
      (HandleSendDone fixedStack (busyEngine [] 0x81 SPINEL_PROP_PHY_CHAN)).mSending = true) ∧
    (HandleSendDone fixedStack (busyEngine [] 0x81 SPINEL_PROP_PHY_CHAN)).mQueuedGetHeader = 0 ∧
    sentFrames (HandleSendDone fixedStack (busyEngine [] 0x81 SPINEL_PROP_PHY_CHAN)).trace =
      [[0x81, SPINEL_CMD_PROP_VALUE_IS, SPINEL_PROP_PHY_CHAN, 15]] ∧
    sentFrames (HandleSendDone fixedStack (busyEngine [] 0x81 SPINEL_PROP_NET_NETWORK_NAME)).trace =
      [[0x81, SPINEL_CMD_PROP_VALUE_IS, SPINEL_PROP_NET_NETWORK_NAME, 79, 84, 0]] ∧
    sentFrames (HandleSendDone fixedStack (busyEngine [] 0x81 4000)).trace =
      [[0x81, SPINEL_CMD_PROP_VALUE_IS, SPINEL_PROP_LAST_STATUS,
        SPINEL_STATUS_PROPERTY_NOT_FOUND]] ∧
    (HandleSendDone fixedStack (busyEngine [] 0 0) = { busyEngine [] 0 0 with mSending := false } ∧
      (HandleSendDone fixedStack (busyEngine [] 0 0)).trace = (busyEngine [] 0 0).trace ∧
      (HandleSendDone fixedStack (busyEngine [] 0 0)).mSending = false) :=
  ⟨((HandleSendDone_empty_queue fixedStack (busyEngine [] 0x81 SPINEL_PROP_PHY_CHAN) rfl).1
      (by decide)).2.2.2 (fun _ => by decide) (fun _ => by decide),
    ((HandleSendDone_empty_queue fixedStack (busyEngine [] 0x81 SPINEL_PROP_PHY_CHAN) rfl).1
      (by decide)).2.2.1,
    by decide, by decide, by decide,
    (HandleSendDone_empty_queue fixedStack (busyEngine [] 0 0) rfl).2 rfl⟩

end Thread
